import Mathlib

/-!
# xinetd attribute parsers (`xinetd/parsers.c`)

A shallow embedding of the attribute parsers of `xinetd/parsers.c` and the
properties proved about them.

Conventions of the embedding

* A C string is the list of its characters before the terminating NUL
  (`cstr`).  Writing NUL at a position of a string truncates the list there.
* The token set handed to a parser (`pset_h values`) is the list of its
  tokens; `pset_pointer` at an index beyond the count reads as NULL (`none`).
* A parser takes the fields of the service record it may write and returns
  its status together with the record as the call leaves it, so writes made
  before a failing return stay visible.
* `int` is a 32-bit two's complement integer, `rlim_t` a 64-bit unsigned
  integer (LP64 hosts).
* The exported parsers carry the name of their file, as in
  `parsers.type_parser`; the static helpers keep their bare names.
* A set of strings owned by the record (`pset_h` field) is `none` while the
  field is NULL and `some` of the list of its members otherwise.
* An argument vector (`char **`) is the list of its slots, `none` being a NULL
  slot; a store outside the slots is undefined (`none`).
* Code that `parsers.c` uses but does not define (the name tables and the mask
  macros of `nvlists.h` and `mask.h`, `parse_base10` of `util.c`,
  `RLIM_INFINITY`, the allocating routines, the environment snapshot, the
  address-list routines) is a parameter of the definitions that use it.
-/

namespace Xinetd

/-! ## Basic types -/

/-- A C string: its characters up to, and without, the terminating NUL. -/
abbrev cstr := List Char

/-- Result of a parser (`status_e`). -/
inductive status_e where
  | OK
  | FAILED
deriving DecidableEq, Repr

/-- The assignment operator of an attribute line: `=`, `+=`, `-=`. -/
inductive assign_op where
  | SET_EQ
  | PLUS_EQ
  | MINUS_EQ
deriving DecidableEq, Repr

open status_e assign_op

/-- The ordered set of tokens of one attribute line. -/
abbrev pset_h := List cstr

/-- Number of tokens: `pset_count( values )`. -/
def pset_count (values : pset_h) : Nat := values.length

/-- Token at an index: `pset_pointer( values, i )`; a slot beyond the count
reads as NULL. -/
def pset_pointer (values : pset_h) (i : Nat) : Option cstr := values.get? i

/-- A set of flags (`mask_t`). -/
abbrev mask_t := Nat

/-- One entry of a name table (`struct name_value`). -/
structure name_value where
  name : cstr
  value : Nat
deriving DecidableEq, Repr

/-- Modelled from the spec: `nv_find_value` of `nvlists.c` is not in the source
at hand; "each token must match a name in a fixed name→bitmask table".  The
entry of the table whose name is the given string, NULL when there is none. -/
def nv_find_value (list : List name_value) (name : cstr) : Option name_value :=
  list.find? (fun nvp => nvp.name == name)

/-- Modelled from the spec: the macro `M_SET` of `mask.h`, "`+=` ORs matched
bits in".  `MASK` gives the bits of a table value. -/
def M_SET (MASK : Nat → mask_t) (mask : mask_t) (v : Nat) : mask_t :=
  mask ||| MASK v

/-- Modelled from the spec: the macro `M_CLEAR` of `mask.h`, "`-=` clears
matched bits": the bits of the mask that are bits of the value are removed. -/
def M_CLEAR (MASK : Nat → mask_t) (mask : mask_t) (v : Nat) : mask_t :=
  mask ^^^ (mask &&& MASK v)

/-- Modelled from the spec: the macro `M_CLEAR_ALL` of `mask.h`, "`=` clears the
mask first". -/
def M_CLEAR_ALL (_mask : mask_t) : mask_t := 0

/-- RPC data of a service (`struct rpc_data`); the parsers store non-negative
numbers in it. -/
structure rpc_data where
  rd_min_version : Int := 0
  rd_max_version : Int := 0
  rd_program_number : Int := 0
deriving DecidableEq, Repr

/-- Modelled from the spec: the "discriminant on the log destination's
polymorphic record" (`logtype_e`, declared in `log.h`); `L_NONE` is the value
of a record no `log_type` line has selected a variant for. -/
inductive logtype_e where
  | L_NONE
  | L_FILE
  | L_SYSLOG
deriving DecidableEq, Repr

/-- The file variant of a log destination (`struct filelog`); `none` is a NULL
file name. -/
structure filelog where
  fl_filename : Option cstr := none
  fl_soft_limit : Nat := 0
  fl_hard_limit : Nat := 0
deriving DecidableEq, Repr

/-- The syslog variant of a log destination (`struct syslog`). -/
structure syslog where
  sl_facility : Nat := 0
  sl_level : Nat := 0
deriving DecidableEq, Repr

/-- The log destination of a service (`struct log`): the discriminant and the
two variants that `LOG_GET_FILELOG` and `LOG_GET_SYSLOG` give access to. -/
structure log where
  l_type : logtype_e := logtype_e.L_NONE
  l_fl : filelog := {}
  l_sl : syslog := {}
deriving DecidableEq, Repr

/-- The fields of `struct service_config` written by the parsers below, each
holding the value assigned to it.  The two fields of the connection-rate
limiter are signed: `cps_parser` tests them for `< 0`. -/
structure service_config where
  sc_type : mask_t := 0
  sc_xflags : mask_t := 0
  sc_log_on_success : mask_t := 0
  sc_log_on_failure : mask_t := 0
  sc_rd : rpc_data := {}
  sc_time_conn_max : Int := 0
  sc_time_wait : Int := 0
  sc_rlim_as : Nat := 0
  sc_rlim_cpu : Nat := 0
  sc_rlim_data : Nat := 0
  sc_rlim_rss : Nat := 0
  sc_rlim_stack : Nat := 0
  sc_port : Nat := 0
  sc_log : log := {}
  sc_env_var_defs : Option (List cstr) := none
  sc_pass_env_vars : Option (List cstr) := none
  sc_disabled : Option (List cstr) := none
  sc_enabled : Option (List cstr) := none
  sc_instances : Int := 0
  sc_per_source : Int := 0
  sc_nice : Int := 0
  sc_deny_time : Int := 0
  sc_umask : Int := 0
  sc_server_argv : Option (List (Option cstr)) := none
deriving DecidableEq, Repr

/-! ## Enumerated-set flags -/

/-- The loop of `parse_value_list`: each token is looked up in `list`; a found
value is set in the mask when `op` is `PLUS_EQ` and cleared otherwise; the
first token that is not found ends the call with `FAILED`.  The mask is
updated in place, so it is returned in both cases. -/
def parse_value_list (MASK : Nat → mask_t) (values : pset_h) (mask : mask_t)
    (list : List name_value) (op : assign_op) : status_e × mask_t :=
  match values with
  | [] => (OK, mask)
  | name :: rest =>
    match nv_find_value list name with
    | some nvp =>
      if op = PLUS_EQ then
        parse_value_list MASK rest (M_SET MASK mask nvp.value) list op
      else
        parse_value_list MASK rest (M_CLEAR MASK mask nvp.value) list op
    | none => (FAILED, mask)

/-- The `type` attribute: `type_parser`. -/
def parsers.type_parser (MASK : Nat → mask_t) (service_types : List name_value)
    (values : pset_h) (scp : service_config) (_op : assign_op) :
    status_e × service_config :=
  if pset_count values ≥ 1 then
    let r := parse_value_list MASK values scp.sc_type service_types PLUS_EQ
    (r.1, { scp with sc_type := r.2 })
  else
    (FAILED, scp)

/-- The `flags` attribute: `flags_parser`. -/
def parsers.flags_parser (MASK : Nat → mask_t) (service_flags : List name_value)
    (values : pset_h) (scp : service_config) (_op : assign_op) :
    status_e × service_config :=
  if pset_count values ≥ 1 then
    let r := parse_value_list MASK values scp.sc_xflags service_flags PLUS_EQ
    (r.1, { scp with sc_xflags := r.2 })
  else
    (FAILED, scp)

/-- The common part of the two log-flag attributes: `parse_log_flags`. -/
def parse_log_flags (MASK : Nat → mask_t) (values : pset_h) (op : assign_op)
    (mask : mask_t) (options : List name_value) : status_e × mask_t :=
  if op = SET_EQ then
    parse_value_list MASK values (M_CLEAR_ALL mask) options PLUS_EQ
  else
    parse_value_list MASK values mask options op

/-- The `log_on_success` attribute: `log_on_success_parser`. -/
def parsers.log_on_success_parser (MASK : Nat → mask_t) (success_log_options : List name_value)
    (values : pset_h) (scp : service_config) (op : assign_op) :
    status_e × service_config :=
  let r := parse_log_flags MASK values op scp.sc_log_on_success success_log_options
  (r.1, { scp with sc_log_on_success := r.2 })

/-- The `log_on_failure` attribute: `log_on_failure_parser`. -/
def parsers.log_on_failure_parser (MASK : Nat → mask_t) (failure_log_options : List name_value)
    (values : pset_h) (scp : service_config) (op : assign_op) :
    status_e × service_config :=
  let r := parse_log_flags MASK values op scp.sc_log_on_failure failure_log_options
  (r.1, { scp with sc_log_on_failure := r.2 })

/-- The union of the bits of the tokens that name an entry of the table. -/
def matched_bits (MASK : Nat → mask_t) (list : List name_value) : pset_h → mask_t
  | [] => 0
  | name :: rest =>
    (match nv_find_value list name with
      | some nvp => MASK nvp.value
      | none => 0) ||| matched_bits MASK list rest

/-- Every token names an entry of the table. -/
def all_known (list : List name_value) (values : pset_h) : Prop :=
  ∀ name ∈ values, (nv_find_value list name).isSome = true

instance (list : List name_value) (values : pset_h) : Decidable (all_known list values) := by
  unfold all_known; infer_instance

/-- The mask an operator makes of a prior mask `m` and the bits `u`. -/
def apply_op (op : assign_op) (m u : mask_t) : mask_t :=
  match op with
  | PLUS_EQ => m ||| u
  | SET_EQ => u
  | MINUS_EQ => Nat.ldiff m u

/-! ## Numbers -/

/-- The value an `int` variable holds after it is assigned the integer `x`
(32 bits, two's complement). -/
def int_wrap (x : Int) : Int := (x + 2 ^ 31) % 2 ^ 32 - 2 ^ 31

/-- The value of an `int` converted to `rlim_t` (64 bits, unsigned). -/
def to_rlim (x : Int) : Nat := (x % 2 ^ 64).toNat

/-- The `rpc_version` attribute: `rpc_version_parser`.  `parse_base10` gives
`some n` when it returns 0 having stored `n`, and `none` when it reports an
error; after an error `min_version` is 0, the value it was initialised with.
Writing NUL over the `'-'` cuts the token at that place; the token set is
returned as the call leaves it.  A NULL token is handed to `strchr`, which is
undefined (`none`). -/
def parsers.rpc_version_parser (parse_base10 : cstr → Option Int) (values : pset_h)
    (scp : service_config) (_op : assign_op) :
    Option (status_e × pset_h × service_config) :=
  match pset_pointer values 0 with
  | none => none
  | some version =>
    let r : cstr × Int × Int :=
      if '-' ∉ version then
        match parse_base10 version with
        | none => (version, 0, int_wrap (0 - 1))
        | some min_version => (version, min_version, min_version)
      else
        let left := version.takeWhile (fun c => c ≠ '-')
        let right := (version.dropWhile (fun c => c ≠ '-')).tail
        match parse_base10 left with
        | none => (left, 0, int_wrap (0 - 1))
        | some min_version =>
          match parse_base10 right with
          | none => (left, min_version, int_wrap (min_version - 1))
          | some max_version => (left, min_version, max_version)
    if r.2.1 > r.2.2 then
      some (FAILED, values.set 0 r.1, scp)
    else
      some (OK, values.set 0 r.1,
        { scp with sc_rd := { scp.sc_rd with rd_min_version := r.2.1, rd_max_version := r.2.2 } })

/-- The record with both fields of the connection-rate limiter reset to 0. -/
def cps_reset (scp : service_config) : service_config :=
  { scp with sc_time_conn_max := 0, sc_time_wait := 0 }

/-- The `cps` attribute: `cps_parser`. -/
def parsers.cps_parser (parse_base10 : cstr → Option Int) (values : pset_h)
    (scp : service_config) (_op : assign_op) : status_e × service_config :=
  match pset_pointer values 0, pset_pointer values 1 with
  | some cps, some waittime =>
    match parse_base10 cps with
    | none => (FAILED, cps_reset scp)
    | some conn_max =>
      match parse_base10 waittime with
      | none => (FAILED, cps_reset scp)
      | some waittime_int =>
        let scp1 := { scp with sc_time_wait := waittime_int, sc_time_conn_max := conn_max }
        if scp1.sc_time_conn_max < 0 ∨ scp1.sc_time_wait < 0 then
          (FAILED, cps_reset scp1)
        else
          (OK, scp1)
  | _, _ => (FAILED, scp)

/-! ## Limits with a suffix -/

/-- The C locale's `isspace`. -/
def isspace (c : Char) : Bool :=
  c = ' ' || c = '\t' || c = '\n' || c = '\x0b' || c = '\x0c' || c = '\r'

/-- The loop `while ( p > limit_str && isspace( *p ) ) p--` of `get_limit`, on
the index of `p` in the string. -/
def skip_space_back (limit_str : cstr) : Nat → Nat
  | 0 => 0
  | p + 1 => if isspace (limit_str.getD (p + 1) '\x00') then skip_space_back limit_str p else p + 1

/-- What a call of `get_limit` leaves: its return value, the value stored
through `res`, and the string as the call leaves it. -/
structure limit_result where
  ret : Int
  res : Nat
  limit_str : cstr
deriving DecidableEq, Repr

/-- Interpret a number of the form `<num>[m|M|k|K]`: `get_limit`.  The product
and the division are those of `rlim_t`, to which both `limit_int` and
`multiplier` are converted. -/
def get_limit (parse_base10 : cstr → Option Int) (limit_str : cstr) : limit_result :=
  if limit_str = [] then
    ⟨-1, 0, limit_str⟩
  else
    let p := skip_space_back limit_str (limit_str.length - 1)
    let c := limit_str.getD p '\x00'
    let r : cstr × Nat :=
      if c = 'k' ∨ c = 'K' then (limit_str.take p, 1024)
      else if c = 'm' ∨ c = 'M' then (limit_str.take p, 1024 * 1024)
      else (limit_str, 1)
    match parse_base10 r.1 with
    | none => ⟨-1, 0, r.1⟩
    | some limit_int =>
      let res := (to_rlim limit_int * r.2) % 2 ^ 64
      if res / r.2 ≠ to_rlim limit_int then
        ⟨-1, 0, r.1⟩
      else
        ⟨0, res, r.1⟩

/-- The literal `"UNLIMITED"`. -/
def UNLIMITED_str : cstr := "UNLIMITED".toList

/-- The `rlim_as` attribute: `rlim_as_parser`.  `get_limit` stores through the
field itself. -/
def parsers.rlim_as_parser (parse_base10 : cstr → Option Int) (RLIM_INFINITY : Nat)
    (values : pset_h) (scp : service_config) (_op : assign_op) :
    Option (status_e × pset_h × service_config) :=
  match pset_pointer values 0 with
  | none => none
  | some mem =>
    if mem = UNLIMITED_str then
      some (OK, values, { scp with sc_rlim_as := RLIM_INFINITY })
    else
      let r := get_limit parse_base10 mem
      if r.ret ≠ 0 then
        some (FAILED, values.set 0 r.limit_str, { scp with sc_rlim_as := r.res })
      else
        some (OK, values.set 0 r.limit_str, { scp with sc_rlim_as := r.res })

/-- The `rlim_cpu` attribute: `rlim_cpu_parser`. -/
def parsers.rlim_cpu_parser (parse_base10 : cstr → Option Int) (RLIM_INFINITY : Nat)
    (values : pset_h) (scp : service_config) (_op : assign_op) :
    Option (status_e × pset_h × service_config) :=
  match pset_pointer values 0 with
  | none => none
  | some cpu_str =>
    if cpu_str = UNLIMITED_str then
      some (OK, values, { scp with sc_rlim_cpu := RLIM_INFINITY })
    else
      match parse_base10 cpu_str with
      | none => some (FAILED, values, scp)
      | some cpu_int =>
        if cpu_int < 0 then
          some (FAILED, values, scp)
        else
          some (OK, values, { scp with sc_rlim_cpu := to_rlim cpu_int })

/-- The `rlim_data` attribute: `rlim_data_parser`. -/
def parsers.rlim_data_parser (parse_base10 : cstr → Option Int) (RLIM_INFINITY : Nat)
    (values : pset_h) (scp : service_config) (_op : assign_op) :
    Option (status_e × pset_h × service_config) :=
  match pset_pointer values 0 with
  | none => none
  | some mem =>
    if mem = UNLIMITED_str then
      some (OK, values, { scp with sc_rlim_data := RLIM_INFINITY })
    else
      let r := get_limit parse_base10 mem
      if r.ret ≠ 0 then
        some (FAILED, values.set 0 r.limit_str, { scp with sc_rlim_data := r.res })
      else
        some (OK, values.set 0 r.limit_str, { scp with sc_rlim_data := r.res })

/-- The `rlim_rss` attribute: `rlim_rss_parser`. -/
def parsers.rlim_rss_parser (parse_base10 : cstr → Option Int) (RLIM_INFINITY : Nat)
    (values : pset_h) (scp : service_config) (_op : assign_op) :
    Option (status_e × pset_h × service_config) :=
  match pset_pointer values 0 with
  | none => none
  | some mem =>
    if mem = UNLIMITED_str then
      some (OK, values, { scp with sc_rlim_rss := RLIM_INFINITY })
    else
      let r := get_limit parse_base10 mem
      if r.ret ≠ 0 then
        some (FAILED, values.set 0 r.limit_str, { scp with sc_rlim_rss := r.res })
      else
        some (OK, values.set 0 r.limit_str, { scp with sc_rlim_rss := r.res })

/-- The `rlim_stack` attribute: `rlim_stack_parser`. -/
def parsers.rlim_stack_parser (parse_base10 : cstr → Option Int) (RLIM_INFINITY : Nat)
    (values : pset_h) (scp : service_config) (_op : assign_op) :
    Option (status_e × pset_h × service_config) :=
  match pset_pointer values 0 with
  | none => none
  | some mem =>
    if mem = UNLIMITED_str then
      some (OK, values, { scp with sc_rlim_stack := RLIM_INFINITY })
    else
      let r := get_limit parse_base10 mem
      if r.ret ≠ 0 then
        some (FAILED, values.set 0 r.limit_str, { scp with sc_rlim_stack := r.res })
      else
        some (OK, values.set 0 r.limit_str, { scp with sc_rlim_stack := r.res })

/-! ## Port -/

/-- The macro `PORT_BITS`. -/
def PORT_BITS : Nat := 16

/-- The macro `PORT_MAX`, `1 << PORT_BITS`. -/
def PORT_MAX : Int := 2 ^ PORT_BITS

/-- The `port` attribute: `port_parser`.  The field holds `(uint16_t)port`. -/
def parsers.port_parser (parse_base10 : cstr → Option Int) (values : pset_h)
    (scp : service_config) (_op : assign_op) : Option (status_e × service_config) :=
  match pset_pointer values 0 with
  | none => none
  | some token =>
    match parse_base10 token with
    | none => some (FAILED, scp)
    | some port =>
      if port < 0 ∨ port ≥ PORT_MAX then
        some (FAILED, scp)
      else
        some (OK, { scp with sc_port := (port % 2 ^ 16).toNat })

/-! ## Sets of strings -/

/-- The allocating routines that `parsers.c` calls: `new_string` gives the copy
of a string or NULL, `pset_create` gives an empty set or NULL (`false`), and
`pset_add` gives the set with one more member or NULL. -/
structure allocator where
  new_string : cstr → Option cstr
  pset_create : Bool
  pset_add : List cstr → cstr → Option (List cstr)

/-- No allocation fails: `new_string` gives the string itself, `pset_create` a
set, and `pset_add` the set with the new member after the others. -/
def no_alloc_failure (mem : allocator) : Prop :=
  (∀ s, mem.new_string s = some s) ∧ mem.pset_create = true ∧
    ∀ set p, mem.pset_add set p = some (set ++ [p])

/-- What the allocating routines give when they do not fail: `new_string` the
string itself and `pset_add` the set with the new member after the others. -/
def alloc_sound (mem : allocator) : Prop :=
  (∀ s p, mem.new_string s = some p → p = s) ∧
    ∀ set p set1, mem.pset_add set p = some set1 → set1 = set ++ [p]

/-- The macro `NEW_SET`: a NULL set is created; `none` when the creation fails,
in which case the macro returns `FAILED`. -/
def NEW_SET {α : Type} (mem : allocator) (set : Option (List α)) : Option (List α) :=
  match set with
  | some members => some members
  | none => if mem.pset_create then some [] else none

/-- Copy a string and add the copy to a set: `add_new_string`. -/
def add_new_string (mem : allocator) (set : List cstr) (str : cstr) :
    status_e × List cstr :=
  match mem.new_string str with
  | none => (FAILED, set)
  | some p =>
    match mem.pset_add set p with
    | none => (FAILED, set)
    | some set1 => (OK, set1)

/-- The loop of `env_parser` over the tokens. -/
def env_loop (mem : allocator) : pset_h → List cstr → status_e × List cstr
  | [], set => (OK, set)
  | str :: rest, set =>
    if '=' ∉ str then
      (FAILED, set)
    else
      let r := add_new_string mem set str
      if r.1 = FAILED then (FAILED, r.2) else env_loop mem rest r.2

/-- The `env` attribute: `env_parser`. -/
def parsers.env_parser (mem : allocator) (values : pset_h) (scp : service_config)
    (op : assign_op) : status_e × service_config :=
  if op = MINUS_EQ then
    (FAILED, scp)
  else
    match NEW_SET mem scp.sc_env_var_defs with
    | none => (FAILED, scp)
    | some set =>
      let set1 := if op = SET_EQ ∧ pset_count set ≠ 0 then [] else set
      let r := env_loop mem values set1
      (r.1, { scp with sc_env_var_defs := some r.2 })

/-- The search loop of `passenv_parser`: the index `v` of the first member
equal to the name, `none` when `found` stays `NO`. -/
def find_var (env_var : cstr) : List cstr → Option Nat
  | [] => none
  | x :: xs => if env_var = x then some 0 else (find_var env_var xs).map (fun v => v + 1)

/-- Modelled from the spec: `pset_remove_index` of the set library ("a general
ordered-set container"): the member at the index is taken out, the others
keep their order. -/
def pset_remove_index (set : List cstr) (v : Nat) : List cstr := set.eraseIdx v

/-- The loop of `passenv_parser` over the tokens, with the operator as set
before the loop.  `env_lookup` is the lookup in the environment snapshot
`std_env`. -/
def passenv_loop (mem : allocator) (env_lookup : cstr → Option cstr) (op : assign_op) :
    pset_h → List cstr → status_e × List cstr
  | [], var_set => (OK, var_set)
  | env_var :: rest, var_set =>
    let found := (find_var env_var var_set).isSome
    let v := (find_var env_var var_set).getD var_set.length
    if (op = MINUS_EQ ∧ found = false) ∨ (op ≠ MINUS_EQ ∧ found = true) then
      passenv_loop mem env_lookup op rest var_set
    else if op = MINUS_EQ then
      passenv_loop mem env_lookup op rest (pset_remove_index var_set v)
    else if env_lookup env_var = none then
      passenv_loop mem env_lookup op rest var_set
    else
      let r := add_new_string mem var_set env_var
      if r.1 = FAILED then (FAILED, r.2) else passenv_loop mem env_lookup op rest r.2

/-- The `passenv` attribute: `passenv_parser`. -/
def parsers.passenv_parser (mem : allocator) (env_lookup : cstr → Option cstr)
    (values : pset_h) (scp : service_config) (op : assign_op) :
    status_e × service_config :=
  match NEW_SET mem scp.sc_pass_env_vars with
  | none => (FAILED, scp)
  | some var_set =>
    let r :=
      if op = SET_EQ then passenv_loop mem env_lookup PLUS_EQ values []
      else passenv_loop mem env_lookup op values var_set
    (r.1, { scp with sc_pass_env_vars := some r.2 })

/-- The loop of `disabled_parser` and of `enabled_parser` over the tokens. -/
def add_names (mem : allocator) : pset_h → List cstr → status_e × List cstr
  | [], set => (OK, set)
  | name :: rest, set =>
    let r := add_new_string mem set name
    if r.1 = FAILED then (FAILED, r.2) else add_names mem rest r.2

/-- The `disabled` attribute: `disabled_parser`. -/
def parsers.disabled_parser (mem : allocator) (values : pset_h) (scp : service_config)
    (_op : assign_op) : status_e × service_config :=
  match NEW_SET mem scp.sc_disabled with
  | none => (FAILED, scp)
  | some set =>
    let r := add_names mem values set
    (r.1, { scp with sc_disabled := some r.2 })

/-- The `enabled` attribute: `enabled_parser`. -/
def parsers.enabled_parser (mem : allocator) (values : pset_h) (scp : service_config)
    (_op : assign_op) : status_e × service_config :=
  match NEW_SET mem scp.sc_enabled with
  | none => (FAILED, scp)
  | some set =>
    let r := add_names mem values set
    (r.1, { scp with sc_enabled := some r.2 })

/-! ## Address lists -/

/-- The loop of `parse_inet_addresses` over the tokens; `addrlist_func` is
`addrlist_add` or `addrlist_remove`, which work on the set in place. -/
def inet_loop {α : Type} (addrlist_func : List α → cstr → status_e × List α) :
    pset_h → List α → status_e × List α
  | [], addr_set => (OK, addr_set)
  | str_addr :: rest, addr_set =>
    let r := addrlist_func addr_set str_addr
    if r.1 = FAILED then (FAILED, r.2) else inet_loop addrlist_func rest r.2

/-- The common part of `only_from` and `no_access`: `parse_inet_addresses`, on
the address list it is given a pointer to.  The members of an address list
belong to `addrlist_add` and `addrlist_remove`, which are parameters. -/
def parse_inet_addresses {α : Type} (mem : allocator)
    (addrlist_add addrlist_remove : List α → cstr → status_e × List α)
    (values : pset_h) (op : assign_op) (addr_list : Option (List α)) :
    status_e × Option (List α) :=
  match NEW_SET mem addr_list with
  | none => (FAILED, addr_list)
  | some addr_set =>
    let r :=
      if op = SET_EQ then inet_loop addrlist_add values []
      else if op = PLUS_EQ then inet_loop addrlist_add values addr_set
      else inet_loop addrlist_remove values addr_set
    (r.1, some r.2)

/-- The `only_from` attribute: `only_from_parser`, on the field `sc_only_from`. -/
def parsers.only_from_parser {α : Type} (mem : allocator)
    (addrlist_add addrlist_remove : List α → cstr → status_e × List α)
    (values : pset_h) (sc_only_from : Option (List α)) (op : assign_op) :
    status_e × Option (List α) :=
  parse_inet_addresses mem addrlist_add addrlist_remove values op sc_only_from

/-- The `no_access` attribute: `no_access_parser`, on the field `sc_no_access`. -/
def parsers.no_access_parser {α : Type} (mem : allocator)
    (addrlist_add addrlist_remove : List α → cstr → status_e × List α)
    (values : pset_h) (sc_no_access : Option (List α)) (op : assign_op) :
    status_e × Option (List α) :=
  parse_inet_addresses mem addrlist_add addrlist_remove values op sc_no_access

/-! ## Log destination -/

/-- The extra room of a derived hard limit: `unsigned extra = soft_limit / 100`,
raised to `LOG_EXTRA_MIN` or lowered to `LOG_EXTRA_MAX`. -/
def log_extra (LOG_EXTRA_MIN LOG_EXTRA_MAX : Nat) (soft_limit : Nat) : Nat :=
  let extra := (soft_limit / 100) % 2 ^ 32
  if extra < LOG_EXTRA_MIN then LOG_EXTRA_MIN
  else if extra > LOG_EXTRA_MAX then LOG_EXTRA_MAX
  else extra

/-- The `FILE` variant of `log_type`: `parse_filelog`.  The three shapes of the
token list are the counts 2, 3 and 4; every other count fails.  The tokens
are returned as `get_limit` leaves them. -/
def parse_filelog (parse_base10 : cstr → Option Int) (mem : allocator)
    (LOG_EXTRA_MIN LOG_EXTRA_MAX : Nat) (flp : filelog) (values : pset_h) :
    status_e × pset_h × filelog :=
  match values with
  | [_, name] =>
    match mem.new_string name with
    | none => (FAILED, values, flp)
    | some file => (OK, values, { flp with fl_filename := some file })
  | [type, name, soft] =>
    match mem.new_string name with
    | none => (FAILED, values, flp)
    | some file =>
      let rs := get_limit parse_base10 soft
      if rs.ret ≠ 0 then
        (FAILED, [type, name, rs.limit_str], flp)
      else
        let soft_limit := rs.res
        let extra := log_extra LOG_EXTRA_MIN LOG_EXTRA_MAX soft_limit
        let hard_limit := (soft_limit + extra) % 2 ^ 64
        (OK, [type, name, rs.limit_str],
          { fl_filename := some file, fl_soft_limit := soft_limit, fl_hard_limit := hard_limit })
  | [type, name, soft, hard] =>
    match mem.new_string name with
    | none => (FAILED, values, flp)
    | some file =>
      let rs := get_limit parse_base10 soft
      if rs.ret ≠ 0 then
        (FAILED, [type, name, rs.limit_str, hard], flp)
      else
        let soft_limit := rs.res
        let rh := get_limit parse_base10 hard
        if rh.ret ≠ 0 then
          (FAILED, [type, name, rs.limit_str, rh.limit_str], flp)
        else
          let hard_limit := rh.res
          if hard_limit < soft_limit then
            (FAILED, [type, name, rs.limit_str, rh.limit_str], flp)
          else
            (OK, [type, name, rs.limit_str, rh.limit_str],
              { fl_filename := some file, fl_soft_limit := soft_limit,
                fl_hard_limit := hard_limit })
  | _ => (FAILED, values, flp)

/-- The `SYSLOG` variant of `log_type`: `parse_syslog`.  The two shapes of the
token list are the counts 2 and 3; every other count fails.  The facility is
stored before the level is looked up. -/
def parse_syslog (syslog_facilities syslog_levels : List name_value)
    (DEFAULT_SERVICE_SYSLOG_LEVEL : Nat) (slp : syslog) (values : pset_h) :
    status_e × syslog :=
  match values with
  | [_, facility] =>
    match nv_find_value syslog_facilities facility with
    | none => (FAILED, slp)
    | some nvp =>
      (OK, { slp with sl_facility := nvp.value, sl_level := DEFAULT_SERVICE_SYSLOG_LEVEL })
  | [_, facility, level] =>
    match nv_find_value syslog_facilities facility with
    | none => (FAILED, slp)
    | some nvp =>
      let slp1 := { slp with sl_facility := nvp.value }
      match nv_find_value syslog_levels level with
      | none => (FAILED, slp1)
      | some nvl => (OK, { slp1 with sl_level := nvl.value })
  | _ => (FAILED, slp)

/-- The literal `"FILE"`. -/
def FILE_str : cstr := "FILE".toList

/-- The literal `"SYSLOG"`. -/
def SYSLOG_str : cstr := "SYSLOG".toList

/-- The `log_type` attribute: `log_type_parser`. -/
def parsers.log_type_parser (parse_base10 : cstr → Option Int) (mem : allocator)
    (LOG_EXTRA_MIN LOG_EXTRA_MAX : Nat) (syslog_facilities syslog_levels : List name_value)
    (DEFAULT_SERVICE_SYSLOG_LEVEL : Nat) (values : pset_h) (scp : service_config)
    (_op : assign_op) : status_e × pset_h × service_config :=
  match values with
  | [] => (FAILED, values, scp)
  | type :: _ =>
    if type = FILE_str then
      let r := parse_filelog parse_base10 mem LOG_EXTRA_MIN LOG_EXTRA_MAX scp.sc_log.l_fl values
      if r.1 = FAILED then
        (FAILED, r.2.1, { scp with sc_log := { scp.sc_log with l_fl := r.2.2 } })
      else
        (OK, r.2.1, { scp with sc_log :=
          { scp.sc_log with l_fl := r.2.2, l_type := logtype_e.L_FILE } })
    else if type = SYSLOG_str then
      let r := parse_syslog syslog_facilities syslog_levels DEFAULT_SERVICE_SYSLOG_LEVEL
        scp.sc_log.l_sl values
      if r.1 = FAILED then
        (FAILED, values, { scp with sc_log := { scp.sc_log with l_sl := r.2 } })
      else
        (OK, values, { scp with sc_log :=
          { scp.sc_log with l_sl := r.2, l_type := logtype_e.L_SYSLOG } })
    else
      (FAILED, values, scp)

/-! ## Numeric scalars written through the field -/

/-- The `instances` attribute: `instances_parser`.  `parse_base10` stores
through the field itself: after an error the field holds what it has left
there, `parse_error_res` of the token and of the prior content; a negative
number is in the field when the test `< 0` fails the call. -/
def parsers.instances_parser (parse_base10 : cstr → Option Int)
    (parse_error_res : cstr → Int → Int) (UNLIMITED : Int) (values : pset_h)
    (scp : service_config) (_op : assign_op) : Option (status_e × service_config) :=
  match pset_pointer values 0 with
  | none => none
  | some instances =>
    if instances = UNLIMITED_str then
      some (OK, { scp with sc_instances := UNLIMITED })
    else
      match parse_base10 instances with
      | none =>
        some (FAILED, { scp with sc_instances := parse_error_res instances scp.sc_instances })
      | some n =>
        if n < 0 then
          some (FAILED, { scp with sc_instances := n })
        else
          some (OK, { scp with sc_instances := n })

/-- The `per_source` attribute: `per_source_parser`. -/
def parsers.per_source_parser (parse_base10 : cstr → Option Int)
    (parse_error_res : cstr → Int → Int) (UNLIMITED : Int) (values : pset_h)
    (scp : service_config) (_op : assign_op) : Option (status_e × service_config) :=
  match pset_pointer values 0 with
  | none => none
  | some per_source =>
    if per_source = UNLIMITED_str then
      some (OK, { scp with sc_per_source := UNLIMITED })
    else
      match parse_base10 per_source with
      | none =>
        some (FAILED, { scp with sc_per_source := parse_error_res per_source scp.sc_per_source })
      | some n =>
        if n < 0 then
          some (FAILED, { scp with sc_per_source := n })
        else
          some (OK, { scp with sc_per_source := n })

/-- The `nice` attribute: `nice_parser`. -/
def parsers.nice_parser (parse_base10 : cstr → Option Int)
    (parse_error_res : cstr → Int → Int) (values : pset_h)
    (scp : service_config) (_op : assign_op) : Option (status_e × service_config) :=
  match pset_pointer values 0 with
  | none => none
  | some token =>
    match parse_base10 token with
    | none => some (FAILED, { scp with sc_nice := parse_error_res token scp.sc_nice })
    | some n => some (OK, { scp with sc_nice := n })

/-- The literal `"FOREVER"`. -/
def FOREVER_str : cstr := "FOREVER".toList

/-- The literal `"NEVER"`. -/
def NEVER_str : cstr := "NEVER".toList

/-- The `deny_time` attribute: `deny_time_parser`. -/
def parsers.deny_time_parser (parse_base10 : cstr → Option Int)
    (parse_error_res : cstr → Int → Int) (values : pset_h)
    (scp : service_config) (_op : assign_op) : Option (status_e × service_config) :=
  match pset_pointer values 0 with
  | none => none
  | some deny_time =>
    if deny_time = FOREVER_str then
      some (OK, { scp with sc_deny_time := -1 })
    else if deny_time = NEVER_str then
      some (OK, { scp with sc_deny_time := 0 })
    else
      match parse_base10 deny_time with
      | none =>
        some (FAILED, { scp with sc_deny_time := parse_error_res deny_time scp.sc_deny_time })
      | some n => some (OK, { scp with sc_deny_time := n })

/-- The `umask` attribute: `umask_parser`.  `parse_int` is given the token, the
base and the terminator; 0777 is 511. -/
def parsers.umask_parser (parse_int : cstr → Nat → Int → Option Int) (values : pset_h)
    (scp : service_config) (_op : assign_op) : Option (status_e × service_config) :=
  match pset_pointer values 0 with
  | none => none
  | some umask_str =>
    match parse_int umask_str 8 (-1) with
    | none => some (FAILED, scp)
    | some umask_int =>
      if umask_int < 0 ∨ umask_int > 511 then
        some (FAILED, scp)
      else
        some (OK, { scp with sc_umask := umask_int })

/-! ## Argument vector -/

/-- Modelled from the spec: `argv_alloc` of `util.c` is not in the source at
hand; the vector is "a null-terminated ordered sequence of owned strings",
so `argv_alloc( count )` gives `count` slots and the one of the terminator,
all NULL. -/
def argv_alloc (count : Nat) : List (Option cstr) := List.replicate (count + 1) none

/-- The assignment `argv[ i ] = s`; `none` when the slot is outside the vector. -/
def argv_store (argv : List (Option cstr)) (i : Nat) (s : Option cstr) :
    Option (List (Option cstr)) :=
  if i < argv.length then some (argv.set i s) else none

/-- The cleanup loop `for ( i = 1 ; i < bound ; i++ ) free( argv[ i ] )`: the
slots whose string it frees, in order. -/
def cleanup_slots (bound : Nat) : List Nat := List.range' 1 (bound - 1)

/-- How the filling of the vector ends: every token is copied, or a copy fails
and the cleanup loop frees the slots listed; the vector is the one built up to
that point. -/
inductive argv_outcome where
  | filled (argv : List (Option cstr))
  | out_of_memory (argv : List (Option cstr)) (freed : List Nat)
deriving DecidableEq, Repr

/-- The loop of `server_args_parser` when `SC_NAMEINARGS` holds, from the token
`u` on: token `u` goes to slot `u`. -/
def fill_from_zero (mem : allocator) : pset_h → Nat → List (Option cstr) → Option argv_outcome
  | [], _, argv => some (argv_outcome.filled argv)
  | token :: rest, u, argv =>
    match mem.new_string token with
    | none => some (argv_outcome.out_of_memory argv (cleanup_slots u))
    | some s =>
      match argv_store argv u (some s) with
      | none => none
      | some argv1 => fill_from_zero mem rest (u + 1) argv1

/-- The loop of `server_args_parser` when `SC_NAMEINARGS` does not hold, from
the slot `argv_index` on, and the two stores of NULL that follow it. -/
def fill_from_one (mem : allocator) : pset_h → Nat → List (Option cstr) → Option argv_outcome
  | [], argv_index, argv =>
    match argv_store argv 0 none with
    | none => none
    | some argv1 =>
      match argv_store argv1 argv_index none with
      | none => none
      | some argv2 => some (argv_outcome.filled argv2)
  | token :: rest, argv_index, argv =>
    match mem.new_string token with
    | none => some (argv_outcome.out_of_memory argv (cleanup_slots argv_index))
    | some s =>
      match argv_store argv argv_index (some s) with
      | none => none
      | some argv1 => fill_from_one mem rest (argv_index + 1) argv1

/-- What a call of `server_args_parser` leaves: its status, the record, the
vector it has built (freed as a whole when a copy fails) and the slots whose
string the cleanup loop has freed. -/
structure server_args_result where
  status : status_e
  scp : service_config
  argv : List (Option cstr)
  freed : List Nat
deriving DecidableEq, Repr

/-- The `server_args` attribute: `server_args_parser`.  `SC_NAMEINARGS` is the
value of the macro of that name on the record. -/
def parsers.server_args_parser (mem : allocator) (SC_NAMEINARGS : Bool) (values : pset_h)
    (scp : service_config) (_op : assign_op) : Option server_args_result :=
  let n_args := pset_count values
  let argv := argv_alloc (n_args + 1)
  let count := pset_count values
  if count = 0 then
    some ⟨FAILED, scp, argv, []⟩
  else
    match (if SC_NAMEINARGS then fill_from_zero mem values 0 argv
      else fill_from_one mem values 1 argv) with
    | none => none
    | some (argv_outcome.out_of_memory argv1 freed) => some ⟨FAILED, scp, argv1, freed⟩
    | some (argv_outcome.filled argv1) =>
      some ⟨OK, { scp with sc_server_argv := some argv1 }, argv1, []⟩

/-! ## Bind address -/

/-- The address families given as a hint to the resolver. -/
inductive ai_family_e where
  | AF_UNSPEC
  | AF_INET
  | AF_INET6
deriving DecidableEq, Repr

/-- The hints of `bind_parser` that differ from one call to the other: the
family and whether `AI_NUMERICHOST` is set (`AI_CANONNAME` and `SOCK_STREAM`
are always set). -/
structure addrinfo_hints where
  ai_family : ai_family_e
  ai_numerichost : Bool
deriving DecidableEq, Repr

/-- The hints `bind_parser` computes for a host text. -/
def bind_hints (check_hostname : cstr → Int) (adr : cstr) : addrinfo_hints :=
  if check_hostname adr = 0 then ⟨ai_family_e.AF_INET, true⟩
  else if ':' ∈ adr then ⟨ai_family_e.AF_INET6, true⟩
  else ⟨ai_family_e.AF_UNSPEC, false⟩

/-- The `bind` attribute: `bind_parser`, on the fields `sc_bind_addr` and
`sc_orig_bind_addr`.  `getaddrinfo` gives its return value and the list of
the records found, each with its `ai_addr` (`none` when NULL); `addr_cnt` is 1
when no record follows the first; `malloc_ok` tells whether `malloc` gives
memory. -/
def parsers.bind_parser {α : Type} (mem : allocator) (malloc_ok : Bool)
    (check_hostname : cstr → Int)
    (getaddrinfo : cstr → addrinfo_hints → Int × List (Option α))
    (values : pset_h) (sc_bind_addr : Option α) (sc_orig_bind_addr : Option cstr)
    (_op : assign_op) : Option (status_e × Option α × Option cstr) :=
  match pset_pointer values 0 with
  | none => none
  | some adr =>
    let r := getaddrinfo adr (bind_hints check_hostname adr)
    if r.1 < 0 then
      some (FAILED, sc_bind_addr, sc_orig_bind_addr)
    else
      match r.2 with
      | [] => some (FAILED, sc_bind_addr, sc_orig_bind_addr)
      | none :: _ => some (FAILED, sc_bind_addr, sc_orig_bind_addr)
      | some ai_addr :: more =>
        match more with
        | [] =>
          if malloc_ok then
            some (OK, some ai_addr, sc_orig_bind_addr)
          else
            some (FAILED, none, sc_orig_bind_addr)
        | _ :: _ => some (OK, sc_bind_addr, mem.new_string adr)

/-- The multiplier a suffix letter stands for: 1024 for `k` and `K`,
1024 * 1024 for `m` and `M`; no other character is a suffix. -/
def suffix_multiplier (c : Char) : Option Nat :=
  if c = 'k' ∨ c = 'K' then some 1024
  else if c = 'm' ∨ c = 'M' then some (1024 * 1024)
  else none

/-- A non-empty string of decimal digits. -/
def is_digits (d : cstr) : Prop := d ≠ [] ∧ ∀ c ∈ d, c.isDigit = true

instance (d : cstr) : Decidable (is_digits d) := by
  unfold is_digits; infer_instance

/-! ### Example instances of the parameters -/

/-- The number written by a string of decimal digits, read from the left with
`acc` the value of the digits already read; `none` when a character is not a
digit. -/
def decimal_value (acc : Nat) : List Char → Option Nat
  | [] => some acc
  | c :: cs => if c.isDigit then decimal_value (acc * 10 + (c.toNat - 48)) cs else none

/-- Modelled from the spec: `parse_base10` of `util.c` is not in the source at
hand; a token is "parsed as a base-10 integer with strict syntax (no trailing
garbage)".  This instance of the parameter accepts an optional `-` followed by
one or more decimal digits whose value fits an `int`, and nothing else. -/
def strict_base10 (s : cstr) : Option Int :=
  match s with
  | [] => none
  | '-' :: ds =>
    if ds = [] then none
    else (decimal_value 0 ds).bind (fun n => if n ≤ 2 ^ 31 then some (-(n : Int)) else none)
  | ds => (decimal_value 0 ds).bind (fun n => if n < 2 ^ 31 then some (n : Int) else none)

/-- An instance of the `MASK` macro: the value is a bit number. -/
def MASK_bit (v : Nat) : mask_t := 1 <<< v

/-- An instance of a name table, with three entries. -/
def nv_example : List name_value :=
  [⟨"HOST".toList, 0⟩, ⟨"PID".toList, 1⟩, ⟨"EXIT".toList, 2⟩]

/-- An allocator none of whose allocations fails. -/
def mem_ok : allocator :=
  ⟨fun s => some s, true, fun set p => some (set ++ [p])⟩

/-- An instance of the environment snapshot: `PATH` and `HOME` are defined. -/
def env_example (name : cstr) : Option cstr :=
  if name = "PATH".toList then some "/bin".toList
  else if name = "HOME".toList then some "/root".toList
  else none

/-- An instance of the table of syslog facilities. -/
def facilities_example : List name_value :=
  [⟨"daemon".toList, 24⟩, ⟨"auth".toList, 32⟩]

/-- An instance of the table of syslog levels. -/
def levels_example : List name_value :=
  [⟨"info".toList, 6⟩, ⟨"notice".toList, 5⟩]

/-- An instance of `addrlist_add`: the address is kept as its text, and a text
without a digit is refused. -/
def addrlist_add_example (addr_set : List cstr) (str_addr : cstr) : status_e × List cstr :=
  if str_addr.any Char.isDigit then (OK, addr_set ++ [str_addr]) else (FAILED, addr_set)

/-- An instance of `addrlist_remove`: the address equal to the text is taken out. -/
def addrlist_remove_example (addr_set : List cstr) (str_addr : cstr) : status_e × List cstr :=
  (OK, addr_set.filter (fun a => a ≠ str_addr))

/-- An instance of `parse_error_res`: `parse_base10` stores 0 on an error. -/
def error_res_zero (_token : cstr) (_prior : Int) : Int := 0

/-- The number written by a string of digits of a base not above 10, read from
the left; `none` when a character is not a digit of the base. -/
def base_value (base : Nat) (acc : Nat) : List Char → Option Nat
  | [] => some acc
  | c :: cs =>
    if c.isDigit ∧ c.toNat - 48 < base then base_value base (acc * base + (c.toNat - 48)) cs
    else none

/-- An instance of `parse_int`: one or more digits of the base, whose value fits
an `int`, and nothing else. -/
def strict_int (s : cstr) (base : Nat) (_term : Int) : Option Int :=
  if s = [] then none
  else (base_value base 0 s).bind (fun n => if n < 2 ^ 31 then some (n : Int) else none)

/-- An allocator whose `new_string` fails on the string `b` and on no other. -/
def mem_fail_b : allocator :=
  ⟨fun s => if s = "b".toList then none else some s, true, fun set p => some (set ++ [p])⟩

/-- An instance of `check_hostname`: 0 for a text of digits and dots. -/
def check_hostname_example (adr : cstr) : Int :=
  if adr.all (fun c => c.isDigit || c = '.') then 0 else -1

/-- An instance of `getaddrinfo`, with addresses kept as their text: a numeric
text is its own single address, `localhost` has two addresses, `empty`
resolves to no record, and any other name is an error. -/
def getaddrinfo_example (adr : cstr) (hints : addrinfo_hints) : Int × List (Option cstr) :=
  if hints.ai_numerichost then (0, [some adr])
  else if adr = "localhost".toList then (0, [some "127.0.0.1".toList, some "::1".toList])
  else if adr = "empty".toList then (0, [])
  else (-2, [])

/-! ## Lemmas on masks and on the loop of `parse_value_list` -/

theorem testBit_M_CLEAR (MASK : Nat → mask_t) (m : mask_t) (v i : Nat) :
    (M_CLEAR MASK m v).testBit i = (m.testBit i && !(MASK v).testBit i) := by
  unfold M_CLEAR
  rw [Nat.testBit_xor, Nat.testBit_land]
  cases m.testBit i <;> cases (MASK v).testBit i <;> rfl

theorem ldiff_M_CLEAR (MASK : Nat → mask_t) (m : mask_t) (v : Nat) (u : mask_t) :
    Nat.ldiff (M_CLEAR MASK m v) u = Nat.ldiff m (MASK v ||| u) := by
  apply Nat.eq_of_testBit_eq
  intro i
  rw [Nat.testBit_ldiff, Nat.testBit_ldiff, testBit_M_CLEAR, Nat.testBit_lor]
  cases m.testBit i <;> cases (MASK v).testBit i <;> cases u.testBit i <;> rfl

theorem ldiff_zero_right (m : Nat) : Nat.ldiff m 0 = m := by
  apply Nat.eq_of_testBit_eq
  intro i
  rw [Nat.testBit_ldiff]
  simp

theorem all_known_cons (list : List name_value) (name : cstr) (rest : pset_h) :
    all_known list (name :: rest) ↔
      (nv_find_value list name).isSome = true ∧ all_known list rest := by
  simp [all_known]

/-- On a list of known names with `PLUS_EQ` the loop ends with `OK` and has
ORed the bits of every token into the mask. -/
theorem parse_value_list_set (MASK : Nat → mask_t) (list : List name_value)
    (values : pset_h) (m : mask_t) (h : all_known list values) :
    parse_value_list MASK values m list PLUS_EQ = (OK, m ||| matched_bits MASK list values) := by
  induction values generalizing m with
  | nil => simp [parse_value_list, matched_bits]
  | cons name rest ih =>
    obtain ⟨h1, h2⟩ := (all_known_cons list name rest).1 h
    obtain ⟨nvp, hn⟩ := Option.isSome_iff_exists.1 h1
    rw [parse_value_list, matched_bits, hn]
    simp only [if_true]
    rw [ih _ h2, M_SET, Nat.lor_assoc]

/-- On a list of known names with an operator other than `PLUS_EQ` the loop
ends with `OK` and has cleared the bits of every token in the mask. -/
theorem parse_value_list_clear (MASK : Nat → mask_t) (list : List name_value)
    (values : pset_h) (m : mask_t) (op : assign_op) (hop : op ≠ PLUS_EQ)
    (h : all_known list values) :
    parse_value_list MASK values m list op = (OK, Nat.ldiff m (matched_bits MASK list values)) := by
  induction values generalizing m with
  | nil => simp [parse_value_list, matched_bits, ldiff_zero_right]
  | cons name rest ih =>
    obtain ⟨h1, h2⟩ := (all_known_cons list name rest).1 h
    obtain ⟨nvp, hn⟩ := Option.isSome_iff_exists.1 h1
    rw [parse_value_list, matched_bits, hn]
    simp only [if_neg hop]
    rw [ih _ h2, ldiff_M_CLEAR]

/-- Known names in front of a list are consumed by the loop, which goes on
with the mask they leave. -/
theorem parse_value_list_append (MASK : Nat → mask_t) (list : List name_value)
    (pre rest : pset_h) (m : mask_t) (op : assign_op) (h : all_known list pre) :
    parse_value_list MASK (pre ++ rest) m list op =
      parse_value_list MASK rest (parse_value_list MASK pre m list op).2 list op := by
  induction pre generalizing m with
  | nil => simp [parse_value_list]
  | cons name pre ih =>
    obtain ⟨h1, h2⟩ := (all_known_cons list name pre).1 h
    obtain ⟨nvp, hn⟩ := Option.isSome_iff_exists.1 h1
    rw [List.cons_append, parse_value_list, parse_value_list, hn]
    by_cases hop : op = PLUS_EQ
    · simp only [if_pos hop]; exact ih _ h2
    · simp only [if_neg hop]; exact ih _ h2

/-- The loop stops with `FAILED` at the first unknown name, the mask being
what the names before it made of it. -/
theorem parse_value_list_unknown (MASK : Nat → mask_t) (list : List name_value)
    (pre post : pset_h) (bad : cstr) (m : mask_t) (op : assign_op)
    (h : all_known list pre) (hbad : nv_find_value list bad = none) :
    parse_value_list MASK (pre ++ bad :: post) m list op =
      (FAILED, (parse_value_list MASK pre m list op).2) := by
  rw [parse_value_list_append MASK list pre (bad :: post) m op h, parse_value_list, hbad]

/-! ## Enumerated-set flags: the operators -/

/-- C1: for `log_on_success_parser` and `log_on_failure_parser`, every prior
mask and every token list whose tokens all name entries of the keyword's
table, the call succeeds; the mask is then the prior mask ORed with the union
of the matched bits for `+=`, exactly that union for `=`, and the prior mask
without the bits of that union for `-=`. -/
theorem log_flags_parsers_apply_operator (MASK : Nat → mask_t)
    (success_log_options failure_log_options : List name_value)
    (values : pset_h) (scp : service_config) :
    (all_known success_log_options values →
      parsers.log_on_success_parser MASK success_log_options values scp PLUS_EQ =
        (OK, { scp with sc_log_on_success :=
          (scp.sc_log_on_success ||| matched_bits MASK success_log_options values) }) ∧
      parsers.log_on_success_parser MASK success_log_options values scp SET_EQ =
        (OK, { scp with sc_log_on_success := matched_bits MASK success_log_options values }) ∧
      parsers.log_on_success_parser MASK success_log_options values scp MINUS_EQ =
        (OK, { scp with sc_log_on_success :=
          (Nat.ldiff scp.sc_log_on_success (matched_bits MASK success_log_options values)) })) ∧
    (all_known failure_log_options values →
      parsers.log_on_failure_parser MASK failure_log_options values scp PLUS_EQ =
        (OK, { scp with sc_log_on_failure :=
          (scp.sc_log_on_failure ||| matched_bits MASK failure_log_options values) }) ∧
      parsers.log_on_failure_parser MASK failure_log_options values scp SET_EQ =
        (OK, { scp with sc_log_on_failure := matched_bits MASK failure_log_options values }) ∧
      parsers.log_on_failure_parser MASK failure_log_options values scp MINUS_EQ =
        (OK, { scp with sc_log_on_failure :=
          (Nat.ldiff scp.sc_log_on_failure (matched_bits MASK failure_log_options values)) })) := by
  refine ⟨fun h => ⟨?_, ?_, ?_⟩, fun h => ⟨?_, ?_, ?_⟩⟩
  · simp [parsers.log_on_success_parser, parse_log_flags, parse_value_list_set MASK _ values _ h]
  · simp [parsers.log_on_success_parser, parse_log_flags, M_CLEAR_ALL,
      parse_value_list_set MASK _ values _ h]
  · simp [parsers.log_on_success_parser, parse_log_flags,
      parse_value_list_clear MASK _ values _ MINUS_EQ (by decide) h]
  · simp [parsers.log_on_failure_parser, parse_log_flags, parse_value_list_set MASK _ values _ h]
  · simp [parsers.log_on_failure_parser, parse_log_flags, M_CLEAR_ALL,
      parse_value_list_set MASK _ values _ h]
  · simp [parsers.log_on_failure_parser, parse_log_flags,
      parse_value_list_clear MASK _ values _ MINUS_EQ (by decide) h]

/-- C1 at the tokens `HOST EXIT` of the example table, prior mask 6. -/
theorem log_flags_parsers_apply_operator_witness :
    all_known nv_example ["HOST".toList, "EXIT".toList] ∧
    parsers.log_on_success_parser MASK_bit nv_example ["HOST".toList, "EXIT".toList]
        { sc_log_on_success := 6 } MINUS_EQ =
      (OK, { ({ sc_log_on_success := 6 } : service_config) with sc_log_on_success :=
        (Nat.ldiff 6 (matched_bits MASK_bit nv_example ["HOST".toList, "EXIT".toList])) }) ∧
    parsers.log_on_failure_parser MASK_bit nv_example ["HOST".toList, "EXIT".toList]
        { sc_log_on_failure := 6 } PLUS_EQ =
      (OK, { ({ sc_log_on_failure := 6 } : service_config) with sc_log_on_failure :=
        (6 ||| matched_bits MASK_bit nv_example ["HOST".toList, "EXIT".toList]) }) :=
  ⟨by decide,
   ((log_flags_parsers_apply_operator MASK_bit nv_example nv_example
      ["HOST".toList, "EXIT".toList] { sc_log_on_success := 6 }).1 (by decide)).2.2,
   ((log_flags_parsers_apply_operator MASK_bit nv_example nv_example
      ["HOST".toList, "EXIT".toList] { sc_log_on_failure := 6 }).2 (by decide)).1⟩

theorem parse_log_flags_unknown (MASK : Nat → mask_t) (options : List name_value)
    (pre post : pset_h) (bad : cstr) (m : mask_t) (op : assign_op)
    (h : all_known options pre) (hbad : nv_find_value options bad = none) :
    parse_log_flags MASK (pre ++ bad :: post) op m options =
      (FAILED, apply_op op m (matched_bits MASK options pre)) := by
  cases op
  · simp [parse_log_flags, parse_value_list_unknown MASK options pre post bad _ _ h hbad,
      parse_value_list_set MASK options pre _ h, M_CLEAR_ALL, apply_op]
  · simp [parse_log_flags, parse_value_list_unknown MASK options pre post bad _ _ h hbad,
      parse_value_list_set MASK options pre _ h, apply_op]
  · simp [parse_log_flags, parse_value_list_unknown MASK options pre post bad _ _ h hbad,
      parse_value_list_clear MASK options pre _ MINUS_EQ (by decide) h, apply_op]

/-- C2, as the code has it: a token list with an unknown name fails for each of
`type`, `flags`, `log_on_success`, `log_on_failure`, every operator and every
prior mask; the mask is left as the tokens before the first unknown name made
it (for the two log keywords the operator applied to the prior mask, which `=`
has cleared; for `type` and `flags` their bits ORed in), so it is the prior
mask when the unknown name comes first and the operator is not `=` on a log
keyword. -/
theorem unknown_name_fails_after_known_names (MASK : Nat → mask_t)
    (service_types service_flags success_log_options failure_log_options : List name_value)
    (pre post : pset_h) (bad : cstr) (scp : service_config) (op : assign_op) :
    (all_known service_types pre → nv_find_value service_types bad = none →
      parsers.type_parser MASK service_types (pre ++ bad :: post) scp op =
        (FAILED, { scp with sc_type := scp.sc_type ||| matched_bits MASK service_types pre })) ∧
    (all_known service_flags pre → nv_find_value service_flags bad = none →
      parsers.flags_parser MASK service_flags (pre ++ bad :: post) scp op =
        (FAILED, { scp with sc_xflags := scp.sc_xflags ||| matched_bits MASK service_flags pre })) ∧
    (all_known success_log_options pre → nv_find_value success_log_options bad = none →
      parsers.log_on_success_parser MASK success_log_options (pre ++ bad :: post) scp op =
        (FAILED, { scp with sc_log_on_success :=
          (apply_op op scp.sc_log_on_success (matched_bits MASK success_log_options pre)) })) ∧
    (all_known failure_log_options pre → nv_find_value failure_log_options bad = none →
      parsers.log_on_failure_parser MASK failure_log_options (pre ++ bad :: post) scp op =
        (FAILED, { scp with sc_log_on_failure :=
          (apply_op op scp.sc_log_on_failure (matched_bits MASK failure_log_options pre)) })) ∧
    (nv_find_value service_types bad = none →
      parsers.type_parser MASK service_types (bad :: post) scp op = (FAILED, scp)) ∧
    (nv_find_value service_flags bad = none →
      parsers.flags_parser MASK service_flags (bad :: post) scp op = (FAILED, scp)) ∧
    (nv_find_value success_log_options bad = none → op ≠ SET_EQ →
      parsers.log_on_success_parser MASK success_log_options (bad :: post) scp op = (FAILED, scp)) ∧
    (nv_find_value failure_log_options bad = none → op ≠ SET_EQ →
      parsers.log_on_failure_parser MASK failure_log_options (bad :: post) scp op = (FAILED, scp)) := by
  refine ⟨?_, ?_, ?_, ?_, ?_, ?_, ?_, ?_⟩
  · intro h hbad
    simp [parsers.type_parser, pset_count, parse_value_list_unknown MASK _ pre post bad _ _ h hbad,
      parse_value_list_set MASK _ pre _ h]
  · intro h hbad
    simp [parsers.flags_parser, pset_count, parse_value_list_unknown MASK _ pre post bad _ _ h hbad,
      parse_value_list_set MASK _ pre _ h]
  · intro h hbad
    simp [parsers.log_on_success_parser, parse_log_flags_unknown MASK _ pre post bad _ _ h hbad]
  · intro h hbad
    simp [parsers.log_on_failure_parser, parse_log_flags_unknown MASK _ pre post bad _ _ h hbad]
  · intro hbad
    simp [parsers.type_parser, pset_count, parse_value_list, hbad]
  · intro hbad
    simp [parsers.flags_parser, pset_count, parse_value_list, hbad]
  · intro hbad hop
    simp [parsers.log_on_success_parser, parse_log_flags, hop, parse_value_list, hbad]
  · intro hbad hop
    simp [parsers.log_on_failure_parser, parse_log_flags, hop, parse_value_list, hbad]

/-- C2 at the tokens `HOST bogus EXIT` of the example table. -/
theorem unknown_name_fails_after_known_names_witness :
    all_known nv_example ["HOST".toList] ∧
    nv_find_value nv_example "bogus".toList = none ∧
    SET_EQ ≠ PLUS_EQ ∧ PLUS_EQ ≠ SET_EQ ∧
    parsers.type_parser MASK_bit nv_example (["HOST".toList] ++ "bogus".toList :: ["EXIT".toList])
        { sc_type := 4 } SET_EQ =
      (FAILED, { ({ sc_type := 4 } : service_config) with sc_type :=
        (4 ||| matched_bits MASK_bit nv_example ["HOST".toList]) }) ∧
    parsers.flags_parser MASK_bit nv_example (["HOST".toList] ++ "bogus".toList :: ["EXIT".toList])
        { sc_xflags := 4 } SET_EQ =
      (FAILED, { ({ sc_xflags := 4 } : service_config) with sc_xflags :=
        (4 ||| matched_bits MASK_bit nv_example ["HOST".toList]) }) ∧
    parsers.log_on_success_parser MASK_bit nv_example
        (["HOST".toList] ++ "bogus".toList :: ["EXIT".toList]) { sc_log_on_success := 4 } SET_EQ =
      (FAILED, { ({ sc_log_on_success := 4 } : service_config) with sc_log_on_success :=
        (apply_op SET_EQ 4 (matched_bits MASK_bit nv_example ["HOST".toList])) }) ∧
    parsers.log_on_failure_parser MASK_bit nv_example
        (["HOST".toList] ++ "bogus".toList :: ["EXIT".toList]) { sc_log_on_failure := 4 } SET_EQ =
      (FAILED, { ({ sc_log_on_failure := 4 } : service_config) with sc_log_on_failure :=
        (apply_op SET_EQ 4 (matched_bits MASK_bit nv_example ["HOST".toList])) }) ∧
    parsers.type_parser MASK_bit nv_example ("bogus".toList :: ["EXIT".toList]) { sc_type := 4 } SET_EQ =
      (FAILED, { sc_type := 4 }) ∧
    parsers.flags_parser MASK_bit nv_example ("bogus".toList :: ["EXIT".toList]) { sc_xflags := 4 } SET_EQ =
      (FAILED, { sc_xflags := 4 }) ∧
    parsers.log_on_success_parser MASK_bit nv_example ("bogus".toList :: ["EXIT".toList])
        { sc_log_on_success := 4 } PLUS_EQ = (FAILED, { sc_log_on_success := 4 }) ∧
    parsers.log_on_failure_parser MASK_bit nv_example ("bogus".toList :: ["EXIT".toList])
        { sc_log_on_failure := 4 } PLUS_EQ = (FAILED, { sc_log_on_failure := 4 }) :=
  ⟨by decide, by decide, by decide, by decide,
   (unknown_name_fails_after_known_names MASK_bit nv_example nv_example nv_example nv_example
      ["HOST".toList] ["EXIT".toList] "bogus".toList { sc_type := 4 } SET_EQ).1
      (by decide) (by decide),
   (unknown_name_fails_after_known_names MASK_bit nv_example nv_example nv_example nv_example
      ["HOST".toList] ["EXIT".toList] "bogus".toList { sc_xflags := 4 } SET_EQ).2.1
      (by decide) (by decide),
   (unknown_name_fails_after_known_names MASK_bit nv_example nv_example nv_example nv_example
      ["HOST".toList] ["EXIT".toList] "bogus".toList { sc_log_on_success := 4 } SET_EQ).2.2.1
      (by decide) (by decide),
   (unknown_name_fails_after_known_names MASK_bit nv_example nv_example nv_example nv_example
      ["HOST".toList] ["EXIT".toList] "bogus".toList { sc_log_on_failure := 4 } SET_EQ).2.2.2.1
      (by decide) (by decide),
   (unknown_name_fails_after_known_names MASK_bit nv_example nv_example nv_example nv_example
      ["HOST".toList] ["EXIT".toList] "bogus".toList { sc_type := 4 } SET_EQ).2.2.2.2.1
      (by decide),
   (unknown_name_fails_after_known_names MASK_bit nv_example nv_example nv_example nv_example
      ["HOST".toList] ["EXIT".toList] "bogus".toList { sc_xflags := 4 } SET_EQ).2.2.2.2.2.1
      (by decide),
   (unknown_name_fails_after_known_names MASK_bit nv_example nv_example nv_example nv_example
      ["HOST".toList] ["EXIT".toList] "bogus".toList { sc_log_on_success := 4 } PLUS_EQ).2.2.2.2.2.2.1
      (by decide) (by decide),
   (unknown_name_fails_after_known_names MASK_bit nv_example nv_example nv_example nv_example
      ["HOST".toList] ["EXIT".toList] "bogus".toList { sc_log_on_failure := 4 } PLUS_EQ).2.2.2.2.2.2.2
      (by decide) (by decide)⟩

/-- C2 fails as stated: with `=` the log-flag mask 6 is cleared before the
unknown name `bogus` is met, and with `+=` the bit of `HOST` is set in the mask
6 before `bogus` is met; both calls fail with a mask that is not the prior
one. -/
theorem unknown_name_mask_changed_counterexample :
    nv_find_value nv_example "bogus".toList = none ∧
    parsers.log_on_success_parser MASK_bit nv_example ["bogus".toList]
        { sc_log_on_success := 6 } SET_EQ = (FAILED, { sc_log_on_success := 0 }) ∧
    (parsers.log_on_success_parser MASK_bit nv_example ["bogus".toList]
        { sc_log_on_success := 6 } SET_EQ).2.sc_log_on_success ≠ 6 ∧
    parsers.type_parser MASK_bit nv_example ["HOST".toList, "bogus".toList]
        { sc_type := 6 } PLUS_EQ = (FAILED, { sc_type := 7 }) ∧
    (parsers.type_parser MASK_bit nv_example ["HOST".toList, "bogus".toList]
        { sc_type := 6 } PLUS_EQ).2.sc_type ≠ 6 := by
  decide

/-- C3, as the code has it: `type_parser` and `flags_parser` do not look at the
operator; for every prior mask and every non-empty list of known names the
call, with `=` as with any operator, succeeds and leaves the prior mask ORed
with the union of the matched bits, which is exactly that union when no bit
was set before the call. -/
theorem type_flags_parsers_or_into_mask (MASK : Nat → mask_t)
    (service_types service_flags : List name_value)
    (values : pset_h) (scp : service_config) (op : assign_op) (hne : values ≠ []) :
    (all_known service_types values →
      parsers.type_parser MASK service_types values scp op =
        (OK, { scp with sc_type := (scp.sc_type ||| matched_bits MASK service_types values) })) ∧
    (all_known service_flags values →
      parsers.flags_parser MASK service_flags values scp op =
        (OK, { scp with sc_xflags := (scp.sc_xflags ||| matched_bits MASK service_flags values) })) ∧
    (all_known service_types values → scp.sc_type = 0 →
      parsers.type_parser MASK service_types values scp op =
        (OK, { scp with sc_type := matched_bits MASK service_types values })) ∧
    (all_known service_flags values → scp.sc_xflags = 0 →
      parsers.flags_parser MASK service_flags values scp op =
        (OK, { scp with sc_xflags := matched_bits MASK service_flags values })) := by
  have hlen : 1 ≤ values.length := by
    cases values with
    | nil => exact absurd rfl hne
    | cons a l => simp
  refine ⟨?_, ?_, ?_, ?_⟩
  · intro h
    simp [parsers.type_parser, pset_count, hlen, parse_value_list_set MASK _ values _ h]
  · intro h
    simp [parsers.flags_parser, pset_count, hlen, parse_value_list_set MASK _ values _ h]
  · intro h h0
    simp [parsers.type_parser, pset_count, hlen, parse_value_list_set MASK _ values _ h, h0]
  · intro h h0
    simp [parsers.flags_parser, pset_count, hlen, parse_value_list_set MASK _ values _ h, h0]

/-- C3 at the token `PID` of the example table, with `=`. -/
theorem type_flags_parsers_or_into_mask_witness :
    ["PID".toList] ≠ [] ∧ all_known nv_example ["PID".toList] ∧
    parsers.type_parser MASK_bit nv_example ["PID".toList] { sc_type := 1 } SET_EQ =
      (OK, { ({ sc_type := 1 } : service_config) with sc_type :=
        (1 ||| matched_bits MASK_bit nv_example ["PID".toList]) }) ∧
    parsers.flags_parser MASK_bit nv_example ["PID".toList] { sc_xflags := 1 } SET_EQ =
      (OK, { ({ sc_xflags := 1 } : service_config) with sc_xflags :=
        (1 ||| matched_bits MASK_bit nv_example ["PID".toList]) }) ∧
    parsers.type_parser MASK_bit nv_example ["PID".toList] { } SET_EQ =
      (OK, { ({ } : service_config) with sc_type :=
        (matched_bits MASK_bit nv_example ["PID".toList]) }) ∧
    parsers.flags_parser MASK_bit nv_example ["PID".toList] { } SET_EQ =
      (OK, { ({ } : service_config) with sc_xflags :=
        (matched_bits MASK_bit nv_example ["PID".toList]) }) :=
  ⟨by decide, by decide,
   (type_flags_parsers_or_into_mask MASK_bit nv_example nv_example ["PID".toList]
      { sc_type := 1 } SET_EQ (by decide)).1 (by decide),
   (type_flags_parsers_or_into_mask MASK_bit nv_example nv_example ["PID".toList]
      { sc_xflags := 1 } SET_EQ (by decide)).2.1 (by decide),
   (type_flags_parsers_or_into_mask MASK_bit nv_example nv_example ["PID".toList]
      { } SET_EQ (by decide)).2.2.1 (by decide) rfl,
   (type_flags_parsers_or_into_mask MASK_bit nv_example nv_example ["PID".toList]
      { } SET_EQ (by decide)).2.2.2 (by decide) rfl⟩

/-- C3 fails as stated: with the bit of `HOST` set before the call, `=` with
the token `PID` leaves both bits set (mask 3), not the bit of `PID` alone
(mask 2). -/
theorem type_flags_set_eq_keeps_prior_counterexample :
    all_known nv_example ["PID".toList] ∧
    matched_bits MASK_bit nv_example ["PID".toList] = 2 ∧
    parsers.type_parser MASK_bit nv_example ["PID".toList] { sc_type := 1 } SET_EQ =
      (OK, { sc_type := 3 }) ∧
    parsers.flags_parser MASK_bit nv_example ["PID".toList] { sc_xflags := 1 } SET_EQ =
      (OK, { sc_xflags := 3 }) := by
  decide

/-! ## RPC version range -/

theorem takeWhile_dash (left right : cstr) (hleft : '-' ∉ left) :
    (left ++ '-' :: right).takeWhile (fun c => c ≠ '-') = left := by
  induction left with
  | nil => simp
  | cons c cs ih =>
    have hc : c ≠ '-' := fun h => hleft (by simp [h])
    have hcs : '-' ∉ cs := fun h => hleft (by simp [h])
    rw [List.cons_append, List.takeWhile_cons_of_pos (by simpa using hc), ih hcs]

theorem dropWhile_dash (left right : cstr) (hleft : '-' ∉ left) :
    ((left ++ '-' :: right).dropWhile (fun c => c ≠ '-')).tail = right := by
  induction left with
  | nil => simp
  | cons c cs ih =>
    have hc : c ≠ '-' := fun h => hleft (by simp [h])
    have hcs : '-' ∉ cs := fun h => hleft (by simp [h])
    rw [List.cons_append, List.dropWhile_cons_of_pos (by simpa using hc), ih hcs]

theorem int_wrap_pred (n : Int) (hlo : -2 ^ 31 < n) (hhi : n < 2 ^ 31) :
    int_wrap (n - 1) = n - 1 := by
  unfold int_wrap
  omega

/-- What `rpc_version_parser` makes of a token with a `'-'` in it. -/
theorem rpc_version_parser_range (parse_base10 : cstr → Option Int)
    (left right : cstr) (rest : pset_h) (scp : service_config) (op : assign_op)
    (hleft : '-' ∉ left) :
    parsers.rpc_version_parser parse_base10 ((left ++ '-' :: right) :: rest) scp op =
      (let r : Int × Int :=
        match parse_base10 left with
        | none => (0, int_wrap (0 - 1))
        | some min_version =>
          match parse_base10 right with
          | none => (min_version, int_wrap (min_version - 1))
          | some max_version => (min_version, max_version)
      if r.1 > r.2 then some (FAILED, left :: rest, scp)
      else some (OK, left :: rest,
        { scp with sc_rd := { scp.sc_rd with rd_min_version := r.1, rd_max_version := r.2 } })) := by
  have hmem : ¬ ('-' ∉ left ++ '-' :: right) := by simp
  simp only [parsers.rpc_version_parser, pset_pointer, List.get?_cons_zero, if_neg hmem,
    takeWhile_dash left right hleft, dropWhile_dash left right hleft, List.set_cons_zero]
  cases parse_base10 left with
  | none => rfl
  | some n =>
    cases parse_base10 right with
    | none => rfl
    | some m => rfl

/-- C4, as the code has it: for every token without `'-'` that parses as the
base-10 integer `n` (non-negative, there being no sign), `rpc_version_parser`
succeeds and stores the one-version range min = `n`, max = `n`. -/
theorem rpc_version_single_stores_n_n (parse_base10 : cstr → Option Int)
    (version : cstr) (rest : pset_h) (scp : service_config) (op : assign_op) (n : Int)
    (hdash : '-' ∉ version) (hparse : parse_base10 version = some n) (_hn : 0 ≤ n) :
    parsers.rpc_version_parser parse_base10 (version :: rest) scp op =
      some (OK, version :: rest,
        { scp with sc_rd := { scp.sc_rd with rd_min_version := n, rd_max_version := n } }) := by
  simp [parsers.rpc_version_parser, pset_pointer, hdash, hparse]

/-- C4 at the token `3`. -/
theorem rpc_version_single_stores_n_n_witness :
    '-' ∉ "3".toList ∧ strict_base10 "3".toList = some 3 ∧ (0 : Int) ≤ 3 ∧
    parsers.rpc_version_parser strict_base10 ("3".toList :: []) { } SET_EQ =
      some (OK, "3".toList :: [],
        { ({ } : service_config) with sc_rd :=
          { ({ } : service_config).sc_rd with rd_min_version := 3, rd_max_version := 3 } }) :=
  ⟨by decide, by decide, by decide,
   rpc_version_single_stores_n_n strict_base10 "3".toList [] { } SET_EQ 3
      (by decide) (by decide) (by decide)⟩

/-- C4 fails as stated: the token `3` is stored as min = 3, max = 3, not as the
invalid range min = 3, max = 2. -/
theorem rpc_version_single_counterexample :
    parsers.rpc_version_parser strict_base10 ["3".toList] { } SET_EQ =
      some (OK, ["3".toList], { sc_rd := { rd_min_version := 3, rd_max_version := 3 } }) ∧
    parsers.rpc_version_parser strict_base10 ["3".toList] { } SET_EQ ≠
      some (OK, ["3".toList], { sc_rd := { rd_min_version := 3, rd_max_version := 2 } }) := by
  decide

/-- C5: for every token `left-right` (no `'-'` in `left`): when the two sides
parse as the non-negative integers `n` and `m`, `rpc_version_parser` succeeds
with min = `n`, max = `m` if `n ≤ m`, and fails leaving the stored versions as
they were if `n > m`; it also fails without changing them when the left side
does not parse, and when the right side does not parse. -/
theorem rpc_version_range_min_max (parse_base10 : cstr → Option Int)
    (left right : cstr) (rest : pset_h) (scp : service_config) (op : assign_op)
    (hleft : '-' ∉ left) :
    (∀ n m : Int, parse_base10 left = some n → parse_base10 right = some m →
        0 ≤ n → n ≤ m →
      parsers.rpc_version_parser parse_base10 ((left ++ '-' :: right) :: rest) scp op =
        some (OK, left :: rest,
          { scp with sc_rd := { scp.sc_rd with rd_min_version := n, rd_max_version := m } })) ∧
    (∀ n m : Int, parse_base10 left = some n → parse_base10 right = some m → n > m →
      parsers.rpc_version_parser parse_base10 ((left ++ '-' :: right) :: rest) scp op =
        some (FAILED, left :: rest, scp)) ∧
    (parse_base10 left = none →
      parsers.rpc_version_parser parse_base10 ((left ++ '-' :: right) :: rest) scp op =
        some (FAILED, left :: rest, scp)) ∧
    (∀ n : Int, parse_base10 left = some n → parse_base10 right = none →
      -2 ^ 31 < n → n < 2 ^ 31 →
      parsers.rpc_version_parser parse_base10 ((left ++ '-' :: right) :: rest) scp op =
        some (FAILED, left :: rest, scp)) := by
  refine ⟨?_, ?_, ?_, ?_⟩
  · intro n m hn hm _ hle
    rw [rpc_version_parser_range parse_base10 left right rest scp op hleft, hn, hm]
    simp [not_lt.2 hle]
  · intro n m hn hm hgt
    rw [rpc_version_parser_range parse_base10 left right rest scp op hleft, hn, hm]
    simp [hgt]
  · intro hn
    rw [rpc_version_parser_range parse_base10 left right rest scp op hleft, hn]
    simp [int_wrap]
  · intro n hn hm hlo hhi
    rw [rpc_version_parser_range parse_base10 left right rest scp op hleft, hn, hm]
    simp [int_wrap_pred n hlo hhi]

/-- C5 at the tokens `3-5`, `5-3`, `x-5` and `3-x`. -/
theorem rpc_version_range_min_max_witness :
    '-' ∉ "3".toList ∧ '-' ∉ "5".toList ∧ '-' ∉ "x".toList ∧
    strict_base10 "3".toList = some 3 ∧ strict_base10 "5".toList = some 5 ∧
    strict_base10 "x".toList = none ∧
    parsers.rpc_version_parser strict_base10 (("3".toList ++ '-' :: "5".toList) :: []) { } SET_EQ =
      some (OK, "3".toList :: [],
        { ({ } : service_config) with sc_rd :=
          { ({ } : service_config).sc_rd with rd_min_version := 3, rd_max_version := 5 } }) ∧
    parsers.rpc_version_parser strict_base10 (("5".toList ++ '-' :: "3".toList) :: []) { } SET_EQ =
      some (FAILED, "5".toList :: [], { }) ∧
    parsers.rpc_version_parser strict_base10 (("x".toList ++ '-' :: "5".toList) :: []) { } SET_EQ =
      some (FAILED, "x".toList :: [], { }) ∧
    parsers.rpc_version_parser strict_base10 (("3".toList ++ '-' :: "x".toList) :: []) { } SET_EQ =
      some (FAILED, "3".toList :: [], { }) :=
  ⟨by decide, by decide, by decide, by decide, by decide, by decide,
   (rpc_version_range_min_max strict_base10 "3".toList "5".toList [] { } SET_EQ (by decide)).1
      3 5 (by decide) (by decide) (by decide) (by decide),
   (rpc_version_range_min_max strict_base10 "5".toList "3".toList [] { } SET_EQ (by decide)).2.1
      5 3 (by decide) (by decide) (by decide),
   (rpc_version_range_min_max strict_base10 "x".toList "5".toList [] { } SET_EQ (by decide)).2.2.1
      (by decide),
   (rpc_version_range_min_max strict_base10 "3".toList "x".toList [] { } SET_EQ (by decide)).2.2.2
      3 (by decide) (by decide) (by decide) (by decide)⟩

/-! ## Connections per second -/

/-- C6: for every pair of tokens `(a, b)` given to `cps_parser`: if both parse
as base-10 integers and both are non-negative the call succeeds with
max-connections = `a` and wait-time = `b`; if either does not parse or is
negative the call fails and both fields are 0 afterwards. -/
theorem cps_parser_pair (parse_base10 : cstr → Option Int) (a b : cstr)
    (scp : service_config) (op : assign_op) :
    (∀ x y : Int, parse_base10 a = some x → parse_base10 b = some y → 0 ≤ x → 0 ≤ y →
      parsers.cps_parser parse_base10 [a, b] scp op =
        (OK, { scp with sc_time_wait := y, sc_time_conn_max := x })) ∧
    ((parse_base10 a = none ∨ parse_base10 b = none ∨
        (∃ x, parse_base10 a = some x ∧ x < 0) ∨ (∃ y, parse_base10 b = some y ∧ y < 0)) →
      parsers.cps_parser parse_base10 [a, b] scp op =
        (FAILED, { scp with sc_time_conn_max := 0, sc_time_wait := 0 })) := by
  refine ⟨?_, ?_⟩
  · intro x y hx hy hx0 hy0
    simp [parsers.cps_parser, pset_pointer, hx, hy, not_lt.2 hx0, not_lt.2 hy0]
  · intro h
    cases ha : parse_base10 a with
    | none => simp [parsers.cps_parser, pset_pointer, ha, cps_reset]
    | some x =>
      cases hb : parse_base10 b with
      | none => simp [parsers.cps_parser, pset_pointer, ha, hb, cps_reset]
      | some y =>
        have hneg : x < 0 ∨ y < 0 := by
          rcases h with h | h | ⟨x', hx', hlt⟩ | ⟨y', hy', hlt⟩
          · rw [ha] at h; exact absurd h (by simp)
          · rw [hb] at h; exact absurd h (by simp)
          · rw [ha] at hx'; cases hx'; exact Or.inl hlt
          · rw [hb] at hy'; cases hy'; exact Or.inr hlt
        simp [parsers.cps_parser, pset_pointer, ha, hb, hneg, cps_reset]

/-- C6 at the pairs `("10", "30")` and `("-1", "5")`. -/
theorem cps_parser_pair_witness :
    strict_base10 "10".toList = some 10 ∧ strict_base10 "30".toList = some 30 ∧
    (0 : Int) ≤ 10 ∧ (0 : Int) ≤ 30 ∧
    parsers.cps_parser strict_base10 ["10".toList, "30".toList] { } SET_EQ =
      (OK, { ({ } : service_config) with sc_time_wait := 30, sc_time_conn_max := 10 }) ∧
    (∃ x, strict_base10 "-1".toList = some x ∧ x < 0) ∧
    parsers.cps_parser strict_base10 ["-1".toList, "5".toList]
        { sc_time_conn_max := 7, sc_time_wait := 8 } SET_EQ =
      (FAILED, { ({ sc_time_conn_max := 7, sc_time_wait := 8 } : service_config) with
        sc_time_conn_max := 0, sc_time_wait := 0 }) :=
  ⟨by decide, by decide, by decide, by decide,
   (cps_parser_pair strict_base10 "10".toList "30".toList { } SET_EQ).1 10 30
      (by decide) (by decide) (by decide) (by decide),
   ⟨-1, by decide, by decide⟩,
   (cps_parser_pair strict_base10 "-1".toList "5".toList
      { sc_time_conn_max := 7, sc_time_wait := 8 } SET_EQ).2
      (Or.inr (Or.inr (Or.inl ⟨-1, by decide, by decide⟩)))⟩

/-- C7, as the code has it: `cps_parser` reads its first two tokens only; a
list of fewer than two tokens fails (the missing token reads as NULL) and
leaves the record as it was, and a list of two or more tokens is handled as
the pair of its first two tokens, whatever follows them. -/
theorem cps_parser_reads_two_tokens (parse_base10 : cstr → Option Int)
    (scp : service_config) (op : assign_op) :
    (∀ values : pset_h, pset_count values < 2 →
      parsers.cps_parser parse_base10 values scp op = (FAILED, scp)) ∧
    (∀ (a b : cstr) (rest : pset_h),
      parsers.cps_parser parse_base10 (a :: b :: rest) scp op =
        parsers.cps_parser parse_base10 [a, b] scp op) := by
  refine ⟨?_, ?_⟩
  · intro values hlen
    match values, hlen with
    | [], _ => simp [parsers.cps_parser, pset_pointer]
    | [a], _ => simp [parsers.cps_parser, pset_pointer]
    | a :: b :: rest, h => exact absurd h (by simp [pset_count])
  · intro a b rest
    simp [parsers.cps_parser, pset_pointer]

/-- C7 at the one-token list `("10")`. -/
theorem cps_parser_reads_two_tokens_witness :
    pset_count ["10".toList] < 2 ∧
    parsers.cps_parser strict_base10 ["10".toList] { sc_time_conn_max := 7 } SET_EQ =
      (FAILED, { sc_time_conn_max := 7 }) :=
  ⟨by decide,
   (cps_parser_reads_two_tokens strict_base10 { sc_time_conn_max := 7 } SET_EQ).1
      ["10".toList] (by decide)⟩

/-- C7 fails as stated: the three tokens `("10", "30", "x")` are accepted, with
max-connections 10 and wait-time 30. -/
theorem cps_parser_three_tokens_counterexample :
    pset_count ["10".toList, "30".toList, "x".toList] ≠ 2 ∧
    parsers.cps_parser strict_base10 ["10".toList, "30".toList, "x".toList] { } SET_EQ =
      (OK, { sc_time_conn_max := 10, sc_time_wait := 30 }) := by
  decide

/-! ## Limits with a suffix -/

theorem isspace_of_isDigit (c : Char) (h : c.isDigit = true) : isspace c = false := by
  by_contra hs
  have hs' : isspace c = true := by simpa using hs
  simp only [isspace, Bool.or_eq_true, decide_eq_true_eq] at hs'
  rcases hs' with ((((h1 | h1) | h1) | h1) | h1) | h1 <;> (subst h1; exact absurd h (by decide))

theorem suffix_multiplier_of_isDigit (c : Char) (h : c.isDigit = true) :
    suffix_multiplier c = none := by
  have hk : c ≠ 'k' := by rintro rfl; exact absurd h (by decide)
  have hK : c ≠ 'K' := by rintro rfl; exact absurd h (by decide)
  have hm : c ≠ 'm' := by rintro rfl; exact absurd h (by decide)
  have hM : c ≠ 'M' := by rintro rfl; exact absurd h (by decide)
  simp [suffix_multiplier, hk, hK, hm, hM]

theorem suffix_multiplier_cases (c : Char) (mult : Nat) (h : suffix_multiplier c = some mult) :
    ((c = 'k' ∨ c = 'K') ∧ mult = 1024) ∨ ((c = 'm' ∨ c = 'M') ∧ mult = 1024 * 1024) := by
  unfold suffix_multiplier at h
  by_cases h1 : c = 'k' ∨ c = 'K'
  · rw [if_pos h1] at h
    exact Or.inl ⟨h1, (Option.some.inj h).symm⟩
  · rw [if_neg h1] at h
    by_cases h2 : c = 'm' ∨ c = 'M'
    · rw [if_pos h2] at h
      exact Or.inr ⟨h2, (Option.some.inj h).symm⟩
    · rw [if_neg h2] at h
      exact absurd h (by simp)

theorem isspace_of_suffix (c : Char) (mult : Nat) (h : suffix_multiplier c = some mult) :
    isspace c = false := by
  rcases suffix_multiplier_cases c mult h with ⟨h1 | h1, _⟩ | ⟨h1 | h1, _⟩ <;> (subst h1; decide)

theorem skip_space_back_stay (s : cstr) (p : Nat) (h : isspace (s.getD p '\x00') = false) :
    skip_space_back s p = p := by
  cases p with
  | zero => rfl
  | succ q => simp only [skip_space_back, h, Bool.false_eq_true, if_false]

theorem getD_concat_length (init : cstr) (c : Char) :
    (init ++ [c]).getD init.length '\x00' = c := by
  simp [List.getD]

theorem to_rlim_natCast (n : Nat) (hn : n < 2 ^ 64) : to_rlim (n : Int) = n := by
  unfold to_rlim
  have h : ((n : Int) % 2 ^ 64) = (n : Int) := Int.emod_eq_of_lt (by omega) (by omega)
  rw [h]
  simp

/-- A string ending in a suffix letter: `get_limit` cuts the letter off and
multiplies what the rest parses to. -/
theorem get_limit_suffix (parse_base10 : cstr → Option Int) (d : cstr) (c : Char)
    (mult n : Nat) (hc : suffix_multiplier c = some mult)
    (hp : parse_base10 d = some (n : Int)) (hn : n < 2 ^ 31) :
    get_limit parse_base10 (d ++ [c]) = ⟨0, n * mult, d⟩ := by
  have hne : d ++ [c] ≠ [] := by simp
  have hsp : skip_space_back (d ++ [c]) d.length = d.length :=
    skip_space_back_stay _ _ (by rw [getD_concat_length]; exact isspace_of_suffix c mult hc)
  have hto : to_rlim (n : Int) = n := to_rlim_natCast n (by omega)
  have hlen : (d ++ [c]).length - 1 = d.length := by simp
  unfold get_limit
  rw [if_neg hne]
  simp only [hlen, hsp, getD_concat_length]
  rcases suffix_multiplier_cases c mult hc with ⟨h1, hm⟩ | ⟨h1, hm⟩
  · subst hm
    have hmod : n * 1024 % 18446744073709551616 = n * 1024 := Nat.mod_eq_of_lt (by omega)
    simp [h1, hp, hto, hmod]
  · subst hm
    have hnot : ¬ (c = 'k' ∨ c = 'K') := by
      rcases h1 with h1 | h1 <;> (subst h1; decide)
    have hmod : n * 1048576 % 18446744073709551616 = n * 1048576 := Nat.mod_eq_of_lt (by omega)
    simp [hnot, h1, hp, hto, hmod]

/-- A string of digits: `get_limit` gives what it parses to. -/
theorem get_limit_plain (parse_base10 : cstr → Option Int) (d : cstr) (n : Nat)
    (hd : is_digits d) (hp : parse_base10 d = some (n : Int)) (hn : n < 2 ^ 31) :
    get_limit parse_base10 d = ⟨0, n, d⟩ := by
  obtain ⟨hne, hdig⟩ := hd
  rcases List.eq_nil_or_concat d with h | ⟨init, c, h⟩
  · exact absurd h hne
  · have hcd : c.isDigit = true := hdig c (by simp [h])
    have hget : d.getD (d.length - 1) '\x00' = c := by
      subst h; simp
    have hsp : skip_space_back d (d.length - 1) = d.length - 1 :=
      skip_space_back_stay _ _ (by rw [hget]; exact isspace_of_isDigit c hcd)
    have hto : to_rlim (n : Int) = n := to_rlim_natCast n (by omega)
    have hk : ¬ (c = 'k' ∨ c = 'K') := by
      rintro (h1 | h1) <;> (subst h1; exact absurd hcd (by decide))
    have hm : ¬ (c = 'm' ∨ c = 'M') := by
      rintro (h1 | h1) <;> (subst h1; exact absurd hcd (by decide))
    have hmod : n % 18446744073709551616 = n := Nat.mod_eq_of_lt (by omega)
    have hlt : ¬ 18446744073709551616 ≤ n := by omega
    unfold get_limit
    rw [if_neg hne]
    simp only [hsp, hget]
    simp [hk, hm, hp, hto, hmod, hlt]

/-- C8: for every limit string made of a non-negative base-10 integer `n`
fitting an `int` and an optional suffix, `get_limit` succeeds and gives `n`
without suffix, `n * 1024` for `k` or `K`, and `n * 1024 * 1024` for `m` or
`M`; the empty string fails. -/
theorem get_limit_magnitude_with_suffix (parse_base10 : cstr → Option Int)
    (d : cstr) (n : Nat) (hd : is_digits d) (hp : parse_base10 d = some (n : Int))
    (hn : n < 2 ^ 31) :
    get_limit parse_base10 d = ⟨0, n, d⟩ ∧
    get_limit parse_base10 (d ++ ['k']) = ⟨0, n * 1024, d⟩ ∧
    get_limit parse_base10 (d ++ ['K']) = ⟨0, n * 1024, d⟩ ∧
    get_limit parse_base10 (d ++ ['m']) = ⟨0, n * 1024 * 1024, d⟩ ∧
    get_limit parse_base10 (d ++ ['M']) = ⟨0, n * 1024 * 1024, d⟩ ∧
    (get_limit parse_base10 []).ret = -1 := by
  refine ⟨get_limit_plain parse_base10 d n hd hp hn,
    get_limit_suffix parse_base10 d 'k' 1024 n (by decide) hp hn,
    get_limit_suffix parse_base10 d 'K' 1024 n (by decide) hp hn, ?_, ?_, by simp [get_limit]⟩
  · rw [Nat.mul_assoc]
    exact get_limit_suffix parse_base10 d 'm' (1024 * 1024) n (by decide) hp hn
  · rw [Nat.mul_assoc]
    exact get_limit_suffix parse_base10 d 'M' (1024 * 1024) n (by decide) hp hn

/-- C8 at the strings `10k` and `2M`. -/
theorem get_limit_magnitude_with_suffix_witness :
    is_digits "10".toList ∧ strict_base10 "10".toList = some ((10 : Nat) : Int) ∧
    is_digits "2".toList ∧ strict_base10 "2".toList = some ((2 : Nat) : Int) ∧
    get_limit strict_base10 ("10".toList ++ ['k']) = ⟨0, 10 * 1024, "10".toList⟩ ∧
    get_limit strict_base10 ("2".toList ++ ['M']) = ⟨0, 2 * 1024 * 1024, "2".toList⟩ :=
  ⟨by decide, by decide, by decide, by decide,
   (get_limit_magnitude_with_suffix strict_base10 "10".toList 10
      (by decide) (by decide) (by decide)).2.1,
   (get_limit_magnitude_with_suffix strict_base10 "2".toList 2
      (by decide) (by decide) (by decide)).2.2.2.2.1⟩

/-- C9 at the string `-1`: `get_limit` accepts it and gives 2^64 - 1, the value
of -1 converted to `rlim_t`, so `rlim_as_parser` stores that value; with a
suffix (`-1k`) the string is rejected, and `rlim_cpu_parser` rejects `-1`. -/
theorem get_limit_accepts_minus_one :
    strict_base10 "-1".toList = some (-1) ∧
    get_limit strict_base10 "-1".toList = ⟨0, 18446744073709551615, "-1".toList⟩ ∧
    parsers.rlim_as_parser strict_base10 18446744073709551615 ["-1".toList] { } SET_EQ =
      some (OK, ["-1".toList], { sc_rlim_as := 18446744073709551615 }) ∧
    get_limit strict_base10 "-1k".toList = ⟨-1, 0, "-1".toList⟩ ∧
    parsers.rlim_cpu_parser strict_base10 18446744073709551615 ["-1".toList] { } SET_EQ =
      some (FAILED, ["-1".toList], { }) := by
  decide

/-! ## Resource limits -/

theorem digits_ne_UNLIMITED (d : cstr) (hd : is_digits d) : d ≠ UNLIMITED_str := by
  intro h
  have hU : 'U'.isDigit = true := hd.2 'U' (by rw [h]; decide)
  exact absurd hU (by decide)

theorem suffixed_ne_UNLIMITED (d : cstr) (c : Char) (mult : Nat)
    (hc : suffix_multiplier c = some mult) : d ++ [c] ≠ UNLIMITED_str := by
  intro h
  have h1 : (d ++ [c]).getLast? = some c := by simp
  have h2 : UNLIMITED_str.getLast? = some 'D' := by decide
  rw [h, h2] at h1
  have h3 : c = 'D' := (Option.some.inj h1).symm
  subst h3
  have hD : suffix_multiplier 'D' = none := by decide
  rw [hD] at hc
  exact absurd hc (by simp)

/-- C10, as the code has it: `rlim_as`, `rlim_data`, `rlim_rss` and `rlim_stack`
accept the literal `UNLIMITED`, storing `RLIM_INFINITY`, or a magnitude with an
optional suffix `k`, `K`, `m`, `M` that multiplies it by 1024 or 1024 * 1024;
`rlim_cpu` accepts `UNLIMITED`, storing `RLIM_INFINITY`, or a plain
non-negative base-10 integer, which it stores as it is: it knows no suffix,
and fails, leaving its field as it was, on a token `parse_base10` rejects. -/
theorem rlim_parsers_accept (parse_base10 : cstr → Option Int) (RLIM_INFINITY : Nat)
    (d : cstr) (n : Nat) (rest : pset_h) (scp : service_config) (op : assign_op)
    (hd : is_digits d) (hp : parse_base10 d = some (n : Int)) (hn : n < 2 ^ 31) :
    (parsers.rlim_as_parser parse_base10 RLIM_INFINITY (UNLIMITED_str :: rest) scp op =
        some (OK, UNLIMITED_str :: rest, { scp with sc_rlim_as := RLIM_INFINITY }) ∧
      parsers.rlim_as_parser parse_base10 RLIM_INFINITY (d :: rest) scp op =
        some (OK, d :: rest, { scp with sc_rlim_as := n }) ∧
      ∀ (c : Char) (mult : Nat), suffix_multiplier c = some mult →
        parsers.rlim_as_parser parse_base10 RLIM_INFINITY ((d ++ [c]) :: rest) scp op =
          some (OK, d :: rest, { scp with sc_rlim_as := n * mult })) ∧
    (parsers.rlim_data_parser parse_base10 RLIM_INFINITY (UNLIMITED_str :: rest) scp op =
        some (OK, UNLIMITED_str :: rest, { scp with sc_rlim_data := RLIM_INFINITY }) ∧
      parsers.rlim_data_parser parse_base10 RLIM_INFINITY (d :: rest) scp op =
        some (OK, d :: rest, { scp with sc_rlim_data := n }) ∧
      ∀ (c : Char) (mult : Nat), suffix_multiplier c = some mult →
        parsers.rlim_data_parser parse_base10 RLIM_INFINITY ((d ++ [c]) :: rest) scp op =
          some (OK, d :: rest, { scp with sc_rlim_data := n * mult })) ∧
    (parsers.rlim_rss_parser parse_base10 RLIM_INFINITY (UNLIMITED_str :: rest) scp op =
        some (OK, UNLIMITED_str :: rest, { scp with sc_rlim_rss := RLIM_INFINITY }) ∧
      parsers.rlim_rss_parser parse_base10 RLIM_INFINITY (d :: rest) scp op =
        some (OK, d :: rest, { scp with sc_rlim_rss := n }) ∧
      ∀ (c : Char) (mult : Nat), suffix_multiplier c = some mult →
        parsers.rlim_rss_parser parse_base10 RLIM_INFINITY ((d ++ [c]) :: rest) scp op =
          some (OK, d :: rest, { scp with sc_rlim_rss := n * mult })) ∧
    (parsers.rlim_stack_parser parse_base10 RLIM_INFINITY (UNLIMITED_str :: rest) scp op =
        some (OK, UNLIMITED_str :: rest, { scp with sc_rlim_stack := RLIM_INFINITY }) ∧
      parsers.rlim_stack_parser parse_base10 RLIM_INFINITY (d :: rest) scp op =
        some (OK, d :: rest, { scp with sc_rlim_stack := n }) ∧
      ∀ (c : Char) (mult : Nat), suffix_multiplier c = some mult →
        parsers.rlim_stack_parser parse_base10 RLIM_INFINITY ((d ++ [c]) :: rest) scp op =
          some (OK, d :: rest, { scp with sc_rlim_stack := n * mult })) ∧
    (parsers.rlim_cpu_parser parse_base10 RLIM_INFINITY (UNLIMITED_str :: rest) scp op =
        some (OK, UNLIMITED_str :: rest, { scp with sc_rlim_cpu := RLIM_INFINITY }) ∧
      parsers.rlim_cpu_parser parse_base10 RLIM_INFINITY (d :: rest) scp op =
        some (OK, d :: rest, { scp with sc_rlim_cpu := n }) ∧
      ∀ token : cstr, token ≠ UNLIMITED_str → parse_base10 token = none →
        parsers.rlim_cpu_parser parse_base10 RLIM_INFINITY (token :: rest) scp op =
          some (FAILED, token :: rest, scp)) := by
  have hdU : d ≠ UNLIMITED_str := digits_ne_UNLIMITED d hd
  have hplain := get_limit_plain parse_base10 d n hd hp hn
  have hto : to_rlim (n : Int) = n := to_rlim_natCast n (by omega)
  refine ⟨⟨?_, ?_, ?_⟩, ⟨?_, ?_, ?_⟩, ⟨?_, ?_, ?_⟩, ⟨?_, ?_, ?_⟩, ⟨?_, ?_, ?_⟩⟩
  · simp [parsers.rlim_as_parser, pset_pointer]
  · simp [parsers.rlim_as_parser, pset_pointer, hdU, hplain]
  · intro c mult hc
    simp [parsers.rlim_as_parser, pset_pointer, suffixed_ne_UNLIMITED d c mult hc,
      get_limit_suffix parse_base10 d c mult n hc hp hn]
  · simp [parsers.rlim_data_parser, pset_pointer]
  · simp [parsers.rlim_data_parser, pset_pointer, hdU, hplain]
  · intro c mult hc
    simp [parsers.rlim_data_parser, pset_pointer, suffixed_ne_UNLIMITED d c mult hc,
      get_limit_suffix parse_base10 d c mult n hc hp hn]
  · simp [parsers.rlim_rss_parser, pset_pointer]
  · simp [parsers.rlim_rss_parser, pset_pointer, hdU, hplain]
  · intro c mult hc
    simp [parsers.rlim_rss_parser, pset_pointer, suffixed_ne_UNLIMITED d c mult hc,
      get_limit_suffix parse_base10 d c mult n hc hp hn]
  · simp [parsers.rlim_stack_parser, pset_pointer]
  · simp [parsers.rlim_stack_parser, pset_pointer, hdU, hplain]
  · intro c mult hc
    simp [parsers.rlim_stack_parser, pset_pointer, suffixed_ne_UNLIMITED d c mult hc,
      get_limit_suffix parse_base10 d c mult n hc hp hn]
  · simp [parsers.rlim_cpu_parser, pset_pointer]
  · simp [parsers.rlim_cpu_parser, pset_pointer, hdU, hp, hto]
  · intro token htok hnone
    simp [parsers.rlim_cpu_parser, pset_pointer, htok, hnone]

/-- C10 at the tokens `10k` and `10`. -/
theorem rlim_parsers_accept_witness :
    is_digits "10".toList ∧ strict_base10 "10".toList = some ((10 : Nat) : Int) ∧
    suffix_multiplier 'k' = some 1024 ∧
    "10k".toList ≠ UNLIMITED_str ∧ strict_base10 "10k".toList = none ∧
    parsers.rlim_as_parser strict_base10 18446744073709551615 (("10".toList ++ ['k']) :: []) { } SET_EQ =
      some (OK, "10".toList :: [], { ({ } : service_config) with sc_rlim_as := 10 * 1024 }) ∧
    parsers.rlim_data_parser strict_base10 18446744073709551615 (("10".toList ++ ['k']) :: []) { } SET_EQ =
      some (OK, "10".toList :: [], { ({ } : service_config) with sc_rlim_data := 10 * 1024 }) ∧
    parsers.rlim_rss_parser strict_base10 18446744073709551615 (("10".toList ++ ['k']) :: []) { } SET_EQ =
      some (OK, "10".toList :: [], { ({ } : service_config) with sc_rlim_rss := 10 * 1024 }) ∧
    parsers.rlim_stack_parser strict_base10 18446744073709551615 (("10".toList ++ ['k']) :: []) { } SET_EQ =
      some (OK, "10".toList :: [], { ({ } : service_config) with sc_rlim_stack := 10 * 1024 }) ∧
    parsers.rlim_cpu_parser strict_base10 18446744073709551615 ("10".toList :: []) { } SET_EQ =
      some (OK, "10".toList :: [], { ({ } : service_config) with sc_rlim_cpu := 10 }) ∧
    parsers.rlim_cpu_parser strict_base10 18446744073709551615 ("10k".toList :: []) { } SET_EQ =
      some (FAILED, "10k".toList :: [], { }) :=
  ⟨by decide, by decide, by decide, by decide, by decide,
   (rlim_parsers_accept strict_base10 18446744073709551615 "10".toList 10 [] { } SET_EQ
      (by decide) (by decide) (by decide)).1.2.2 'k' 1024 (by decide),
   (rlim_parsers_accept strict_base10 18446744073709551615 "10".toList 10 [] { } SET_EQ
      (by decide) (by decide) (by decide)).2.1.2.2 'k' 1024 (by decide),
   (rlim_parsers_accept strict_base10 18446744073709551615 "10".toList 10 [] { } SET_EQ
      (by decide) (by decide) (by decide)).2.2.1.2.2 'k' 1024 (by decide),
   (rlim_parsers_accept strict_base10 18446744073709551615 "10".toList 10 [] { } SET_EQ
      (by decide) (by decide) (by decide)).2.2.2.1.2.2 'k' 1024 (by decide),
   (rlim_parsers_accept strict_base10 18446744073709551615 "10".toList 10 [] { } SET_EQ
      (by decide) (by decide) (by decide)).2.2.2.2.2.1,
   (rlim_parsers_accept strict_base10 18446744073709551615 "10".toList 10 [] { } SET_EQ
      (by decide) (by decide) (by decide)).2.2.2.2.2.2 "10k".toList (by decide) (by decide)⟩

/-- C10 fails as stated: `rlim_cpu_parser` rejects the token `10k` and leaves
its field as it was, while `rlim_as_parser` stores 10240 for it. -/
theorem rlim_cpu_rejects_suffix_counterexample :
    parsers.rlim_cpu_parser strict_base10 18446744073709551615 ["10k".toList] { sc_rlim_cpu := 7 } SET_EQ =
      some (FAILED, ["10k".toList], { sc_rlim_cpu := 7 }) ∧
    parsers.rlim_as_parser strict_base10 18446744073709551615 ["10k".toList] { sc_rlim_as := 7 } SET_EQ =
      some (OK, ["10".toList], { sc_rlim_as := 10240 }) := by
  decide

/-! ## Resource limits: the field after a rejected token -/

/-- Whenever `get_limit` reports an error it has stored 0 through `res`. -/
theorem get_limit_failed_res (parse_base10 : cstr → Option Int) (limit_str : cstr)
    (h : (get_limit parse_base10 limit_str).ret ≠ 0) :
    (get_limit parse_base10 limit_str).res = 0 := by
  have key : ∀ r : cstr × Nat,
      (match parse_base10 r.1 with
        | none => (⟨-1, 0, r.1⟩ : limit_result)
        | some limit_int =>
          if (to_rlim limit_int * r.2) % 2 ^ 64 / r.2 ≠ to_rlim limit_int then ⟨-1, 0, r.1⟩
          else ⟨0, (to_rlim limit_int * r.2) % 2 ^ 64, r.1⟩).ret ≠ 0 →
      (match parse_base10 r.1 with
        | none => (⟨-1, 0, r.1⟩ : limit_result)
        | some limit_int =>
          if (to_rlim limit_int * r.2) % 2 ^ 64 / r.2 ≠ to_rlim limit_int then ⟨-1, 0, r.1⟩
          else ⟨0, (to_rlim limit_int * r.2) % 2 ^ 64, r.1⟩).res = 0 := by
    intro r
    cases parse_base10 r.1 with
    | none => intro _; rfl
    | some limit_int =>
      dsimp only
      by_cases hc : to_rlim limit_int * r.2 % 2 ^ 64 / r.2 ≠ to_rlim limit_int
      · rw [if_pos hc]; intro _; rfl
      · rw [if_neg hc]; intro h; exact absurd rfl h
  revert h
  unfold get_limit
  by_cases hnil : limit_str = []
  · simp [hnil]
  · rw [if_neg hnil]
    exact key _

/-- C11, as the code has it: when the token is not `UNLIMITED` and is rejected,
`rlim_as`, `rlim_data`, `rlim_rss` and `rlim_stack` fail with their field set
to 0, the value `get_limit` stores on every error; `rlim_cpu`, which parses
into a local variable, fails with its field as it was before the call. -/
theorem rlim_parsers_on_rejected_token (parse_base10 : cstr → Option Int)
    (RLIM_INFINITY : Nat) (token : cstr) (rest : pset_h) (scp : service_config)
    (op : assign_op) (hU : token ≠ UNLIMITED_str) :
    ((get_limit parse_base10 token).ret ≠ 0 →
      parsers.rlim_as_parser parse_base10 RLIM_INFINITY (token :: rest) scp op =
        some (FAILED, (get_limit parse_base10 token).limit_str :: rest,
          { scp with sc_rlim_as := 0 }) ∧
      parsers.rlim_data_parser parse_base10 RLIM_INFINITY (token :: rest) scp op =
        some (FAILED, (get_limit parse_base10 token).limit_str :: rest,
          { scp with sc_rlim_data := 0 }) ∧
      parsers.rlim_rss_parser parse_base10 RLIM_INFINITY (token :: rest) scp op =
        some (FAILED, (get_limit parse_base10 token).limit_str :: rest,
          { scp with sc_rlim_rss := 0 }) ∧
      parsers.rlim_stack_parser parse_base10 RLIM_INFINITY (token :: rest) scp op =
        some (FAILED, (get_limit parse_base10 token).limit_str :: rest,
          { scp with sc_rlim_stack := 0 })) ∧
    ((parse_base10 token = none ∨ ∃ n, parse_base10 token = some n ∧ n < 0) →
      parsers.rlim_cpu_parser parse_base10 RLIM_INFINITY (token :: rest) scp op =
        some (FAILED, token :: rest, scp)) := by
  refine ⟨fun h => ?_, fun h => ?_⟩
  · have h0 := get_limit_failed_res parse_base10 token h
    refine ⟨?_, ?_, ?_, ?_⟩
    · simp [parsers.rlim_as_parser, pset_pointer, hU, h, h0]
    · simp [parsers.rlim_data_parser, pset_pointer, hU, h, h0]
    · simp [parsers.rlim_rss_parser, pset_pointer, hU, h, h0]
    · simp [parsers.rlim_stack_parser, pset_pointer, hU, h, h0]
  · rcases h with h | ⟨n, hn, hneg⟩
    · simp [parsers.rlim_cpu_parser, pset_pointer, hU, h]
    · simp [parsers.rlim_cpu_parser, pset_pointer, hU, hn, hneg]

/-- C11 at the token `abc`, with 7 in each field before the call. -/
theorem rlim_parsers_on_rejected_token_witness :
    "abc".toList ≠ UNLIMITED_str ∧ (get_limit strict_base10 "abc".toList).ret ≠ 0 ∧
    strict_base10 "abc".toList = none ∧
    parsers.rlim_as_parser strict_base10 18446744073709551615 ("abc".toList :: [])
        { sc_rlim_as := 7 } SET_EQ =
      some (FAILED, (get_limit strict_base10 "abc".toList).limit_str :: [],
        { ({ sc_rlim_as := 7 } : service_config) with sc_rlim_as := 0 }) ∧
    parsers.rlim_cpu_parser strict_base10 18446744073709551615 ("abc".toList :: [])
        { sc_rlim_cpu := 7 } SET_EQ =
      some (FAILED, "abc".toList :: [], { sc_rlim_cpu := 7 }) :=
  ⟨by decide, by decide, by decide,
   ((rlim_parsers_on_rejected_token strict_base10 18446744073709551615 "abc".toList []
      { sc_rlim_as := 7 } SET_EQ (by decide)).1 (by decide)).1,
   (rlim_parsers_on_rejected_token strict_base10 18446744073709551615 "abc".toList []
      { sc_rlim_cpu := 7 } SET_EQ (by decide)).2 (Or.inl (by decide))⟩

/-- C11 fails as stated: `rlim_cpu_parser` rejects the token `abc` and the
field still holds 7, the value it had before the call, not 0. -/
theorem rlim_cpu_keeps_field_counterexample :
    "abc".toList ≠ UNLIMITED_str ∧
    parsers.rlim_cpu_parser strict_base10 18446744073709551615 ["abc".toList]
        { sc_rlim_cpu := 7 } SET_EQ =
      some (FAILED, ["abc".toList], { sc_rlim_cpu := 7 }) ∧
    parsers.rlim_cpu_parser strict_base10 18446744073709551615 ["abc".toList]
        { sc_rlim_cpu := 7 } SET_EQ ≠
      some (FAILED, ["abc".toList], { sc_rlim_cpu := 0 }) := by
  decide

/-! ## Port -/

/-- C16: `port_parser` succeeds exactly when its token parses as a base-10
integer `n` with `0 ≤ n ≤ 65535`, and then stores `n` in the port field;
otherwise it fails and leaves the port field, as the whole record, unchanged. -/
theorem port_parser_domain (parse_base10 : cstr → Option Int) (token : cstr)
    (rest : pset_h) (scp : service_config) (op : assign_op) :
    (∀ n : Nat, parse_base10 token = some (n : Int) → n ≤ 65535 →
      parsers.port_parser parse_base10 (token :: rest) scp op =
        some (OK, { scp with sc_port := n })) ∧
    ((parse_base10 token = none ∨
        ∃ n : Int, parse_base10 token = some n ∧ (n < 0 ∨ 65535 < n)) →
      parsers.port_parser parse_base10 (token :: rest) scp op = some (FAILED, scp)) ∧
    (((parsers.port_parser parse_base10 (token :: rest) scp op).map (fun r => r.1) = some OK) ↔
      ∃ n : Int, parse_base10 token = some n ∧ 0 ≤ n ∧ n ≤ 65535) := by
  refine ⟨?_, ?_, ?_⟩
  · intro n hn hle
    have h1 : ¬ ((n : Int) < 0 ∨ (n : Int) ≥ PORT_MAX) := by
      simp only [PORT_MAX, PORT_BITS]; omega
    have h2 : (((n : Int) % 2 ^ 16).toNat) = n := by omega
    simp only [parsers.port_parser, pset_pointer, List.get?_cons_zero, hn, if_neg h1, h2]
  · intro h
    rcases h with h | ⟨n, hn, hr⟩
    · simp [parsers.port_parser, pset_pointer, h]
    · have h1 : n < 0 ∨ n ≥ PORT_MAX := by
        simp only [PORT_MAX, PORT_BITS]; omega
      simp only [parsers.port_parser, pset_pointer, List.get?_cons_zero, hn, if_pos h1]
  · cases hp : parse_base10 token with
    | none => simp [parsers.port_parser, pset_pointer, hp]
    | some n =>
      by_cases h1 : n < 0 ∨ n ≥ PORT_MAX
      · simp only [parsers.port_parser, pset_pointer, List.get?_cons_zero, hp, if_pos h1]
        simp only [PORT_MAX, PORT_BITS] at h1
        constructor
        · intro h; simp at h
        · rintro ⟨m, hm, h0, h2⟩
          cases hm
          omega
      · simp only [parsers.port_parser, pset_pointer, List.get?_cons_zero, hp, if_neg h1]
        simp only [PORT_MAX, PORT_BITS] at h1
        constructor
        · intro _
          exact ⟨n, rfl, by omega, by omega⟩
        · intro _; simp

/-- C16 at the tokens `0`, `65535`, `65536` and `-1`. -/
theorem port_parser_domain_witness :
    strict_base10 "0".toList = some ((0 : Nat) : Int) ∧
    strict_base10 "65535".toList = some ((65535 : Nat) : Int) ∧
    parsers.port_parser strict_base10 ("0".toList :: []) { sc_port := 7 } SET_EQ =
      some (OK, { ({ sc_port := 7 } : service_config) with sc_port := 0 }) ∧
    parsers.port_parser strict_base10 ("65535".toList :: []) { sc_port := 7 } SET_EQ =
      some (OK, { ({ sc_port := 7 } : service_config) with sc_port := 65535 }) ∧
    parsers.port_parser strict_base10 ("65536".toList :: []) { sc_port := 7 } SET_EQ =
      some (FAILED, { sc_port := 7 }) ∧
    parsers.port_parser strict_base10 ("-1".toList :: []) { sc_port := 7 } SET_EQ =
      some (FAILED, { sc_port := 7 }) :=
  ⟨by decide, by decide,
   (port_parser_domain strict_base10 "0".toList [] { sc_port := 7 } SET_EQ).1 0
      (by decide) (by decide),
   (port_parser_domain strict_base10 "65535".toList [] { sc_port := 7 } SET_EQ).1 65535
      (by decide) (by decide),
   (port_parser_domain strict_base10 "65536".toList [] { sc_port := 7 } SET_EQ).2.1
      (Or.inr ⟨65536, by decide, Or.inr (by decide)⟩),
   (port_parser_domain strict_base10 "-1".toList [] { sc_port := 7 } SET_EQ).2.1
      (Or.inr ⟨-1, by decide, Or.inl (by decide)⟩)⟩

/-! ## Environment definitions -/

theorem mem_ok_no_alloc_failure : no_alloc_failure mem_ok :=
  ⟨fun _ => rfl, rfl, fun _ _ => rfl⟩

theorem add_new_string_ok (mem : allocator) (hmem : no_alloc_failure mem)
    (set : List cstr) (str : cstr) : add_new_string mem set str = (OK, set ++ [str]) := by
  simp [add_new_string, hmem.1 str, hmem.2.2 set str]

theorem NEW_SET_ok {α : Type} (mem : allocator) (hmem : no_alloc_failure mem)
    (set : Option (List α)) : NEW_SET mem set = some (set.getD []) := by
  cases set with
  | none => simp [NEW_SET, hmem.2.1]
  | some members => simp [NEW_SET]

/-- With every token holding an `=` the loop of `env_parser` adds them all. -/
theorem env_loop_ok (mem : allocator) (hmem : no_alloc_failure mem) (values : pset_h)
    (set : List cstr) (h : ∀ str ∈ values, '=' ∈ str) :
    env_loop mem values set = (OK, set ++ values) := by
  induction values generalizing set with
  | nil => simp [env_loop]
  | cons str rest ih =>
    have h1 : '=' ∈ str := h str (by simp)
    have h2 : ∀ s ∈ rest, '=' ∈ s := fun s hs => h s (by simp [hs])
    simp [env_loop, h1, add_new_string_ok mem hmem, ih _ h2]

/-- A token without `=` makes the loop of `env_parser` fail. -/
theorem env_loop_failed (mem : allocator) (values : pset_h) (set : List cstr)
    (h : ∃ str ∈ values, '=' ∉ str) : (env_loop mem values set).1 = FAILED := by
  induction values generalizing set with
  | nil => simp at h
  | cons str rest ih =>
    by_cases h1 : '=' ∈ str
    · have h2 : ∃ s ∈ rest, '=' ∉ s := by
        obtain ⟨s, hs, hn⟩ := h
        rcases List.mem_cons.1 hs with rfl | hs
        · exact absurd h1 hn
        · exact ⟨s, hs, hn⟩
      simp only [env_loop, h1, not_true_eq_false, if_false]
      by_cases hf : (add_new_string mem set str).1 = FAILED
      · simp [hf]
      · simp only [hf, if_false]; exact ih _ h2
    · simp [env_loop, h1]

/-- C18: for every token list and every prior state, `env_parser` with `-=`
fails and leaves the service record, the set of environment definitions
included, exactly as it was. -/
theorem env_parser_minus_eq (mem : allocator) (values : pset_h) (scp : service_config) :
    parsers.env_parser mem values scp MINUS_EQ = (FAILED, scp) := by
  simp [parsers.env_parser]

/-- C19: for `=` or `+=`, with no allocation failing, `env_parser` succeeds if
and only if every token holds the character `=`; on success the set is the
tokens in order, each as it was given and duplicates kept, after the empty set
for `=` and after the prior members for `+=`. -/
theorem env_parser_defines (mem : allocator) (values : pset_h) (scp : service_config)
    (op : assign_op) (hmem : no_alloc_failure mem) (hop : op = SET_EQ ∨ op = PLUS_EQ) :
    ((parsers.env_parser mem values scp op).1 = OK ↔ ∀ str ∈ values, '=' ∈ str) ∧
    ((∀ str ∈ values, '=' ∈ str) →
      parsers.env_parser mem values scp SET_EQ =
        (OK, { scp with sc_env_var_defs := some values }) ∧
      parsers.env_parser mem values scp PLUS_EQ =
        (OK, { scp with sc_env_var_defs := some (scp.sc_env_var_defs.getD [] ++ values) })) := by
  have hne : op ≠ MINUS_EQ := by rcases hop with h | h <;> (subst h; decide)
  refine ⟨⟨fun hok => ?_, fun hall => ?_⟩, fun hall => ⟨?_, ?_⟩⟩
  · by_contra hnot
    have hex : ∃ str ∈ values, '=' ∉ str := by
      simpa using hnot
    have hf := env_loop_failed mem values
      (if op = SET_EQ ∧ pset_count (scp.sc_env_var_defs.getD []) ≠ 0 then []
        else scp.sc_env_var_defs.getD []) hex
    simp [parsers.env_parser, hne, NEW_SET_ok mem hmem, hf] at hok
  · simp [parsers.env_parser, hne, NEW_SET_ok mem hmem, env_loop_ok mem hmem values _ hall]
  · by_cases hc : pset_count (scp.sc_env_var_defs.getD []) ≠ 0
    · simp [parsers.env_parser, NEW_SET_ok mem hmem, env_loop_ok mem hmem values _ hall, hc]
    · have h0 : scp.sc_env_var_defs.getD [] = [] := by
        simpa [pset_count] using hc
      simp [parsers.env_parser, NEW_SET_ok mem hmem, env_loop_ok mem hmem values _ hall, h0,
        pset_count]
  · simp [parsers.env_parser, NEW_SET_ok mem hmem, env_loop_ok mem hmem values _ hall]

/-- C19 at the tokens `A=1 A=1`, after the member `X=0`. -/
theorem env_parser_defines_witness :
    no_alloc_failure mem_ok ∧ (PLUS_EQ = SET_EQ ∨ PLUS_EQ = PLUS_EQ) ∧
    (∀ str ∈ ["A=1".toList, "A=1".toList], '=' ∈ str) ∧
    parsers.env_parser mem_ok ["A=1".toList, "A=1".toList]
        { sc_env_var_defs := some ["X=0".toList] } SET_EQ =
      (OK, { ({ sc_env_var_defs := some ["X=0".toList] } : service_config) with
        sc_env_var_defs := some ["A=1".toList, "A=1".toList] }) ∧
    parsers.env_parser mem_ok ["A=1".toList, "A=1".toList]
        { sc_env_var_defs := some ["X=0".toList] } PLUS_EQ =
      (OK, { ({ sc_env_var_defs := some ["X=0".toList] } : service_config) with
        sc_env_var_defs := some
          (({ sc_env_var_defs := some ["X=0".toList] } : service_config).sc_env_var_defs.getD []
            ++ ["A=1".toList, "A=1".toList]) }) :=
  ⟨mem_ok_no_alloc_failure, Or.inr rfl, by decide,
   ((env_parser_defines mem_ok ["A=1".toList, "A=1".toList]
      { sc_env_var_defs := some ["X=0".toList] } PLUS_EQ mem_ok_no_alloc_failure
      (Or.inr rfl)).2 (by decide)).1,
   ((env_parser_defines mem_ok ["A=1".toList, "A=1".toList]
      { sc_env_var_defs := some ["X=0".toList] } PLUS_EQ mem_ok_no_alloc_failure
      (Or.inr rfl)).2 (by decide)).2⟩

/-! ## Environment pass-through list -/

theorem find_var_eq_none (env_var : cstr) (set : List cstr) :
    find_var env_var set = none ↔ env_var ∉ set := by
  induction set with
  | nil => simp [find_var]
  | cons x xs ih =>
    by_cases hx : env_var = x
    · simp [find_var, hx]
    · simp [find_var, hx, ih]

theorem find_var_isSome (env_var : cstr) (set : List cstr) :
    (find_var env_var set).isSome = true ↔ env_var ∈ set := by
  rw [Option.isSome_iff_ne_none, Ne, find_var_eq_none]
  simp

/-- Taking out the member at the index the search loop stops at takes out the
first member equal to the name. -/
theorem remove_found_index (env_var : cstr) (set : List cstr) (h : env_var ∈ set) :
    pset_remove_index set ((find_var env_var set).getD set.length) = set.erase env_var := by
  induction set with
  | nil => simp at h
  | cons x xs ih =>
    by_cases hx : env_var = x
    · subst hx
      simp [find_var, pset_remove_index]
    · have hmem : env_var ∈ xs := by
        rcases List.mem_cons.1 h with h1 | h1
        · exact absurd h1 hx
        · exact h1
      have hne : (x == env_var) = false := by
        simpa using fun h2 : x = env_var => hx h2.symm
      obtain ⟨v, hv⟩ := Option.isSome_iff_exists.1 ((find_var_isSome env_var xs).2 hmem)
      have ih1 := ih hmem
      rw [hv] at ih1
      simp only [pset_remove_index, Option.getD_some] at ih1
      simp [find_var, hx, hv, pset_remove_index, List.erase_cons, hne, ih1]

/-- One step of the loop of `passenv_parser`, with no allocation failing. -/
theorem passenv_loop_cons (mem : allocator) (hmem : no_alloc_failure mem)
    (env_lookup : cstr → Option cstr) (op : assign_op) (env_var : cstr) (rest : pset_h)
    (var_set : List cstr) :
    passenv_loop mem env_lookup op (env_var :: rest) var_set =
      passenv_loop mem env_lookup op rest
        (if op = MINUS_EQ then
          (if env_var ∈ var_set then var_set.erase env_var else var_set)
        else if env_var ∈ var_set then var_set
        else if env_lookup env_var = none then var_set
        else var_set ++ [env_var]) := by
  by_cases hin : env_var ∈ var_set
  · have hf : (find_var env_var var_set).isSome = true := (find_var_isSome _ _).2 hin
    by_cases hop : op = MINUS_EQ
    · simp [passenv_loop, hf, hop, hin, remove_found_index env_var var_set hin]
    · simp [passenv_loop, hf, hop, hin]
  · have hf : find_var env_var var_set = none := (find_var_eq_none _ _).2 hin
    by_cases hop : op = MINUS_EQ
    · simp [passenv_loop, hf, hop, hin]
    · by_cases hl : env_lookup env_var = none
      · simp [passenv_loop, hf, hop, hin, hl]
      · simp [passenv_loop, hf, hop, hin, hl, add_new_string_ok mem hmem]

theorem passenv_loop_status (mem : allocator) (hmem : no_alloc_failure mem)
    (env_lookup : cstr → Option cstr) (op : assign_op) (values : pset_h)
    (var_set : List cstr) :
    (passenv_loop mem env_lookup op values var_set).1 = OK := by
  induction values generalizing var_set with
  | nil => simp [passenv_loop]
  | cons env_var rest ih =>
    rw [passenv_loop_cons mem hmem]
    exact ih _

theorem passenv_loop_single (mem : allocator) (hmem : no_alloc_failure mem)
    (env_lookup : cstr → Option cstr) (op : assign_op) (env_var : cstr)
    (var_set : List cstr) :
    passenv_loop mem env_lookup op [env_var] var_set =
      (OK,
        if op = MINUS_EQ then
          (if env_var ∈ var_set then var_set.erase env_var else var_set)
        else if env_var ∈ var_set then var_set
        else if env_lookup env_var = none then var_set
        else var_set ++ [env_var]) := by
  rw [passenv_loop_cons mem hmem]
  simp [passenv_loop]

/-- C20: with no allocation failing, every call of `passenv_parser` succeeds;
with `+=` a name already in the set leaves the set as it is, a name that the
environment snapshot does not define is skipped, and any other name is added;
with `-=` a name that is not in the set leaves it as it is and a name in the
set is taken out; the tokens are handled one after the other; with `=` the
set is emptied and the tokens are then handled as with `+=`. -/
theorem passenv_parser_per_token (mem : allocator) (env_lookup : cstr → Option cstr)
    (scp : service_config) (hmem : no_alloc_failure mem) :
    (∀ (values : pset_h) (op : assign_op),
      (parsers.passenv_parser mem env_lookup values scp op).1 = OK) ∧
    (∀ name : cstr, name ∈ scp.sc_pass_env_vars.getD [] →
      parsers.passenv_parser mem env_lookup [name] scp PLUS_EQ =
        (OK, { scp with sc_pass_env_vars := some (scp.sc_pass_env_vars.getD []) })) ∧
    (∀ name : cstr, name ∉ scp.sc_pass_env_vars.getD [] → env_lookup name = none →
      parsers.passenv_parser mem env_lookup [name] scp PLUS_EQ =
        (OK, { scp with sc_pass_env_vars := some (scp.sc_pass_env_vars.getD []) })) ∧
    (∀ name : cstr, name ∉ scp.sc_pass_env_vars.getD [] → env_lookup name ≠ none →
      parsers.passenv_parser mem env_lookup [name] scp PLUS_EQ =
        (OK, { scp with sc_pass_env_vars := some (scp.sc_pass_env_vars.getD [] ++ [name]) })) ∧
    (∀ name : cstr, name ∉ scp.sc_pass_env_vars.getD [] →
      parsers.passenv_parser mem env_lookup [name] scp MINUS_EQ =
        (OK, { scp with sc_pass_env_vars := some (scp.sc_pass_env_vars.getD []) })) ∧
    (∀ name : cstr, name ∈ scp.sc_pass_env_vars.getD [] →
      parsers.passenv_parser mem env_lookup [name] scp MINUS_EQ =
        (OK, { scp with sc_pass_env_vars :=
          (some ((scp.sc_pass_env_vars.getD []).erase name)) })) ∧
    (∀ (name : cstr) (rest : pset_h) (op : assign_op), op ≠ SET_EQ →
      parsers.passenv_parser mem env_lookup (name :: rest) scp op =
        parsers.passenv_parser mem env_lookup rest
          (parsers.passenv_parser mem env_lookup [name] scp op).2 op) ∧
    (∀ values : pset_h,
      parsers.passenv_parser mem env_lookup values scp SET_EQ =
        parsers.passenv_parser mem env_lookup values
          { scp with sc_pass_env_vars := some [] } PLUS_EQ) := by
  refine ⟨?_, ?_, ?_, ?_, ?_, ?_, ?_, ?_⟩
  · intro values op
    by_cases hop : op = SET_EQ
    · simp [parsers.passenv_parser, NEW_SET_ok mem hmem, hop, passenv_loop_status mem hmem]
    · simp [parsers.passenv_parser, NEW_SET_ok mem hmem, hop, passenv_loop_status mem hmem]
  · intro name hin
    simp [parsers.passenv_parser, NEW_SET_ok mem hmem, passenv_loop_single mem hmem, hin]
  · intro name hin hl
    simp [parsers.passenv_parser, NEW_SET_ok mem hmem, passenv_loop_single mem hmem, hin, hl]
  · intro name hin hl
    simp [parsers.passenv_parser, NEW_SET_ok mem hmem, passenv_loop_single mem hmem, hin, hl]
  · intro name hin
    simp [parsers.passenv_parser, NEW_SET_ok mem hmem, passenv_loop_single mem hmem, hin]
  · intro name hin
    simp [parsers.passenv_parser, NEW_SET_ok mem hmem, passenv_loop_single mem hmem, hin]
  · intro name rest op hop
    simp only [parsers.passenv_parser, NEW_SET_ok mem hmem, if_neg hop,
      passenv_loop_single mem hmem, Option.getD_some]
    rw [passenv_loop_cons mem hmem]
  · intro values
    simp [parsers.passenv_parser, NEW_SET_ok mem hmem]

/-- C20 at the names `PATH`, `HOME` and `FOO` of the example environment, the set
holding `HOME` before the call. -/
theorem passenv_parser_per_token_witness :
    no_alloc_failure mem_ok ∧
    "HOME".toList ∈ ({ sc_pass_env_vars := some ["HOME".toList] } :
      service_config).sc_pass_env_vars.getD [] ∧
    "PATH".toList ∉ ({ sc_pass_env_vars := some ["HOME".toList] } :
      service_config).sc_pass_env_vars.getD [] ∧
    "FOO".toList ∉ ({ sc_pass_env_vars := some ["HOME".toList] } :
      service_config).sc_pass_env_vars.getD [] ∧
    env_example "FOO".toList = none ∧ env_example "PATH".toList ≠ none ∧
    parsers.passenv_parser mem_ok env_example ["HOME".toList]
        { sc_pass_env_vars := some ["HOME".toList] } PLUS_EQ =
      (OK, { ({ sc_pass_env_vars := some ["HOME".toList] } : service_config) with
        sc_pass_env_vars := some (({ sc_pass_env_vars := some ["HOME".toList] } :
          service_config).sc_pass_env_vars.getD []) }) ∧
    parsers.passenv_parser mem_ok env_example ["FOO".toList]
        { sc_pass_env_vars := some ["HOME".toList] } PLUS_EQ =
      (OK, { ({ sc_pass_env_vars := some ["HOME".toList] } : service_config) with
        sc_pass_env_vars := some (({ sc_pass_env_vars := some ["HOME".toList] } :
          service_config).sc_pass_env_vars.getD []) }) ∧
    parsers.passenv_parser mem_ok env_example ["PATH".toList]
        { sc_pass_env_vars := some ["HOME".toList] } PLUS_EQ =
      (OK, { ({ sc_pass_env_vars := some ["HOME".toList] } : service_config) with
        sc_pass_env_vars := some (({ sc_pass_env_vars := some ["HOME".toList] } :
          service_config).sc_pass_env_vars.getD [] ++ ["PATH".toList]) }) ∧
    parsers.passenv_parser mem_ok env_example ["PATH".toList]
        { sc_pass_env_vars := some ["HOME".toList] } MINUS_EQ =
      (OK, { ({ sc_pass_env_vars := some ["HOME".toList] } : service_config) with
        sc_pass_env_vars := some (({ sc_pass_env_vars := some ["HOME".toList] } :
          service_config).sc_pass_env_vars.getD []) }) ∧
    parsers.passenv_parser mem_ok env_example ["HOME".toList]
        { sc_pass_env_vars := some ["HOME".toList] } MINUS_EQ =
      (OK, { ({ sc_pass_env_vars := some ["HOME".toList] } : service_config) with
        sc_pass_env_vars := some ((({ sc_pass_env_vars := some ["HOME".toList] } :
          service_config).sc_pass_env_vars.getD []).erase "HOME".toList) }) ∧
    PLUS_EQ ≠ SET_EQ ∧
    parsers.passenv_parser mem_ok env_example ("PATH".toList :: ["FOO".toList])
        { sc_pass_env_vars := some ["HOME".toList] } PLUS_EQ =
      parsers.passenv_parser mem_ok env_example ["FOO".toList]
        (parsers.passenv_parser mem_ok env_example ["PATH".toList]
          { sc_pass_env_vars := some ["HOME".toList] } PLUS_EQ).2 PLUS_EQ :=
  ⟨mem_ok_no_alloc_failure, by decide, by decide, by decide, by decide, by decide,
   (passenv_parser_per_token mem_ok env_example { sc_pass_env_vars := some ["HOME".toList] }
      mem_ok_no_alloc_failure).2.1 "HOME".toList (by decide),
   (passenv_parser_per_token mem_ok env_example { sc_pass_env_vars := some ["HOME".toList] }
      mem_ok_no_alloc_failure).2.2.1 "FOO".toList (by decide) (by decide),
   (passenv_parser_per_token mem_ok env_example { sc_pass_env_vars := some ["HOME".toList] }
      mem_ok_no_alloc_failure).2.2.2.1 "PATH".toList (by decide) (by decide),
   (passenv_parser_per_token mem_ok env_example { sc_pass_env_vars := some ["HOME".toList] }
      mem_ok_no_alloc_failure).2.2.2.2.1 "PATH".toList (by decide),
   (passenv_parser_per_token mem_ok env_example { sc_pass_env_vars := some ["HOME".toList] }
      mem_ok_no_alloc_failure).2.2.2.2.2.1 "HOME".toList (by decide),
   by decide,
   (passenv_parser_per_token mem_ok env_example { sc_pass_env_vars := some ["HOME".toList] }
      mem_ok_no_alloc_failure).2.2.2.2.2.2.1 "PATH".toList ["FOO".toList] PLUS_EQ (by decide)⟩

/-! ## Log destination -/

/-- C12 at the tokens `FILE /var/log/x 409600m`, with 5120 and 20480 for
`LOG_EXTRA_MIN` and `LOG_EXTRA_MAX`: the soft limit is 429496729600, whose 1% is
2^32 and becomes 0 in `unsigned extra`, so the hard limit stored is the soft
limit plus 5120, not plus 20480, the 1% cut down to `LOG_EXTRA_MAX`. -/
theorem log_type_extra_truncated :
    get_limit strict_base10 "409600m".toList = ⟨0, 429496729600, "409600".toList⟩ ∧
    parsers.log_type_parser strict_base10 mem_ok 5120 20480 facilities_example levels_example 6
        ["FILE".toList, "/var/log/x".toList, "409600m".toList] { } SET_EQ =
      (OK, ["FILE".toList, "/var/log/x".toList, "409600".toList],
        { sc_log := { l_type := logtype_e.L_FILE,
                      l_fl := { fl_filename := some "/var/log/x".toList,
                                fl_soft_limit := 429496729600,
                                fl_hard_limit := 429496729600 + 5120 } } }) ∧
    429496729600 / 100 = 2 ^ 32 ∧ 20480 < 2 ^ 32 ∧
    log_extra 5120 20480 429496729600 = 5120 := by
  decide

/-- C13: for every four-token list `FILE name soft hard` whose two limit tokens
`get_limit` accepts, with no allocation failing, `log_type_parser` succeeds if
and only if the hard value is not below the soft one; it then stores the file
name, the soft and the hard value and selects the file variant; when the hard
value is below the soft one it fails and leaves the record as it was. -/
theorem log_type_file_soft_hard (parse_base10 : cstr → Option Int) (mem : allocator)
    (LOG_EXTRA_MIN LOG_EXTRA_MAX : Nat) (syslog_facilities syslog_levels : List name_value)
    (DEFAULT_SERVICE_SYSLOG_LEVEL : Nat) (name soft hard : cstr) (scp : service_config)
    (op : assign_op) (hmem : no_alloc_failure mem)
    (hs : (get_limit parse_base10 soft).ret = 0) (hh : (get_limit parse_base10 hard).ret = 0) :
    ((parsers.log_type_parser parse_base10 mem LOG_EXTRA_MIN LOG_EXTRA_MAX syslog_facilities
        syslog_levels DEFAULT_SERVICE_SYSLOG_LEVEL [FILE_str, name, soft, hard] scp op).1 = OK ↔
      (get_limit parse_base10 soft).res ≤ (get_limit parse_base10 hard).res) ∧
    ((get_limit parse_base10 soft).res ≤ (get_limit parse_base10 hard).res →
      parsers.log_type_parser parse_base10 mem LOG_EXTRA_MIN LOG_EXTRA_MAX syslog_facilities
        syslog_levels DEFAULT_SERVICE_SYSLOG_LEVEL [FILE_str, name, soft, hard] scp op =
      (OK, [FILE_str, name, (get_limit parse_base10 soft).limit_str,
          (get_limit parse_base10 hard).limit_str],
        { scp with sc_log :=
          { l_type := logtype_e.L_FILE,
            l_fl := { fl_filename := some name,
                      fl_soft_limit := (get_limit parse_base10 soft).res,
                      fl_hard_limit := (get_limit parse_base10 hard).res },
            l_sl := scp.sc_log.l_sl } })) ∧
    ((get_limit parse_base10 hard).res < (get_limit parse_base10 soft).res →
      parsers.log_type_parser parse_base10 mem LOG_EXTRA_MIN LOG_EXTRA_MAX syslog_facilities
        syslog_levels DEFAULT_SERVICE_SYSLOG_LEVEL [FILE_str, name, soft, hard] scp op =
      (FAILED, [FILE_str, name, (get_limit parse_base10 soft).limit_str,
          (get_limit parse_base10 hard).limit_str], scp)) := by
  have hok : ∀ h : (get_limit parse_base10 soft).res ≤ (get_limit parse_base10 hard).res,
      parsers.log_type_parser parse_base10 mem LOG_EXTRA_MIN LOG_EXTRA_MAX syslog_facilities
        syslog_levels DEFAULT_SERVICE_SYSLOG_LEVEL [FILE_str, name, soft, hard] scp op =
      (OK, [FILE_str, name, (get_limit parse_base10 soft).limit_str,
          (get_limit parse_base10 hard).limit_str],
        { scp with sc_log :=
          { l_type := logtype_e.L_FILE,
            l_fl := { fl_filename := some name,
                      fl_soft_limit := (get_limit parse_base10 soft).res,
                      fl_hard_limit := (get_limit parse_base10 hard).res },
            l_sl := scp.sc_log.l_sl } }) := by
    intro h
    simp [parsers.log_type_parser, parse_filelog, hmem.1 name, hs, hh, not_lt.2 h]
  have hfail : ∀ h : (get_limit parse_base10 hard).res < (get_limit parse_base10 soft).res,
      parsers.log_type_parser parse_base10 mem LOG_EXTRA_MIN LOG_EXTRA_MAX syslog_facilities
        syslog_levels DEFAULT_SERVICE_SYSLOG_LEVEL [FILE_str, name, soft, hard] scp op =
      (FAILED, [FILE_str, name, (get_limit parse_base10 soft).limit_str,
          (get_limit parse_base10 hard).limit_str], scp) := by
    intro h
    simp [parsers.log_type_parser, parse_filelog, hmem.1 name, hs, hh, h]
  refine ⟨⟨fun h => ?_, fun h => ?_⟩, hok, hfail⟩
  · by_contra hlt
    rw [hfail (not_le.1 hlt)] at h
    exact status_e.noConfusion h
  · rw [hok h]

/-- C13 at the tokens `FILE /var/log/x 100 50` and `FILE /var/log/x 100 100`. -/
theorem log_type_file_soft_hard_witness :
    no_alloc_failure mem_ok ∧
    (get_limit strict_base10 "100".toList).ret = 0 ∧
    (get_limit strict_base10 "50".toList).ret = 0 ∧
    (get_limit strict_base10 "50".toList).res < (get_limit strict_base10 "100".toList).res ∧
    parsers.log_type_parser strict_base10 mem_ok 5120 20480 facilities_example levels_example 6
        [FILE_str, "/var/log/x".toList, "100".toList, "50".toList] { } SET_EQ =
      (FAILED, [FILE_str, "/var/log/x".toList, (get_limit strict_base10 "100".toList).limit_str,
          (get_limit strict_base10 "50".toList).limit_str], { }) ∧
    parsers.log_type_parser strict_base10 mem_ok 5120 20480 facilities_example levels_example 6
        [FILE_str, "/var/log/x".toList, "100".toList, "100".toList] { } SET_EQ =
      (OK, [FILE_str, "/var/log/x".toList, (get_limit strict_base10 "100".toList).limit_str,
          (get_limit strict_base10 "100".toList).limit_str],
        { ({ } : service_config) with sc_log :=
          { l_type := logtype_e.L_FILE,
            l_fl := { fl_filename := some "/var/log/x".toList,
                      fl_soft_limit := (get_limit strict_base10 "100".toList).res,
                      fl_hard_limit := (get_limit strict_base10 "100".toList).res },
            l_sl := ({ } : service_config).sc_log.l_sl } }) :=
  ⟨mem_ok_no_alloc_failure, by decide, by decide, by decide,
   (log_type_file_soft_hard strict_base10 mem_ok 5120 20480 facilities_example levels_example 6
      "/var/log/x".toList "100".toList "50".toList { } SET_EQ mem_ok_no_alloc_failure
      (by decide) (by decide)).2.2 (by decide),
   (log_type_file_soft_hard strict_base10 mem_ok 5120 20480 facilities_example levels_example 6
      "/var/log/x".toList "100".toList "100".toList { } SET_EQ mem_ok_no_alloc_failure
      (by decide) (by decide)).2.1 (by decide)⟩

theorem FILE_ne_SYSLOG : FILE_str ≠ SYSLOG_str := by decide

/-- `parse_filelog` fails on a token count outside 2..4. -/
theorem parse_filelog_count (parse_base10 : cstr → Option Int) (mem : allocator)
    (LOG_EXTRA_MIN LOG_EXTRA_MAX : Nat) (flp : filelog) (values : pset_h)
    (h : pset_count values < 2 ∨ pset_count values > 4) :
    parse_filelog parse_base10 mem LOG_EXTRA_MIN LOG_EXTRA_MAX flp values =
      (FAILED, values, flp) := by
  rcases values with _ | ⟨a, _ | ⟨b, _ | ⟨c, _ | ⟨d, _ | ⟨e, rest⟩⟩⟩⟩⟩
  · simp [parse_filelog]
  · simp [parse_filelog]
  · simp [pset_count] at h
  · simp [pset_count] at h
  · simp [pset_count] at h
  · simp [parse_filelog]

/-- `parse_syslog` fails on a token count outside 2..3. -/
theorem parse_syslog_count (syslog_facilities syslog_levels : List name_value)
    (DEFAULT_SERVICE_SYSLOG_LEVEL : Nat) (slp : syslog) (values : pset_h)
    (h : pset_count values < 2 ∨ pset_count values > 3) :
    parse_syslog syslog_facilities syslog_levels DEFAULT_SERVICE_SYSLOG_LEVEL slp values =
      (FAILED, slp) := by
  rcases values with _ | ⟨a, _ | ⟨b, _ | ⟨c, _ | ⟨d, rest⟩⟩⟩⟩
  · simp [parse_syslog]
  · simp [parse_syslog]
  · simp [pset_count] at h
  · simp [pset_count] at h
  · simp [parse_syslog]

/-- A failing `parse_filelog` has written nothing to the file variant. -/
theorem parse_filelog_failed (parse_base10 : cstr → Option Int) (mem : allocator)
    (LOG_EXTRA_MIN LOG_EXTRA_MAX : Nat) (flp : filelog) (values : pset_h)
    (h : (parse_filelog parse_base10 mem LOG_EXTRA_MIN LOG_EXTRA_MAX flp values).1 = FAILED) :
    (parse_filelog parse_base10 mem LOG_EXTRA_MIN LOG_EXTRA_MAX flp values).2.2 = flp := by
  rcases values with _ | ⟨a, _ | ⟨b, _ | ⟨c, _ | ⟨d, _ | ⟨e, rest⟩⟩⟩⟩⟩
  · simp [parse_filelog]
  · simp [parse_filelog]
  · cases hn : mem.new_string b with
    | none => simp [parse_filelog, hn]
    | some file => simp [parse_filelog, hn] at h
  · cases hn : mem.new_string b with
    | none => simp [parse_filelog, hn]
    | some file =>
      by_cases hs : (get_limit parse_base10 c).ret = 0
      · simp [parse_filelog, hn, hs] at h
      · simp [parse_filelog, hn, hs]
  · cases hn : mem.new_string b with
    | none => simp [parse_filelog, hn]
    | some file =>
      by_cases hs : (get_limit parse_base10 c).ret = 0
      · by_cases hh : (get_limit parse_base10 d).ret = 0
        · by_cases hlt : (get_limit parse_base10 d).res < (get_limit parse_base10 c).res
          · simp [parse_filelog, hn, hs, hh, hlt]
          · simp [parse_filelog, hn, hs, hh, hlt] at h
        · simp [parse_filelog, hn, hs, hh]
      · simp [parse_filelog, hn, hs]
  · simp [parse_filelog]

/-- A failing `parse_syslog` has written nothing to the syslog variant, unless
it has three tokens, a known facility and an unknown level: the facility is
then stored. -/
theorem parse_syslog_failed (syslog_facilities syslog_levels : List name_value)
    (DEFAULT_SERVICE_SYSLOG_LEVEL : Nat) (slp : syslog) (values : pset_h)
    (h : (parse_syslog syslog_facilities syslog_levels DEFAULT_SERVICE_SYSLOG_LEVEL slp
      values).1 = FAILED) :
    (parse_syslog syslog_facilities syslog_levels DEFAULT_SERVICE_SYSLOG_LEVEL slp values).2 = slp ∨
    ∃ (type facility level : cstr) (nvp : name_value),
      values = [type, facility, level] ∧
      nv_find_value syslog_facilities facility = some nvp ∧
      nv_find_value syslog_levels level = none ∧
      (parse_syslog syslog_facilities syslog_levels DEFAULT_SERVICE_SYSLOG_LEVEL slp values).2 =
        { slp with sl_facility := nvp.value } := by
  rcases values with _ | ⟨a, _ | ⟨b, _ | ⟨c, _ | ⟨d, rest⟩⟩⟩⟩
  · simp [parse_syslog]
  · simp [parse_syslog]
  · cases hf : nv_find_value syslog_facilities b with
    | none => simp [parse_syslog, hf]
    | some nvp => simp [parse_syslog, hf] at h
  · cases hf : nv_find_value syslog_facilities b with
    | none => simp [parse_syslog, hf]
    | some nvp =>
      cases hl : nv_find_value syslog_levels c with
      | none =>
        right
        exact ⟨a, b, c, nvp, rfl, hf, hl, by simp [parse_syslog, hf, hl]⟩
      | some nvl => simp [parse_syslog, hf, hl] at h
  · simp [parse_syslog]

/-- C14: `log_type_parser` fails for the empty token list, for a first token
that is neither `FILE` nor `SYSLOG`, for `FILE` with a token count outside 2..4
and for `SYSLOG` with a token count outside 2..3; when it succeeds the
discriminant is `L_FILE` if the first token is `FILE` and `L_SYSLOG` if it is
`SYSLOG`; when it fails the discriminant is what it was. -/
theorem log_type_discriminant (parse_base10 : cstr → Option Int) (mem : allocator)
    (LOG_EXTRA_MIN LOG_EXTRA_MAX : Nat) (syslog_facilities syslog_levels : List name_value)
    (DEFAULT_SERVICE_SYSLOG_LEVEL : Nat) (values : pset_h) (scp : service_config)
    (op : assign_op) :
    (values = [] →
      (parsers.log_type_parser parse_base10 mem LOG_EXTRA_MIN LOG_EXTRA_MAX syslog_facilities
        syslog_levels DEFAULT_SERVICE_SYSLOG_LEVEL values scp op).1 = FAILED) ∧
    (∀ (type : cstr) (rest : pset_h), values = type :: rest →
      type ≠ FILE_str → type ≠ SYSLOG_str →
      (parsers.log_type_parser parse_base10 mem LOG_EXTRA_MIN LOG_EXTRA_MAX syslog_facilities
        syslog_levels DEFAULT_SERVICE_SYSLOG_LEVEL values scp op).1 = FAILED) ∧
    (∀ rest : pset_h, values = FILE_str :: rest →
      (pset_count values < 2 ∨ pset_count values > 4) →
      (parsers.log_type_parser parse_base10 mem LOG_EXTRA_MIN LOG_EXTRA_MAX syslog_facilities
        syslog_levels DEFAULT_SERVICE_SYSLOG_LEVEL values scp op).1 = FAILED) ∧
    (∀ rest : pset_h, values = SYSLOG_str :: rest →
      (pset_count values < 2 ∨ pset_count values > 3) →
      (parsers.log_type_parser parse_base10 mem LOG_EXTRA_MIN LOG_EXTRA_MAX syslog_facilities
        syslog_levels DEFAULT_SERVICE_SYSLOG_LEVEL values scp op).1 = FAILED) ∧
    (∀ rest : pset_h, values = FILE_str :: rest →
      (parsers.log_type_parser parse_base10 mem LOG_EXTRA_MIN LOG_EXTRA_MAX syslog_facilities
        syslog_levels DEFAULT_SERVICE_SYSLOG_LEVEL values scp op).1 = OK →
      (parsers.log_type_parser parse_base10 mem LOG_EXTRA_MIN LOG_EXTRA_MAX syslog_facilities
        syslog_levels DEFAULT_SERVICE_SYSLOG_LEVEL values scp op).2.2.sc_log.l_type =
          logtype_e.L_FILE) ∧
    (∀ rest : pset_h, values = SYSLOG_str :: rest →
      (parsers.log_type_parser parse_base10 mem LOG_EXTRA_MIN LOG_EXTRA_MAX syslog_facilities
        syslog_levels DEFAULT_SERVICE_SYSLOG_LEVEL values scp op).1 = OK →
      (parsers.log_type_parser parse_base10 mem LOG_EXTRA_MIN LOG_EXTRA_MAX syslog_facilities
        syslog_levels DEFAULT_SERVICE_SYSLOG_LEVEL values scp op).2.2.sc_log.l_type =
          logtype_e.L_SYSLOG) ∧
    ((parsers.log_type_parser parse_base10 mem LOG_EXTRA_MIN LOG_EXTRA_MAX syslog_facilities
        syslog_levels DEFAULT_SERVICE_SYSLOG_LEVEL values scp op).1 = FAILED →
      (parsers.log_type_parser parse_base10 mem LOG_EXTRA_MIN LOG_EXTRA_MAX syslog_facilities
        syslog_levels DEFAULT_SERVICE_SYSLOG_LEVEL values scp op).2.2.sc_log.l_type =
          scp.sc_log.l_type) := by
  refine ⟨?_, ?_, ?_, ?_, ?_, ?_, ?_⟩
  · intro h
    subst h
    simp [parsers.log_type_parser]
  · intro type rest h h1 h2
    subst h
    simp [parsers.log_type_parser, h1, h2]
  · intro rest h hc
    subst h
    simp [parsers.log_type_parser,
      parse_filelog_count parse_base10 mem LOG_EXTRA_MIN LOG_EXTRA_MAX _ _ hc]
  · intro rest h hc
    subst h
    simp [parsers.log_type_parser, FILE_ne_SYSLOG.symm,
      parse_syslog_count syslog_facilities syslog_levels DEFAULT_SERVICE_SYSLOG_LEVEL _ _ hc]
  · intro rest h
    subst h
    by_cases hf : (parse_filelog parse_base10 mem LOG_EXTRA_MIN LOG_EXTRA_MAX scp.sc_log.l_fl
        (FILE_str :: rest)).1 = FAILED
    · simp [parsers.log_type_parser, hf]
    · simp [parsers.log_type_parser, hf]
  · intro rest h
    subst h
    by_cases hf : (parse_syslog syslog_facilities syslog_levels DEFAULT_SERVICE_SYSLOG_LEVEL
        scp.sc_log.l_sl (SYSLOG_str :: rest)).1 = FAILED
    · simp [parsers.log_type_parser, FILE_ne_SYSLOG.symm, hf]
    · simp [parsers.log_type_parser, FILE_ne_SYSLOG.symm, hf]
  · rcases values with _ | ⟨type, rest⟩
    · simp [parsers.log_type_parser]
    · by_cases h1 : type = FILE_str
      · subst h1
        by_cases hf : (parse_filelog parse_base10 mem LOG_EXTRA_MIN LOG_EXTRA_MAX
            scp.sc_log.l_fl (FILE_str :: rest)).1 = FAILED
        · simp [parsers.log_type_parser, hf]
        · simp [parsers.log_type_parser, hf]
      · by_cases h2 : type = SYSLOG_str
        · subst h2
          by_cases hf : (parse_syslog syslog_facilities syslog_levels
              DEFAULT_SERVICE_SYSLOG_LEVEL scp.sc_log.l_sl (SYSLOG_str :: rest)).1 = FAILED
          · simp [parsers.log_type_parser, FILE_ne_SYSLOG.symm, hf]
          · simp [parsers.log_type_parser, FILE_ne_SYSLOG.symm, hf]
        · simp [parsers.log_type_parser, h1, h2]

/-- C14 at the lists `()`, `(BOGUS x)`, `(FILE)`, `(SYSLOG daemon info x)`,
`(FILE /var/log/x 100)`, `(SYSLOG daemon)` and `(SYSLOG bogus)`. -/
theorem log_type_discriminant_witness :
    (parsers.log_type_parser strict_base10 mem_ok 5120 20480 facilities_example levels_example 6
      [] { } SET_EQ).1 = FAILED ∧
    (parsers.log_type_parser strict_base10 mem_ok 5120 20480 facilities_example levels_example 6
      ["BOGUS".toList, "x".toList] { } SET_EQ).1 = FAILED ∧
    (parsers.log_type_parser strict_base10 mem_ok 5120 20480 facilities_example levels_example 6
      [FILE_str] { } SET_EQ).1 = FAILED ∧
    (parsers.log_type_parser strict_base10 mem_ok 5120 20480 facilities_example levels_example 6
      [SYSLOG_str, "daemon".toList, "info".toList, "x".toList] { } SET_EQ).1 = FAILED ∧
    (parsers.log_type_parser strict_base10 mem_ok 5120 20480 facilities_example levels_example 6
      [FILE_str, "/var/log/x".toList, "100".toList] { } SET_EQ).2.2.sc_log.l_type =
        logtype_e.L_FILE ∧
    (parsers.log_type_parser strict_base10 mem_ok 5120 20480 facilities_example levels_example 6
      [SYSLOG_str, "daemon".toList] { } SET_EQ).2.2.sc_log.l_type = logtype_e.L_SYSLOG ∧
    (parsers.log_type_parser strict_base10 mem_ok 5120 20480 facilities_example levels_example 6
      [SYSLOG_str, "bogus".toList] { sc_log := { l_type := logtype_e.L_FILE } }
      SET_EQ).2.2.sc_log.l_type =
        ({ sc_log := { l_type := logtype_e.L_FILE } } : service_config).sc_log.l_type :=
  ⟨(log_type_discriminant strict_base10 mem_ok 5120 20480 facilities_example levels_example 6
      [] { } SET_EQ).1 rfl,
   (log_type_discriminant strict_base10 mem_ok 5120 20480 facilities_example levels_example 6
      ["BOGUS".toList, "x".toList] { } SET_EQ).2.1 "BOGUS".toList ["x".toList] rfl
      (by decide) (by decide),
   (log_type_discriminant strict_base10 mem_ok 5120 20480 facilities_example levels_example 6
      [FILE_str] { } SET_EQ).2.2.1 [] rfl (by decide),
   (log_type_discriminant strict_base10 mem_ok 5120 20480 facilities_example levels_example 6
      [SYSLOG_str, "daemon".toList, "info".toList, "x".toList] { } SET_EQ).2.2.2.1
      ["daemon".toList, "info".toList, "x".toList] rfl (by decide),
   (log_type_discriminant strict_base10 mem_ok 5120 20480 facilities_example levels_example 6
      [FILE_str, "/var/log/x".toList, "100".toList] { } SET_EQ).2.2.2.2.1
      ["/var/log/x".toList, "100".toList] rfl (by decide),
   (log_type_discriminant strict_base10 mem_ok 5120 20480 facilities_example levels_example 6
      [SYSLOG_str, "daemon".toList] { } SET_EQ).2.2.2.2.2.1 ["daemon".toList] rfl (by decide),
   (log_type_discriminant strict_base10 mem_ok 5120 20480 facilities_example levels_example 6
      [SYSLOG_str, "bogus".toList] { sc_log := { l_type := logtype_e.L_FILE } }
      SET_EQ).2.2.2.2.2.2 (by decide)⟩

/-- C15, as the code has it: when `log_type_parser` fails it has changed
nothing in the service record, the log destination included, except in one
case: with the three tokens `SYSLOG`, a known facility and an unknown level,
it fails having stored the new facility; the level, the file variant and the
discriminant are then as before. -/
theorem log_type_failure_effect (parse_base10 : cstr → Option Int) (mem : allocator)
    (LOG_EXTRA_MIN LOG_EXTRA_MAX : Nat) (syslog_facilities syslog_levels : List name_value)
    (DEFAULT_SERVICE_SYSLOG_LEVEL : Nat) (values : pset_h) (scp : service_config)
    (op : assign_op)
    (h : (parsers.log_type_parser parse_base10 mem LOG_EXTRA_MIN LOG_EXTRA_MAX syslog_facilities
      syslog_levels DEFAULT_SERVICE_SYSLOG_LEVEL values scp op).1 = FAILED) :
    (parsers.log_type_parser parse_base10 mem LOG_EXTRA_MIN LOG_EXTRA_MAX syslog_facilities
      syslog_levels DEFAULT_SERVICE_SYSLOG_LEVEL values scp op).2.2 = scp ∨
    ∃ (facility level : cstr) (nvp : name_value),
      values = [SYSLOG_str, facility, level] ∧
      nv_find_value syslog_facilities facility = some nvp ∧
      nv_find_value syslog_levels level = none ∧
      (parsers.log_type_parser parse_base10 mem LOG_EXTRA_MIN LOG_EXTRA_MAX syslog_facilities
        syslog_levels DEFAULT_SERVICE_SYSLOG_LEVEL values scp op).2.2 =
        { scp with sc_log :=
          { scp.sc_log with l_sl := { scp.sc_log.l_sl with sl_facility := nvp.value } } } := by
  rcases values with _ | ⟨type, rest⟩
  · left; simp [parsers.log_type_parser]
  · by_cases h1 : type = FILE_str
    · subst h1
      left
      by_cases hf : (parse_filelog parse_base10 mem LOG_EXTRA_MIN LOG_EXTRA_MAX
          scp.sc_log.l_fl (FILE_str :: rest)).1 = FAILED
      · have h2 := parse_filelog_failed parse_base10 mem LOG_EXTRA_MIN LOG_EXTRA_MAX _ _ hf
        simp [parsers.log_type_parser, hf, h2]
      · simp [parsers.log_type_parser, hf] at h
    · by_cases h2 : type = SYSLOG_str
      · subst h2
        by_cases hf : (parse_syslog syslog_facilities syslog_levels
            DEFAULT_SERVICE_SYSLOG_LEVEL scp.sc_log.l_sl (SYSLOG_str :: rest)).1 = FAILED
        · rcases parse_syslog_failed syslog_facilities syslog_levels
            DEFAULT_SERVICE_SYSLOG_LEVEL _ _ hf with h3 | ⟨t, facility, level, nvp, hv, hfac, hlev, h3⟩
          · left
            simp [parsers.log_type_parser, FILE_ne_SYSLOG.symm, hf, h3]
          · right
            have ht : t = SYSLOG_str := by
              have := List.cons.inj hv
              exact this.1.symm
            subst ht
            refine ⟨facility, level, nvp, hv, hfac, hlev, ?_⟩
            simp [parsers.log_type_parser, FILE_ne_SYSLOG.symm, hf, h3]
        · simp [parsers.log_type_parser, FILE_ne_SYSLOG.symm, hf] at h
      · left; simp [parsers.log_type_parser, h1, h2]

/-- C15 at the tokens `FILE /var/log/x 100 50`. -/
theorem log_type_failure_effect_witness :
    (parsers.log_type_parser strict_base10 mem_ok 5120 20480 facilities_example levels_example 6
      [FILE_str, "/var/log/x".toList, "100".toList, "50".toList]
      { sc_log := { l_sl := { sl_facility := 24, sl_level := 6 } } } SET_EQ).1 = FAILED ∧
    ((parsers.log_type_parser strict_base10 mem_ok 5120 20480 facilities_example levels_example 6
      [FILE_str, "/var/log/x".toList, "100".toList, "50".toList]
      { sc_log := { l_sl := { sl_facility := 24, sl_level := 6 } } } SET_EQ).2.2 =
        { sc_log := { l_sl := { sl_facility := 24, sl_level := 6 } } } ∨
    ∃ (facility level : cstr) (nvp : name_value),
      [FILE_str, "/var/log/x".toList, "100".toList, "50".toList] =
        [SYSLOG_str, facility, level] ∧
      nv_find_value facilities_example facility = some nvp ∧
      nv_find_value levels_example level = none ∧
      (parsers.log_type_parser strict_base10 mem_ok 5120 20480 facilities_example levels_example 6
        [FILE_str, "/var/log/x".toList, "100".toList, "50".toList]
        { sc_log := { l_sl := { sl_facility := 24, sl_level := 6 } } } SET_EQ).2.2 =
        { ({ sc_log := { l_sl := { sl_facility := 24, sl_level := 6 } } } : service_config) with
          sc_log :=
          { ({ sc_log := { l_sl := { sl_facility := 24, sl_level := 6 } } } :
              service_config).sc_log with
            l_sl := { ({ sc_log := { l_sl := { sl_facility := 24, sl_level := 6 } } } :
              service_config).sc_log.l_sl with sl_facility := nvp.value } } }) :=
  ⟨by decide,
   log_type_failure_effect strict_base10 mem_ok 5120 20480 facilities_example levels_example 6
      [FILE_str, "/var/log/x".toList, "100".toList, "50".toList]
      { sc_log := { l_sl := { sl_facility := 24, sl_level := 6 } } } SET_EQ (by decide)⟩

/-- C15 fails as stated: the tokens `SYSLOG auth bogus`, with the facility 24
and the level 6 stored before the call, fail and leave the facility 32, that
of `auth`, in the record. -/
theorem log_type_syslog_facility_counterexample :
    nv_find_value facilities_example "auth".toList = some ⟨"auth".toList, 32⟩ ∧
    nv_find_value levels_example "bogus".toList = none ∧
    parsers.log_type_parser strict_base10 mem_ok 5120 20480 facilities_example levels_example 6
        ["SYSLOG".toList, "auth".toList, "bogus".toList]
        { sc_log := { l_sl := { sl_facility := 24, sl_level := 6 } } } SET_EQ =
      (FAILED, ["SYSLOG".toList, "auth".toList, "bogus".toList],
        { sc_log := { l_sl := { sl_facility := 32, sl_level := 6 } } }) ∧
    (parsers.log_type_parser strict_base10 mem_ok 5120 20480 facilities_example levels_example 6
        ["SYSLOG".toList, "auth".toList, "bogus".toList]
        { sc_log := { l_sl := { sl_facility := 24, sl_level := 6 } } }
        SET_EQ).2.2.sc_log.l_sl.sl_facility ≠ 24 := by
  decide

/-! ## `=` after `+=` -/

/-- With no allocation failing the loop of `disabled_parser` and
`enabled_parser` adds every token. -/
theorem add_names_ok (mem : allocator) (hmem : no_alloc_failure mem) (values : pset_h)
    (set : List cstr) : add_names mem values set = (OK, set ++ values) := by
  induction values generalizing set with
  | nil => simp [add_names]
  | cons name rest ih => simp [add_names, add_new_string_ok mem hmem, ih]

theorem values_length_pos (values : pset_h) (h : values ≠ []) : 1 ≤ values.length := by
  cases values with
  | nil => exact absurd rfl h
  | cons a l => simp

/-- C17, as the code has it: `=` with the list `B` after `+=` with the list `A`
leaves nothing of `A` for `log_on_success`, `log_on_failure` (the mask is the
bits of `B`), `env` (the set is the tokens of `B`), `passenv`, `only_from` and
`no_access` (the set is what `B` makes of the empty set); `type` and `flags` do
not look at the operator and leave the bits of `A` and of `B` in the mask;
`disabled` and `enabled` do not look at it either and leave the tokens of `A`
followed by those of `B` in the set. -/
theorem set_eq_after_plus_eq (MASK : Nat → mask_t)
    (service_types service_flags success_log_options failure_log_options : List name_value)
    (mem : allocator) (env_lookup : cstr → Option cstr) {α : Type}
    (addrlist_add addrlist_remove : List α → cstr → status_e × List α)
    (A B : pset_h) (scp : service_config) (addr_list : Option (List α))
    (hmem : no_alloc_failure mem) :
    (all_known success_log_options A → all_known success_log_options B →
      parsers.log_on_success_parser MASK success_log_options B
          (parsers.log_on_success_parser MASK success_log_options A scp PLUS_EQ).2 SET_EQ =
        (OK, { scp with sc_log_on_success := matched_bits MASK success_log_options B })) ∧
    (all_known failure_log_options A → all_known failure_log_options B →
      parsers.log_on_failure_parser MASK failure_log_options B
          (parsers.log_on_failure_parser MASK failure_log_options A scp PLUS_EQ).2 SET_EQ =
        (OK, { scp with sc_log_on_failure := matched_bits MASK failure_log_options B })) ∧
    ((∀ str ∈ A, '=' ∈ str) → (∀ str ∈ B, '=' ∈ str) →
      parsers.env_parser mem B (parsers.env_parser mem A scp PLUS_EQ).2 SET_EQ =
        (OK, { scp with sc_env_var_defs := some B })) ∧
    (parsers.passenv_parser mem env_lookup B
        (parsers.passenv_parser mem env_lookup A scp PLUS_EQ).2 SET_EQ =
      parsers.passenv_parser mem env_lookup B { scp with sc_pass_env_vars := some [] } PLUS_EQ) ∧
    (parsers.only_from_parser mem addrlist_add addrlist_remove B
        (parsers.only_from_parser mem addrlist_add addrlist_remove A addr_list PLUS_EQ).2 SET_EQ =
      parsers.only_from_parser mem addrlist_add addrlist_remove B (some []) PLUS_EQ) ∧
    (parsers.no_access_parser mem addrlist_add addrlist_remove B
        (parsers.no_access_parser mem addrlist_add addrlist_remove A addr_list PLUS_EQ).2 SET_EQ =
      parsers.no_access_parser mem addrlist_add addrlist_remove B (some []) PLUS_EQ) ∧
    (A ≠ [] → B ≠ [] → all_known service_types A → all_known service_types B →
      parsers.type_parser MASK service_types B
          (parsers.type_parser MASK service_types A scp PLUS_EQ).2 SET_EQ =
        (OK, { scp with sc_type :=
          ((scp.sc_type ||| matched_bits MASK service_types A) |||
            matched_bits MASK service_types B) })) ∧
    (A ≠ [] → B ≠ [] → all_known service_flags A → all_known service_flags B →
      parsers.flags_parser MASK service_flags B
          (parsers.flags_parser MASK service_flags A scp PLUS_EQ).2 SET_EQ =
        (OK, { scp with sc_xflags :=
          ((scp.sc_xflags ||| matched_bits MASK service_flags A) |||
            matched_bits MASK service_flags B) })) ∧
    (parsers.disabled_parser mem B (parsers.disabled_parser mem A scp PLUS_EQ).2 SET_EQ =
      (OK, { scp with sc_disabled := some (scp.sc_disabled.getD [] ++ A ++ B) })) ∧
    (parsers.enabled_parser mem B (parsers.enabled_parser mem A scp PLUS_EQ).2 SET_EQ =
      (OK, { scp with sc_enabled := some (scp.sc_enabled.getD [] ++ A ++ B) })) := by
  refine ⟨?_, ?_, ?_, ?_, ?_, ?_, ?_, ?_, ?_, ?_⟩
  · intro _ hB
    simp [parsers.log_on_success_parser, parse_log_flags, M_CLEAR_ALL,
      parse_value_list_set MASK _ B _ hB]
  · intro _ hB
    simp [parsers.log_on_failure_parser, parse_log_flags, M_CLEAR_ALL,
      parse_value_list_set MASK _ B _ hB]
  · intro hA hB
    by_cases hc : pset_count (scp.sc_env_var_defs.getD [] ++ A) ≠ 0
    · simp [parsers.env_parser, NEW_SET_ok mem hmem, env_loop_ok mem hmem A _ hA,
        env_loop_ok mem hmem B _ hB, hc]
    · have h0 : scp.sc_env_var_defs.getD [] ++ A = [] := by
        simpa [pset_count] using hc
      simp [parsers.env_parser, NEW_SET_ok mem hmem, env_loop_ok mem hmem A _ hA,
        env_loop_ok mem hmem B _ hB, h0, pset_count]
  · simp [parsers.passenv_parser, NEW_SET_ok mem hmem]
  · simp [parsers.only_from_parser, parse_inet_addresses, NEW_SET_ok mem hmem]
  · simp [parsers.no_access_parser, parse_inet_addresses, NEW_SET_ok mem hmem]
  · intro hA hB hkA hkB
    simp [parsers.type_parser, pset_count, values_length_pos A hA, values_length_pos B hB,
      parse_value_list_set MASK _ A _ hkA, parse_value_list_set MASK _ B _ hkB]
  · intro hA hB hkA hkB
    simp [parsers.flags_parser, pset_count, values_length_pos A hA, values_length_pos B hB,
      parse_value_list_set MASK _ A _ hkA, parse_value_list_set MASK _ B _ hkB]
  · simp [parsers.disabled_parser, NEW_SET_ok mem hmem, add_names_ok mem hmem]
  · simp [parsers.enabled_parser, NEW_SET_ok mem hmem, add_names_ok mem hmem]

/-- C17 at `A = (HOST)`, `B = (PID)` for the masks, `A = (A=1)`, `B = (B=2)` for
`env`, and `A = (a)`, `B = (b)` for `disabled` and `enabled`. -/
theorem set_eq_after_plus_eq_witness :
    no_alloc_failure mem_ok ∧
    all_known nv_example ["HOST".toList] ∧ all_known nv_example ["PID".toList] ∧
    ["HOST".toList] ≠ [] ∧ ["PID".toList] ≠ [] ∧
    parsers.log_on_success_parser MASK_bit nv_example ["PID".toList]
        (parsers.log_on_success_parser MASK_bit nv_example ["HOST".toList] { } PLUS_EQ).2 SET_EQ =
      (OK, { ({ } : service_config) with sc_log_on_success :=
        (matched_bits MASK_bit nv_example ["PID".toList]) }) ∧
    parsers.log_on_failure_parser MASK_bit nv_example ["PID".toList]
        (parsers.log_on_failure_parser MASK_bit nv_example ["HOST".toList] { } PLUS_EQ).2 SET_EQ =
      (OK, { ({ } : service_config) with sc_log_on_failure :=
        (matched_bits MASK_bit nv_example ["PID".toList]) }) ∧
    parsers.type_parser MASK_bit nv_example ["PID".toList]
        (parsers.type_parser MASK_bit nv_example ["HOST".toList] { } PLUS_EQ).2 SET_EQ =
      (OK, { ({ } : service_config) with sc_type :=
        ((({ } : service_config).sc_type ||| matched_bits MASK_bit nv_example ["HOST".toList]) |||
          matched_bits MASK_bit nv_example ["PID".toList]) }) ∧
    parsers.flags_parser MASK_bit nv_example ["PID".toList]
        (parsers.flags_parser MASK_bit nv_example ["HOST".toList] { } PLUS_EQ).2 SET_EQ =
      (OK, { ({ } : service_config) with sc_xflags :=
        ((({ } : service_config).sc_xflags ||| matched_bits MASK_bit nv_example ["HOST".toList]) |||
          matched_bits MASK_bit nv_example ["PID".toList]) }) ∧
    (∀ str ∈ ["A=1".toList], '=' ∈ str) ∧ (∀ str ∈ ["B=2".toList], '=' ∈ str) ∧
    parsers.env_parser mem_ok ["B=2".toList]
        (parsers.env_parser mem_ok ["A=1".toList] { } PLUS_EQ).2 SET_EQ =
      (OK, { ({ } : service_config) with sc_env_var_defs := some ["B=2".toList] }) ∧
    parsers.disabled_parser mem_ok ["b".toList]
        (parsers.disabled_parser mem_ok ["a".toList] { } PLUS_EQ).2 SET_EQ =
      (OK, { ({ } : service_config) with sc_disabled :=
        (some (({ } : service_config).sc_disabled.getD [] ++ ["a".toList] ++ ["b".toList])) }) ∧
    parsers.enabled_parser mem_ok ["b".toList]
        (parsers.enabled_parser mem_ok ["a".toList] { } PLUS_EQ).2 SET_EQ =
      (OK, { ({ } : service_config) with sc_enabled :=
        (some (({ } : service_config).sc_enabled.getD [] ++ ["a".toList] ++ ["b".toList])) }) :=
  ⟨mem_ok_no_alloc_failure, by decide, by decide, by decide, by decide,
   (set_eq_after_plus_eq MASK_bit nv_example nv_example nv_example nv_example mem_ok env_example
      addrlist_add_example addrlist_remove_example ["HOST".toList] ["PID".toList] { } none
      mem_ok_no_alloc_failure).1 (by decide) (by decide),
   (set_eq_after_plus_eq MASK_bit nv_example nv_example nv_example nv_example mem_ok env_example
      addrlist_add_example addrlist_remove_example ["HOST".toList] ["PID".toList] { } none
      mem_ok_no_alloc_failure).2.1 (by decide) (by decide),
   (set_eq_after_plus_eq MASK_bit nv_example nv_example nv_example nv_example mem_ok env_example
      addrlist_add_example addrlist_remove_example ["HOST".toList] ["PID".toList] { } none
      mem_ok_no_alloc_failure).2.2.2.2.2.2.1 (by decide) (by decide) (by decide) (by decide),
   (set_eq_after_plus_eq MASK_bit nv_example nv_example nv_example nv_example mem_ok env_example
      addrlist_add_example addrlist_remove_example ["HOST".toList] ["PID".toList] { } none
      mem_ok_no_alloc_failure).2.2.2.2.2.2.2.1 (by decide) (by decide) (by decide) (by decide),
   by decide, by decide,
   (set_eq_after_plus_eq MASK_bit nv_example nv_example nv_example nv_example mem_ok env_example
      addrlist_add_example addrlist_remove_example ["A=1".toList] ["B=2".toList] { } none
      mem_ok_no_alloc_failure).2.2.1 (by decide) (by decide),
   (set_eq_after_plus_eq MASK_bit nv_example nv_example nv_example nv_example mem_ok env_example
      addrlist_add_example addrlist_remove_example ["a".toList] ["b".toList] { } none
      mem_ok_no_alloc_failure).2.2.2.2.2.2.2.2.1,
   (set_eq_after_plus_eq MASK_bit nv_example nv_example nv_example nv_example mem_ok env_example
      addrlist_add_example addrlist_remove_example ["a".toList] ["b".toList] { } none
      mem_ok_no_alloc_failure).2.2.2.2.2.2.2.2.2⟩

/-- C17 fails as stated: after `+=` with `a`, `disabled_parser` with `=` and `b`
leaves both `a` and `b` in the set, and after `+=` with `HOST`, `type_parser`
with `=` and `PID` leaves both bits in the mask (3, the bit of `PID` alone
being 2). -/
theorem set_eq_keeps_earlier_entries_counterexample :
    parsers.disabled_parser mem_ok ["a".toList] { } PLUS_EQ =
      (OK, { sc_disabled := some ["a".toList] }) ∧
    parsers.disabled_parser mem_ok ["b".toList]
        (parsers.disabled_parser mem_ok ["a".toList] { } PLUS_EQ).2 SET_EQ =
      (OK, { sc_disabled := some ["a".toList, "b".toList] }) ∧
    "a".toList ∉ ["b".toList] ∧
    parsers.enabled_parser mem_ok ["b".toList]
        (parsers.enabled_parser mem_ok ["a".toList] { } PLUS_EQ).2 SET_EQ =
      (OK, { sc_enabled := some ["a".toList, "b".toList] }) ∧
    all_known nv_example ["HOST".toList] ∧ all_known nv_example ["PID".toList] ∧
    matched_bits MASK_bit nv_example ["PID".toList] = 2 ∧
    parsers.type_parser MASK_bit nv_example ["PID".toList]
        (parsers.type_parser MASK_bit nv_example ["HOST".toList] { } PLUS_EQ).2 SET_EQ =
      (OK, { sc_type := 3 }) ∧
    parsers.flags_parser MASK_bit nv_example ["PID".toList]
        (parsers.flags_parser MASK_bit nv_example ["HOST".toList] { } PLUS_EQ).2 SET_EQ =
      (OK, { sc_xflags := 3 }) := by
  decide

/-! ## Instance counts -/

/-- C22: for `instances_parser` and `per_source_parser` the token `UNLIMITED`
succeeds and stores the `UNLIMITED` sentinel; a token that parses as a base-10
integer `n ≥ 0` succeeds and stores `n`; every other token, one that does not
parse or one that parses as a negative number, fails. -/
theorem instance_count_parsers_accept (parse_base10 : cstr → Option Int)
    (parse_error_res : cstr → Int → Int) (UNLIMITED : Int) (token : cstr) (rest : pset_h)
    (scp : service_config) (op : assign_op) :
    (parsers.instances_parser parse_base10 parse_error_res UNLIMITED
        (UNLIMITED_str :: rest) scp op = some (OK, { scp with sc_instances := UNLIMITED }) ∧
      parsers.per_source_parser parse_base10 parse_error_res UNLIMITED
        (UNLIMITED_str :: rest) scp op = some (OK, { scp with sc_per_source := UNLIMITED })) ∧
    (∀ n : Int, token ≠ UNLIMITED_str → parse_base10 token = some n → 0 ≤ n →
      parsers.instances_parser parse_base10 parse_error_res UNLIMITED (token :: rest) scp op =
        some (OK, { scp with sc_instances := n }) ∧
      parsers.per_source_parser parse_base10 parse_error_res UNLIMITED (token :: rest) scp op =
        some (OK, { scp with sc_per_source := n })) ∧
    (token ≠ UNLIMITED_str →
      (parse_base10 token = none ∨ ∃ n, parse_base10 token = some n ∧ n < 0) →
      (parsers.instances_parser parse_base10 parse_error_res UNLIMITED
        (token :: rest) scp op).map (fun r => r.1) = some FAILED ∧
      (parsers.per_source_parser parse_base10 parse_error_res UNLIMITED
        (token :: rest) scp op).map (fun r => r.1) = some FAILED) := by
  refine ⟨⟨?_, ?_⟩, ?_, ?_⟩
  · simp [parsers.instances_parser, pset_pointer]
  · simp [parsers.per_source_parser, pset_pointer]
  · intro n hU hn h0
    constructor
    · simp [parsers.instances_parser, pset_pointer, hU, hn, not_lt.2 h0]
    · simp [parsers.per_source_parser, pset_pointer, hU, hn, not_lt.2 h0]
  · intro hU h
    rcases h with h | ⟨n, hn, hneg⟩
    · constructor
      · simp [parsers.instances_parser, pset_pointer, hU, h]
      · simp [parsers.per_source_parser, pset_pointer, hU, h]
    · constructor
      · simp [parsers.instances_parser, pset_pointer, hU, hn, hneg]
      · simp [parsers.per_source_parser, pset_pointer, hU, hn, hneg]

/-- C22 at the tokens `5`, `-5` and `abc`, with -1 for the sentinel. -/
theorem instance_count_parsers_accept_witness :
    "5".toList ≠ UNLIMITED_str ∧ strict_base10 "5".toList = some 5 ∧ (0 : Int) ≤ 5 ∧
    parsers.instances_parser strict_base10 error_res_zero (-1) ("5".toList :: []) { } SET_EQ =
      some (OK, { ({ } : service_config) with sc_instances := 5 }) ∧
    parsers.per_source_parser strict_base10 error_res_zero (-1) ("5".toList :: []) { } SET_EQ =
      some (OK, { ({ } : service_config) with sc_per_source := 5 }) ∧
    "-5".toList ≠ UNLIMITED_str ∧ (∃ n, strict_base10 "-5".toList = some n ∧ n < 0) ∧
    (parsers.instances_parser strict_base10 error_res_zero (-1)
      ("-5".toList :: []) { } SET_EQ).map (fun r => r.1) = some FAILED ∧
    "abc".toList ≠ UNLIMITED_str ∧ strict_base10 "abc".toList = none ∧
    (parsers.per_source_parser strict_base10 error_res_zero (-1)
      ("abc".toList :: []) { } SET_EQ).map (fun r => r.1) = some FAILED :=
  ⟨by decide, by decide, by decide,
   ((instance_count_parsers_accept strict_base10 error_res_zero (-1) "5".toList [] { }
      SET_EQ).2.1 5 (by decide) (by decide) (by decide)).1,
   ((instance_count_parsers_accept strict_base10 error_res_zero (-1) "5".toList [] { }
      SET_EQ).2.1 5 (by decide) (by decide) (by decide)).2,
   by decide, ⟨-5, by decide, by decide⟩,
   ((instance_count_parsers_accept strict_base10 error_res_zero (-1) "-5".toList [] { }
      SET_EQ).2.2 (by decide) (Or.inr ⟨-5, by decide, by decide⟩)).1,
   by decide, by decide,
   ((instance_count_parsers_accept strict_base10 error_res_zero (-1) "abc".toList [] { }
      SET_EQ).2.2 (by decide) (Or.inl (by decide))).2⟩

/-- C23, as the code has it: `parse_base10` stores through the field, so when
`instances_parser` or `per_source_parser` fails on a token that parses as a
negative number, that number is in the field after the call, and when it
fails on a token that does not parse, the field holds what `parse_base10` has
left there; no other field of the record is changed. -/
theorem instance_count_parsers_on_failure (parse_base10 : cstr → Option Int)
    (parse_error_res : cstr → Int → Int) (UNLIMITED : Int) (token : cstr) (rest : pset_h)
    (scp : service_config) (op : assign_op) (hU : token ≠ UNLIMITED_str) :
    (∀ n : Int, parse_base10 token = some n → n < 0 →
      parsers.instances_parser parse_base10 parse_error_res UNLIMITED (token :: rest) scp op =
        some (FAILED, { scp with sc_instances := n }) ∧
      parsers.per_source_parser parse_base10 parse_error_res UNLIMITED (token :: rest) scp op =
        some (FAILED, { scp with sc_per_source := n })) ∧
    (parse_base10 token = none →
      parsers.instances_parser parse_base10 parse_error_res UNLIMITED (token :: rest) scp op =
        some (FAILED, { scp with sc_instances := parse_error_res token scp.sc_instances }) ∧
      parsers.per_source_parser parse_base10 parse_error_res UNLIMITED (token :: rest) scp op =
        some (FAILED, { scp with sc_per_source := parse_error_res token scp.sc_per_source })) := by
  refine ⟨?_, ?_⟩
  · intro n hn hneg
    constructor
    · simp [parsers.instances_parser, pset_pointer, hU, hn, hneg]
    · simp [parsers.per_source_parser, pset_pointer, hU, hn, hneg]
  · intro h
    constructor
    · simp [parsers.instances_parser, pset_pointer, hU, h]
    · simp [parsers.per_source_parser, pset_pointer, hU, h]

/-- C23 at the tokens `-5` and `abc`, with 3 in the field before the call. -/
theorem instance_count_parsers_on_failure_witness :
    "-5".toList ≠ UNLIMITED_str ∧ strict_base10 "-5".toList = some (-5) ∧ (-5 : Int) < 0 ∧
    parsers.instances_parser strict_base10 error_res_zero (-1) ("-5".toList :: [])
        { sc_instances := 3 } SET_EQ =
      some (FAILED, { ({ sc_instances := 3 } : service_config) with sc_instances := -5 }) ∧
    "abc".toList ≠ UNLIMITED_str ∧ strict_base10 "abc".toList = none ∧
    parsers.per_source_parser strict_base10 error_res_zero (-1) ("abc".toList :: [])
        { sc_per_source := 3 } SET_EQ =
      some (FAILED, { ({ sc_per_source := 3 } : service_config) with sc_per_source :=
        (error_res_zero "abc".toList
          ({ sc_per_source := 3 } : service_config).sc_per_source) }) :=
  ⟨by decide, by decide, by decide,
   ((instance_count_parsers_on_failure strict_base10 error_res_zero (-1) "-5".toList []
      { sc_instances := 3 } SET_EQ (by decide)).1 (-5) (by decide) (by decide)).1,
   by decide, by decide,
   ((instance_count_parsers_on_failure strict_base10 error_res_zero (-1) "abc".toList []
      { sc_per_source := 3 } SET_EQ (by decide)).2 (by decide)).2⟩

/-- C23 fails as stated: with 3 in the field, the token `-5` makes
`instances_parser` fail with -5 in the field, and the token `-1` makes
`per_source_parser` fail with -1 in the field. -/
theorem instance_count_negative_counterexample :
    parsers.instances_parser strict_base10 error_res_zero (-1) ["-5".toList]
        { sc_instances := 3 } SET_EQ = some (FAILED, { sc_instances := -5 }) ∧
    parsers.per_source_parser strict_base10 error_res_zero (-1) ["-1".toList]
        { sc_per_source := 3 } SET_EQ = some (FAILED, { sc_per_source := -1 }) ∧
    parsers.instances_parser strict_base10 error_res_zero (-1) ["-5".toList]
        { sc_instances := 3 } SET_EQ ≠ some (FAILED, { sc_instances := 3 }) := by
  decide

/-! ## The mask after a failing `parse_value_list` -/

theorem take_append_get (values : pset_h) (i : Nat) (bad : cstr)
    (h : values.get? i = some bad) :
    values = values.take i ++ bad :: values.drop (i + 1) := by
  induction values generalizing i with
  | nil => simp at h
  | cons a l ih =>
    cases i with
    | zero =>
      simp at h
      simp [h]
    | succ j =>
      simp at h
      have := ih j (by simpa using h)
      simp only [List.take_succ_cons, List.drop_succ_cons, List.cons_append]
      exact congrArg (List.cons a) this

/-- C27: when `parse_value_list` meets its first unknown name at position `i`,
it fails and the mask is the one the operator makes of the tokens at the
positions before `i`, those bits ORed in for `PLUS_EQ` and cleared otherwise,
whatever follows position `i`; `log_on_success` and `log_on_failure` with `=`
apply these tokens to the cleared mask, so that the prior bits are lost. -/
theorem parse_value_list_stops_at_unknown (MASK : Nat → mask_t) (list : List name_value)
    (values : pset_h) (i : Nat) (bad : cstr) (m : mask_t) (scp : service_config)
    (hi : values.get? i = some bad) (hknown : all_known list (values.take i))
    (hbad : nv_find_value list bad = none) :
    parse_value_list MASK values m list PLUS_EQ =
      (FAILED, m ||| matched_bits MASK list (values.take i)) ∧
    parse_value_list MASK values m list MINUS_EQ =
      (FAILED, Nat.ldiff m (matched_bits MASK list (values.take i))) ∧
    (∀ op : assign_op,
      parse_value_list MASK values m list op =
        (FAILED, (parse_value_list MASK (values.take i) m list op).2) ∧
      (parse_value_list MASK (values.take i) m list op).1 = OK) ∧
    parsers.log_on_success_parser MASK list values scp SET_EQ =
      (FAILED, { scp with sc_log_on_success := matched_bits MASK list (values.take i) }) ∧
    parsers.log_on_failure_parser MASK list values scp SET_EQ =
      (FAILED, { scp with sc_log_on_failure := matched_bits MASK list (values.take i) }) := by
  have hv := take_append_get values i bad hi
  have hun : ∀ (m0 : mask_t) (op : assign_op), parse_value_list MASK values m0 list op =
      (FAILED, (parse_value_list MASK (values.take i) m0 list op).2) := by
    intro m0 op
    have h1 := parse_value_list_unknown MASK list (values.take i) (values.drop (i + 1)) bad
      m0 op hknown hbad
    rw [← hv] at h1
    exact h1
  refine ⟨?_, ?_, ?_, ?_, ?_⟩
  · rw [hun, parse_value_list_set MASK list _ m hknown]
  · rw [hun, parse_value_list_clear MASK list _ m MINUS_EQ (by decide) hknown]
  · intro op
    refine ⟨hun m op, ?_⟩
    by_cases hop : op = PLUS_EQ
    · subst hop
      rw [parse_value_list_set MASK list _ m hknown]
    · rw [parse_value_list_clear MASK list _ m op hop hknown]
  · simp [parsers.log_on_success_parser, parse_log_flags, M_CLEAR_ALL, hun,
      parse_value_list_set MASK list _ _ hknown]
  · simp [parsers.log_on_failure_parser, parse_log_flags, M_CLEAR_ALL, hun,
      parse_value_list_set MASK list _ _ hknown]

/-- C27 at the tokens `HOST bogus EXIT` of the example table, prior mask 6. -/
theorem parse_value_list_stops_at_unknown_witness :
    ["HOST".toList, "bogus".toList, "EXIT".toList].get? 1 = some "bogus".toList ∧
    all_known nv_example (["HOST".toList, "bogus".toList, "EXIT".toList].take 1) ∧
    nv_find_value nv_example "bogus".toList = none ∧
    parse_value_list MASK_bit ["HOST".toList, "bogus".toList, "EXIT".toList] 6
        nv_example PLUS_EQ =
      (FAILED, 6 ||| matched_bits MASK_bit nv_example
        (["HOST".toList, "bogus".toList, "EXIT".toList].take 1)) ∧
    parsers.log_on_success_parser MASK_bit nv_example
        ["HOST".toList, "bogus".toList, "EXIT".toList] { sc_log_on_success := 6 } SET_EQ =
      (FAILED, { ({ sc_log_on_success := 6 } : service_config) with sc_log_on_success :=
        (matched_bits MASK_bit nv_example
          (["HOST".toList, "bogus".toList, "EXIT".toList].take 1)) }) :=
  ⟨by decide, by decide, by decide,
   (parse_value_list_stops_at_unknown MASK_bit nv_example
      ["HOST".toList, "bogus".toList, "EXIT".toList] 1 "bogus".toList 6
      { sc_log_on_success := 6 } (by decide) (by decide) (by decide)).1,
   (parse_value_list_stops_at_unknown MASK_bit nv_example
      ["HOST".toList, "bogus".toList, "EXIT".toList] 1 "bogus".toList 6
      { sc_log_on_success := 6 } (by decide) (by decide) (by decide)).2.2.2.1⟩

/-! ## Argument vector -/

theorem set_at_length {β : Type} (front tail : List β) (a x : β) :
    (front ++ a :: tail).set front.length x = front ++ x :: tail := by
  induction front with
  | nil => rfl
  | cons b l ih => simp [ih]

theorem argv_store_at_length (front tail : List (Option cstr)) (a x : Option cstr) :
    argv_store (front ++ a :: tail) front.length x = some (front ++ x :: tail) := by
  have hlt : front.length < (front ++ a :: tail).length := by simp
  simp only [argv_store, if_pos hlt, set_at_length]

/-- With no allocation failing, the loop that starts at slot `u` puts the
copies of the tokens in the slots `u`, `u + 1`, and so on, when the vector
has as many NULL slots left. -/
theorem fill_from_zero_ok (mem : allocator) (hmem : no_alloc_failure mem) (values : pset_h)
    (front : List (Option cstr)) (k : Nat) (hk : values.length ≤ k) :
    fill_from_zero mem values front.length (front ++ List.replicate k none) =
      some (argv_outcome.filled
        (front ++ values.map some ++ List.replicate (k - values.length) none)) := by
  induction values generalizing front k with
  | nil => simp [fill_from_zero]
  | cons token rest ih =>
    obtain ⟨j, rfl⟩ : ∃ j, k = j + 1 := ⟨k - 1, by simp at hk; omega⟩
    have hj : rest.length ≤ j := by simp at hk; omega
    have h1 := ih (front ++ [some token]) j hj
    simp only [List.length_append, List.length_singleton] at h1
    simp only [fill_from_zero, hmem.1 token, List.replicate_succ, argv_store_at_length]
    have h2 : front ++ some token :: List.replicate j none =
        (front ++ [some token]) ++ List.replicate j none := by simp
    rw [h2, h1]
    simp

/-- With no allocation failing, the loop that starts at slot `argv_index` puts
the copies of the tokens in the slots from there on and NULL in slot 0 and in
the slot after the last copy. -/
theorem fill_from_one_ok (mem : allocator) (hmem : no_alloc_failure mem) (values : pset_h)
    (first : Option cstr) (front : List (Option cstr)) (k : Nat) (hk : values.length + 1 ≤ k) :
    fill_from_one mem values (first :: front).length
        ((first :: front) ++ List.replicate k none) =
      some (argv_outcome.filled
        ((none :: front) ++ values.map some ++ List.replicate (k - values.length) none)) := by
  induction values generalizing front k with
  | nil =>
    obtain ⟨j, rfl⟩ : ∃ j, k = j + 1 := ⟨k - 1, by simp at hk; omega⟩
    have h0 : argv_store ((first :: front) ++ List.replicate (j + 1) none) 0 none =
        some ((none :: front) ++ none :: List.replicate j none) := by
      simp [argv_store, List.replicate_succ]
    have h1 := argv_store_at_length (none :: front) (List.replicate j none) none none
    simp only [List.length_cons] at h1
    simp only [fill_from_one, h0, List.length_cons]
    rw [h1]
    simp [List.replicate_succ]
  | cons token rest ih =>
    obtain ⟨j, rfl⟩ : ∃ j, k = j + 1 := ⟨k - 1, by simp at hk; omega⟩
    have hj : rest.length + 1 ≤ j := by simp at hk; omega
    have h1 := ih (front ++ [some token]) j hj
    have h3 := argv_store_at_length (first :: front) (List.replicate j none) none (some token)
    simp only [List.length_cons, List.length_append, List.length_nil, Nat.zero_add] at h1 h3
    simp only [fill_from_one, hmem.1 token, List.replicate_succ, List.length_cons, h3]
    have h2 : (first :: front) ++ some token :: List.replicate j none =
        (first :: (front ++ [some token])) ++ List.replicate j none := by simp
    rw [h2, h1]
    simp

/-- C21: for `server_args_parser` with `N` tokens and no allocation failing:
`N = 0` fails and leaves the record as it was; for `N ≥ 1` the call succeeds,
and the vector stored has, when `SC_NAMEINARGS` holds, the tokens in the slots
0..N-1 followed by NULL slots, and otherwise NULL in slot 0, the tokens in the
slots 1..N and NULL in slot N+1; every store is made in one of the `N + 2`
slots of `argv_alloc( N + 1 )`. -/
theorem server_args_vector (mem : allocator) (values : pset_h) (scp : service_config)
    (op : assign_op) (hmem : no_alloc_failure mem) :
    (values = [] → ∀ nameinargs : Bool,
      (parsers.server_args_parser mem nameinargs values scp op).map
        (fun r => (r.status, r.scp)) = some (FAILED, scp)) ∧
    (values ≠ [] →
      parsers.server_args_parser mem true values scp op =
        some ⟨OK, { scp with sc_server_argv := some (values.map some ++ [none, none]) },
          values.map some ++ [none, none], []⟩) ∧
    (values ≠ [] →
      parsers.server_args_parser mem false values scp op =
        some ⟨OK, { scp with sc_server_argv := some (none :: values.map some ++ [none]) },
          none :: values.map some ++ [none], []⟩) ∧
    (values.map some ++ [none, none]).length = (argv_alloc (pset_count values + 1)).length ∧
    (none :: values.map some ++ [none]).length = (argv_alloc (pset_count values + 1)).length := by
  refine ⟨?_, ?_, ?_, ?_, ?_⟩
  · intro h nameinargs
    subst h
    simp [parsers.server_args_parser, pset_count]
  · intro h
    have hc : pset_count values ≠ 0 := by
      simpa [pset_count] using h
    have h1 := fill_from_zero_ok mem hmem values [] (values.length + 2) (by omega)
    have h2 : values.length + 2 - values.length = 2 := by omega
    simp only [List.length_nil, List.nil_append, h2] at h1
    simp only [parsers.server_args_parser, if_neg hc, argv_alloc, pset_count, if_true, h1]
    simp [List.replicate_succ, h]
  · intro h
    have hc : pset_count values ≠ 0 := by
      simpa [pset_count] using h
    have h1 := fill_from_one_ok mem hmem values none [] (values.length + 1) (by omega)
    have h2 : values.length + 1 - values.length = 1 := by omega
    simp only [List.length_singleton, h2, List.singleton_append] at h1
    have h3 : argv_alloc (pset_count values + 1) =
        none :: List.replicate (values.length + 1) none := by
      simp [argv_alloc, pset_count, List.replicate_succ]
    simp only [parsers.server_args_parser, if_neg hc, h3, h1]
    simp [List.replicate_succ, h]
  · simp [argv_alloc, pset_count]
  · simp [argv_alloc, pset_count]

/-- C21 at the tokens `a b`. -/
theorem server_args_vector_witness :
    no_alloc_failure mem_ok ∧ ["a".toList, "b".toList] ≠ [] ∧
    parsers.server_args_parser mem_ok true ["a".toList, "b".toList] { } SET_EQ =
      some ⟨OK, { ({ } : service_config) with sc_server_argv :=
          (some (["a".toList, "b".toList].map some ++ [none, none])) },
        ["a".toList, "b".toList].map some ++ [none, none], []⟩ ∧
    parsers.server_args_parser mem_ok false ["a".toList, "b".toList] { } SET_EQ =
      some ⟨OK, { ({ } : service_config) with sc_server_argv :=
          (some (none :: ["a".toList, "b".toList].map some ++ [none])) },
        none :: ["a".toList, "b".toList].map some ++ [none], []⟩ ∧
    (parsers.server_args_parser mem_ok true [] { } SET_EQ).map
      (fun r => (r.status, r.scp)) = some (FAILED, { }) :=
  ⟨mem_ok_no_alloc_failure, by decide,
   (server_args_vector mem_ok ["a".toList, "b".toList] { } SET_EQ
      mem_ok_no_alloc_failure).2.1 (by decide),
   (server_args_vector mem_ok ["a".toList, "b".toList] { } SET_EQ
      mem_ok_no_alloc_failure).2.2.1 (by decide),
   (server_args_vector mem_ok [] { } SET_EQ mem_ok_no_alloc_failure).1 rfl true⟩

/-- C26 at the tokens `a b` and `a c d b`, the copy of `b` failing: when
`SC_NAMEINARGS` holds, slot 0 (and the slots 1 and 2 in the second list) holds
a copy, and the cleanup loop, which starts at slot 1, frees no slot (the slots
1 and 2 in the second list): the copy in slot 0 is not freed.  When
`SC_NAMEINARGS` does not hold, slot 1 holds a copy and slot 1 is freed.  The
record is as it was in each case. -/
theorem server_args_cleanup_skips_slot_zero :
    mem_fail_b.new_string "a".toList = some "a".toList ∧
    mem_fail_b.new_string "b".toList = none ∧
    parsers.server_args_parser mem_fail_b true ["a".toList, "b".toList] { } SET_EQ =
      some ⟨FAILED, { }, [some "a".toList, none, none, none], []⟩ ∧
    parsers.server_args_parser mem_fail_b true
        ["a".toList, "c".toList, "d".toList, "b".toList] { } SET_EQ =
      some ⟨FAILED, { },
        [some "a".toList, some "c".toList, some "d".toList, none, none, none], [1, 2]⟩ ∧
    parsers.server_args_parser mem_fail_b false ["a".toList, "b".toList] { } SET_EQ =
      some ⟨FAILED, { }, [none, some "a".toList, none, none], [1]⟩ := by
  decide

/-! ## Bind address -/

/-- C25: with no allocation failing and the resolution giving either an error
or a list of records with their addresses: one record makes `bind_parser`
succeed, store its address in `sc_bind_addr` and leave `sc_orig_bind_addr` as
it was; two or more records make it succeed, store the host text in
`sc_orig_bind_addr` and leave `sc_bind_addr` as it was; an error or an empty
list makes it fail and leave both fields as they were. -/
theorem bind_parser_resolved_or_deferred {α : Type} (mem : allocator) (malloc_ok : Bool)
    (check_hostname : cstr → Int)
    (getaddrinfo : cstr → addrinfo_hints → Int × List (Option α))
    (adr : cstr) (rest : pset_h) (sc_bind_addr : Option α) (sc_orig_bind_addr : Option cstr)
    (op : assign_op) (hmem : no_alloc_failure mem) (hmalloc : malloc_ok = true) :
    (∀ (rc : Int) (a : α),
      getaddrinfo adr (bind_hints check_hostname adr) = (rc, [some a]) → 0 ≤ rc →
      parsers.bind_parser mem malloc_ok check_hostname getaddrinfo (adr :: rest)
        sc_bind_addr sc_orig_bind_addr op = some (OK, some a, sc_orig_bind_addr)) ∧
    (∀ (rc : Int) (a : α) (second : Option α) (more : List (Option α)),
      getaddrinfo adr (bind_hints check_hostname adr) = (rc, some a :: second :: more) →
      0 ≤ rc →
      parsers.bind_parser mem malloc_ok check_hostname getaddrinfo (adr :: rest)
        sc_bind_addr sc_orig_bind_addr op = some (OK, sc_bind_addr, some adr)) ∧
    (∀ (rc : Int) (found : List (Option α)),
      getaddrinfo adr (bind_hints check_hostname adr) = (rc, found) →
      (rc < 0 ∨ found = []) →
      parsers.bind_parser mem malloc_ok check_hostname getaddrinfo (adr :: rest)
        sc_bind_addr sc_orig_bind_addr op = some (FAILED, sc_bind_addr, sc_orig_bind_addr)) := by
  refine ⟨?_, ?_, ?_⟩
  · intro rc a hg hrc
    simp [parsers.bind_parser, pset_pointer, hg, not_lt.2 hrc, hmalloc]
  · intro rc a second more hg hrc
    simp [parsers.bind_parser, pset_pointer, hg, not_lt.2 hrc, hmem.1 adr]
  · intro rc found hg h
    by_cases hrc : rc < 0
    · simp [parsers.bind_parser, pset_pointer, hg, hrc]
    · rcases h with h | h
      · exact absurd h hrc
      · subst h
        simp [parsers.bind_parser, pset_pointer, hg, hrc]

/-- C25 at the host texts `10.0.0.1`, `localhost`, `nohost` and `empty`. -/
theorem bind_parser_resolved_or_deferred_witness :
    no_alloc_failure mem_ok ∧
    getaddrinfo_example "10.0.0.1".toList (bind_hints check_hostname_example "10.0.0.1".toList) =
      (0, [some "10.0.0.1".toList]) ∧
    parsers.bind_parser mem_ok true check_hostname_example getaddrinfo_example
        ("10.0.0.1".toList :: []) none (some "old".toList) SET_EQ =
      some (OK, some "10.0.0.1".toList, some "old".toList) ∧
    getaddrinfo_example "localhost".toList (bind_hints check_hostname_example "localhost".toList) =
      (0, some "127.0.0.1".toList :: some "::1".toList :: []) ∧
    parsers.bind_parser mem_ok true check_hostname_example getaddrinfo_example
        ("localhost".toList :: []) (some "1.2.3.4".toList) none SET_EQ =
      some (OK, some "1.2.3.4".toList, some "localhost".toList) ∧
    getaddrinfo_example "nohost".toList (bind_hints check_hostname_example "nohost".toList) =
      (-2, []) ∧
    parsers.bind_parser mem_ok true check_hostname_example getaddrinfo_example
        ("nohost".toList :: []) (some "1.2.3.4".toList) (some "old".toList) SET_EQ =
      some (FAILED, some "1.2.3.4".toList, some "old".toList) ∧
    parsers.bind_parser mem_ok true check_hostname_example getaddrinfo_example
        ("empty".toList :: []) (some "1.2.3.4".toList) (some "old".toList) SET_EQ =
      some (FAILED, some "1.2.3.4".toList, some "old".toList) :=
  ⟨mem_ok_no_alloc_failure, by decide,
   (bind_parser_resolved_or_deferred mem_ok true check_hostname_example getaddrinfo_example
      "10.0.0.1".toList [] none (some "old".toList) SET_EQ mem_ok_no_alloc_failure rfl).1
      0 "10.0.0.1".toList (by decide) (by decide),
   by decide,
   (bind_parser_resolved_or_deferred mem_ok true check_hostname_example getaddrinfo_example
      "localhost".toList [] (some "1.2.3.4".toList) none SET_EQ mem_ok_no_alloc_failure rfl).2.1
      0 "127.0.0.1".toList (some "::1".toList) [] (by decide) (by decide),
   by decide,
   (bind_parser_resolved_or_deferred mem_ok true check_hostname_example getaddrinfo_example
      "nohost".toList [] (some "1.2.3.4".toList) (some "old".toList) SET_EQ
      mem_ok_no_alloc_failure rfl).2.2 (-2) [] (by decide) (Or.inl (by decide)),
   (bind_parser_resolved_or_deferred mem_ok true check_hostname_example getaddrinfo_example
      "empty".toList [] (some "1.2.3.4".toList) (some "old".toList) SET_EQ
      mem_ok_no_alloc_failure rfl).2.2 0 [] (by decide) (Or.inr rfl)⟩

/-! ## The derived hard limit -/

theorem log_extra_bounds (LOG_EXTRA_MIN LOG_EXTRA_MAX soft_limit : Nat)
    (hle : LOG_EXTRA_MIN ≤ LOG_EXTRA_MAX) :
    LOG_EXTRA_MIN ≤ log_extra LOG_EXTRA_MIN LOG_EXTRA_MAX soft_limit ∧
    log_extra LOG_EXTRA_MIN LOG_EXTRA_MAX soft_limit ≤ LOG_EXTRA_MAX := by
  unfold log_extra
  dsimp only
  split_ifs <;> omega

/-- The three-token `FILE` list whose soft token `get_limit` accepts with a
value below 2^51: the hard limit stored is the soft one plus the extra room,
without wrap-around. -/
theorem log_type_file_three_tokens (parse_base10 : cstr → Option Int) (mem : allocator)
    (LOG_EXTRA_MIN LOG_EXTRA_MAX : Nat) (syslog_facilities syslog_levels : List name_value)
    (DEFAULT_SERVICE_SYSLOG_LEVEL : Nat) (name soft cut : cstr) (s : Nat)
    (scp : service_config) (op : assign_op) (hmem : no_alloc_failure mem)
    (hg : get_limit parse_base10 soft = ⟨0, s, cut⟩) (hs : s < 2 ^ 51)
    (hle : LOG_EXTRA_MIN ≤ LOG_EXTRA_MAX) (hmax : LOG_EXTRA_MAX < 2 ^ 32) :
    parsers.log_type_parser parse_base10 mem LOG_EXTRA_MIN LOG_EXTRA_MAX syslog_facilities
        syslog_levels DEFAULT_SERVICE_SYSLOG_LEVEL [FILE_str, name, soft] scp op =
      (OK, [FILE_str, name, cut],
        { scp with sc_log :=
          { l_type := logtype_e.L_FILE,
            l_fl := { fl_filename := some name, fl_soft_limit := s,
                      fl_hard_limit := s + log_extra LOG_EXTRA_MIN LOG_EXTRA_MAX s },
            l_sl := scp.sc_log.l_sl } }) := by
  have hb := log_extra_bounds LOG_EXTRA_MIN LOG_EXTRA_MAX s hle
  have hmod : (s + log_extra LOG_EXTRA_MIN LOG_EXTRA_MAX s) % 18446744073709551616 =
      s + log_extra LOG_EXTRA_MIN LOG_EXTRA_MAX s := Nat.mod_eq_of_lt (by omega)
  simp [parsers.log_type_parser, parse_filelog, hmem.1 name, hg, hmod]

/-- C28: for every three-token `FILE` list whose soft token is a non-negative
decimal `n` fitting an `int`, alone or with a suffix `k`, `K`, `m`, `M`, with
no allocation failing, `LOG_EXTRA_MIN ≤ LOG_EXTRA_MAX` and `LOG_EXTRA_MAX` a
32-bit value: `log_type_parser` succeeds, and the hard limit it derives is
the soft limit plus the extra room, without wrap-around, so that the hard
limit is not below the soft one and their difference lies between
`LOG_EXTRA_MIN` and `LOG_EXTRA_MAX`, whether or not the 1% of the soft limit
fits the 32 bits of `extra`. -/
theorem log_type_hard_limit_bounds (parse_base10 : cstr → Option Int) (mem : allocator)
    (LOG_EXTRA_MIN LOG_EXTRA_MAX : Nat) (syslog_facilities syslog_levels : List name_value)
    (DEFAULT_SERVICE_SYSLOG_LEVEL : Nat) (name d : cstr) (n : Nat)
    (scp : service_config) (op : assign_op) (hmem : no_alloc_failure mem)
    (hd : is_digits d) (hp : parse_base10 d = some (n : Int)) (hn : n < 2 ^ 31)
    (hle : LOG_EXTRA_MIN ≤ LOG_EXTRA_MAX) (hmax : LOG_EXTRA_MAX < 2 ^ 32) :
    ∀ (soft : cstr) (s : Nat),
      ((soft = d ∧ s = n) ∨
        ∃ (c : Char) (mult : Nat), suffix_multiplier c = some mult ∧ soft = d ++ [c] ∧
          s = n * mult) →
      ∃ hard : Nat,
        parsers.log_type_parser parse_base10 mem LOG_EXTRA_MIN LOG_EXTRA_MAX syslog_facilities
            syslog_levels DEFAULT_SERVICE_SYSLOG_LEVEL [FILE_str, name, soft] scp op =
          (OK, [FILE_str, name, d],
            { scp with sc_log :=
              { l_type := logtype_e.L_FILE,
                l_fl := { fl_filename := some name, fl_soft_limit := s, fl_hard_limit := hard },
                l_sl := scp.sc_log.l_sl } }) ∧
        s ≤ hard ∧ LOG_EXTRA_MIN ≤ hard - s ∧ hard - s ≤ LOG_EXTRA_MAX ∧
        hard < 2 ^ 64 := by
  intro soft s h
  have hg : get_limit parse_base10 soft = ⟨0, s, d⟩ ∧ s < 2 ^ 51 := by
    rcases h with ⟨h1, h2⟩ | ⟨c, mult, hc, h1, h2⟩
    · rw [h1, h2]
      exact ⟨get_limit_plain parse_base10 d n hd hp hn, by omega⟩
    · rw [h1, h2]
      refine ⟨get_limit_suffix parse_base10 d c mult n hc hp hn, ?_⟩
      rcases suffix_multiplier_cases c mult hc with ⟨_, hm⟩ | ⟨_, hm⟩ <;> (rw [hm]; omega)
  have hb := log_extra_bounds LOG_EXTRA_MIN LOG_EXTRA_MAX s hle
  refine ⟨s + log_extra LOG_EXTRA_MIN LOG_EXTRA_MAX s,
    log_type_file_three_tokens parse_base10 mem LOG_EXTRA_MIN LOG_EXTRA_MAX syslog_facilities
      syslog_levels DEFAULT_SERVICE_SYSLOG_LEVEL name soft d s scp op hmem hg.1 hg.2 hle hmax,
    ?_, ?_, ?_, ?_⟩
  · omega
  · omega
  · omega
  · have := hg.2
    omega

/-- C28 at the tokens `FILE /var/log/x 409600m`, with 5120 and 20480 for the two
bounds. -/
theorem log_type_hard_limit_bounds_witness :
    no_alloc_failure mem_ok ∧ is_digits "409600".toList ∧
    strict_base10 "409600".toList = some ((409600 : Nat) : Int) ∧
    suffix_multiplier 'm' = some (1024 * 1024) ∧
    (∃ hard : Nat,
      parsers.log_type_parser strict_base10 mem_ok 5120 20480 facilities_example levels_example 6
          [FILE_str, "/var/log/x".toList, "409600".toList ++ ['m']] { } SET_EQ =
        (OK, [FILE_str, "/var/log/x".toList, "409600".toList],
          { ({ } : service_config) with sc_log :=
            { l_type := logtype_e.L_FILE,
              l_fl := { fl_filename := some "/var/log/x".toList,
                        fl_soft_limit := 409600 * (1024 * 1024), fl_hard_limit := hard },
              l_sl := ({ } : service_config).sc_log.l_sl } }) ∧
      409600 * (1024 * 1024) ≤ hard ∧ 5120 ≤ hard - 409600 * (1024 * 1024) ∧
      hard - 409600 * (1024 * 1024) ≤ 20480 ∧ hard < 2 ^ 64) :=
  ⟨mem_ok_no_alloc_failure, by decide, by decide, by decide,
   log_type_hard_limit_bounds strict_base10 mem_ok 5120 20480 facilities_example levels_example 6
      "/var/log/x".toList "409600".toList 409600 { } SET_EQ mem_ok_no_alloc_failure
      (by decide) (by decide) (by decide) (by decide) (by decide)
      ("409600".toList ++ ['m']) (409600 * (1024 * 1024))
      (Or.inr ⟨'m', 1024 * 1024, by decide, rfl, rfl⟩)⟩

/-! ## Invariant of the pass-through list -/

theorem mem_ok_alloc_sound : alloc_sound mem_ok :=
  ⟨fun _ _ h => (Option.some.inj h).symm, fun _ _ _ h => (Option.some.inj h).symm⟩

/-- `add_new_string` either fails and leaves the set, or adds the string. -/
theorem add_new_string_sound (mem : allocator) (hsound : alloc_sound mem)
    (set : List cstr) (str : cstr) :
    add_new_string mem set str = (FAILED, set) ∨
      add_new_string mem set str = (OK, set ++ [str]) := by
  cases hn : mem.new_string str with
  | none => left; simp only [add_new_string, hn]
  | some p =>
    have hp : p = str := hsound.1 str p hn
    cases ha : mem.pset_add set p with
    | none => left; simp only [add_new_string, hn, ha]
    | some set1 =>
      right
      simp only [add_new_string, hn, ha]
      rw [hsound.2 set p set1 ha, hp]

/-- One step of the loop of `passenv_parser` with `-=`: no allocation is made. -/
theorem passenv_loop_minus_cons (mem : allocator) (env_lookup : cstr → Option cstr)
    (env_var : cstr) (rest : pset_h) (var_set : List cstr) :
    passenv_loop mem env_lookup MINUS_EQ (env_var :: rest) var_set =
      passenv_loop mem env_lookup MINUS_EQ rest
        (if env_var ∈ var_set then var_set.erase env_var else var_set) := by
  by_cases hin : env_var ∈ var_set
  · have hf : (find_var env_var var_set).isSome = true := (find_var_isSome _ _).2 hin
    simp [passenv_loop, hf, hin, remove_found_index env_var var_set hin]
  · have hf : find_var env_var var_set = none := (find_var_eq_none _ _).2 hin
    simp [passenv_loop, hf, hin]

/-- One step of the loop of `passenv_parser` with an operator other than `-=`. -/
theorem passenv_loop_plus_cons (mem : allocator) (env_lookup : cstr → Option cstr)
    (op : assign_op) (hop : op ≠ MINUS_EQ)
    (env_var : cstr) (rest : pset_h) (var_set : List cstr) :
    passenv_loop mem env_lookup op (env_var :: rest) var_set =
      if env_var ∈ var_set ∨ env_lookup env_var = none then
        passenv_loop mem env_lookup op rest var_set
      else if (add_new_string mem var_set env_var).1 = FAILED then
        (FAILED, (add_new_string mem var_set env_var).2)
      else passenv_loop mem env_lookup op rest (add_new_string mem var_set env_var).2 := by
  by_cases hin : env_var ∈ var_set
  · have hf : (find_var env_var var_set).isSome = true := (find_var_isSome _ _).2 hin
    simp [passenv_loop, hf, hin, hop]
  · have hf : find_var env_var var_set = none := (find_var_eq_none _ _).2 hin
    by_cases hl : env_lookup env_var = none
    · simp [passenv_loop, hf, hin, hop, hl]
    · simp [passenv_loop, hf, hin, hop, hl]

/-- The loop of `passenv_parser` keeps the names of the set distinct. -/
theorem passenv_loop_nodup (mem : allocator) (hsound : alloc_sound mem)
    (env_lookup : cstr → Option cstr) (op : assign_op) (values : pset_h)
    (var_set : List cstr) (h : var_set.Nodup) :
    (passenv_loop mem env_lookup op values var_set).2.Nodup := by
  induction values generalizing var_set with
  | nil => simpa [passenv_loop] using h
  | cons env_var rest ih =>
    by_cases hop : op = MINUS_EQ
    · rw [hop, passenv_loop_minus_cons]
      rw [hop] at ih
      by_cases hin : env_var ∈ var_set
      · rw [if_pos hin]; exact ih _ (h.erase env_var)
      · rw [if_neg hin]; exact ih _ h
    · rw [passenv_loop_plus_cons mem env_lookup op hop]
      by_cases hc : env_var ∈ var_set ∨ env_lookup env_var = none
      · rw [if_pos hc]; exact ih _ h
      · rw [if_neg hc]
        have hin : env_var ∉ var_set := fun hm => hc (Or.inl hm)
        rcases add_new_string_sound mem hsound var_set env_var with h1 | h1
        · rw [h1]
          simpa using h
        · rw [h1]
          rw [if_neg (fun hne : (OK, var_set ++ [env_var]).1 = FAILED => status_e.noConfusion hne)]
          apply ih
          exact List.Nodup.append h (List.nodup_singleton _) (by simpa using hin)

/-- With `-=` the loop adds no name to the set. -/
theorem passenv_loop_minus_subset (mem : allocator) (env_lookup : cstr → Option cstr)
    (values : pset_h) (var_set : List cstr) :
    ∀ x ∈ (passenv_loop mem env_lookup MINUS_EQ values var_set).2, x ∈ var_set := by
  induction values generalizing var_set with
  | nil => intro x hx; simpa [passenv_loop] using hx
  | cons env_var rest ih =>
    intro x hx
    rw [passenv_loop_minus_cons] at hx
    have h1 := ih _ x hx
    by_cases hin : env_var ∈ var_set
    · rw [if_pos hin] at h1
      exact List.mem_of_mem_erase h1
    · rw [if_neg hin] at h1
      exact h1

/-- With `-=`, on a set of distinct names, no token is in the set after the loop. -/
theorem passenv_loop_minus_removed (mem : allocator) (env_lookup : cstr → Option cstr)
    (values : pset_h) (var_set : List cstr) (h : var_set.Nodup) :
    ∀ t ∈ values, t ∉ (passenv_loop mem env_lookup MINUS_EQ values var_set).2 := by
  induction values generalizing var_set with
  | nil => intro t ht; simp at ht
  | cons env_var rest ih =>
    intro t ht
    rw [passenv_loop_minus_cons]
    have hnd : (if env_var ∈ var_set then var_set.erase env_var else var_set).Nodup := by
      by_cases hin : env_var ∈ var_set
      · rw [if_pos hin]; exact h.erase env_var
      · rw [if_neg hin]; exact h
    have hout : env_var ∉ (if env_var ∈ var_set then var_set.erase env_var else var_set) := by
      by_cases hin : env_var ∈ var_set
      · rw [if_pos hin]
        intro hmem
        exact ((List.Nodup.mem_erase_iff h).1 hmem).1 rfl
      · rw [if_neg hin]; exact hin
    rcases List.mem_cons.1 ht with rfl | ht
    · intro hmem
      exact hout (passenv_loop_minus_subset mem env_lookup rest _ _ hmem)
    · exact ih _ hnd t ht

theorem passenv_loop_minus_status (mem : allocator) (env_lookup : cstr → Option cstr)
    (values : pset_h) (var_set : List cstr) :
    (passenv_loop mem env_lookup MINUS_EQ values var_set).1 = OK := by
  induction values generalizing var_set with
  | nil => simp [passenv_loop]
  | cons env_var rest ih =>
    rw [passenv_loop_minus_cons]
    exact ih _

/-- C29: if the pass-through set holds no two equal names before a call of
`passenv_parser` then, for every operator and every token list, whether or
not an allocation fails, it holds no two equal names after the call; and
after a successful call with `-=` none of the tokens is in the set. -/
theorem passenv_parser_names_distinct (mem : allocator) (env_lookup : cstr → Option cstr)
    (values : pset_h) (scp : service_config) (op : assign_op)
    (hsound : alloc_sound mem) (hnodup : (scp.sc_pass_env_vars.getD []).Nodup) :
    ((parsers.passenv_parser mem env_lookup values scp op).2.sc_pass_env_vars.getD []).Nodup ∧
    ((parsers.passenv_parser mem env_lookup values scp MINUS_EQ).1 = OK →
      ∀ t ∈ values,
        t ∉ (parsers.passenv_parser mem env_lookup values scp
          MINUS_EQ).2.sc_pass_env_vars.getD []) := by
  cases hset : scp.sc_pass_env_vars with
  | some var_set =>
    rw [hset] at hnodup
    simp only [Option.getD_some] at hnodup
    refine ⟨?_, ?_⟩
    · by_cases hop : op = SET_EQ
      · simp only [parsers.passenv_parser, hset, NEW_SET, hop, if_true, Option.getD_some]
        exact passenv_loop_nodup mem hsound env_lookup PLUS_EQ values [] List.nodup_nil
      · simp only [parsers.passenv_parser, hset, NEW_SET, if_neg hop, Option.getD_some]
        exact passenv_loop_nodup mem hsound env_lookup op values var_set hnodup
    · intro _ t ht
      simp only [parsers.passenv_parser, hset, NEW_SET,
        if_neg (by decide : ¬ (MINUS_EQ = SET_EQ)), Option.getD_some]
      exact passenv_loop_minus_removed mem env_lookup values var_set hnodup t ht
  | none =>
    cases hc : mem.pset_create with
    | false =>
      refine ⟨?_, ?_⟩
      · simp [parsers.passenv_parser, hset, NEW_SET, hc]
      · intro hok
        simp [parsers.passenv_parser, hset, NEW_SET, hc] at hok
    | true =>
      refine ⟨?_, ?_⟩
      · by_cases hop : op = SET_EQ
        · simp only [parsers.passenv_parser, hset, NEW_SET, hc, hop, if_true, Option.getD_some]
          exact passenv_loop_nodup mem hsound env_lookup PLUS_EQ values [] List.nodup_nil
        · simp only [parsers.passenv_parser, hset, NEW_SET, hc, if_true, if_neg hop,
            Option.getD_some]
          exact passenv_loop_nodup mem hsound env_lookup op values [] List.nodup_nil
      · intro _ t ht
        simp only [parsers.passenv_parser, hset, NEW_SET, hc, if_true,
          if_neg (by decide : ¬ (MINUS_EQ = SET_EQ)), Option.getD_some]
        exact passenv_loop_minus_removed mem env_lookup values [] List.nodup_nil t ht

/-- C29 at the tokens `PATH PATH HOME`, the set holding `HOME` and `PATH`. -/
theorem passenv_parser_names_distinct_witness :
    alloc_sound mem_ok ∧
    (({ sc_pass_env_vars := some ["HOME".toList, "PATH".toList] } :
      service_config).sc_pass_env_vars.getD []).Nodup ∧
    ((parsers.passenv_parser mem_ok env_example ["PATH".toList, "PATH".toList, "HOME".toList]
      { sc_pass_env_vars := some ["HOME".toList, "PATH".toList] }
      PLUS_EQ).2.sc_pass_env_vars.getD []).Nodup ∧
    (parsers.passenv_parser mem_ok env_example ["PATH".toList, "PATH".toList, "HOME".toList]
      { sc_pass_env_vars := some ["HOME".toList, "PATH".toList] } MINUS_EQ).1 = OK ∧
    (∀ t ∈ ["PATH".toList, "PATH".toList, "HOME".toList],
      t ∉ (parsers.passenv_parser mem_ok env_example
        ["PATH".toList, "PATH".toList, "HOME".toList]
        { sc_pass_env_vars := some ["HOME".toList, "PATH".toList] }
        MINUS_EQ).2.sc_pass_env_vars.getD []) :=
  ⟨mem_ok_alloc_sound, by decide,
   (passenv_parser_names_distinct mem_ok env_example
      ["PATH".toList, "PATH".toList, "HOME".toList]
      { sc_pass_env_vars := some ["HOME".toList, "PATH".toList] } PLUS_EQ
      mem_ok_alloc_sound (by decide)).1,
   by decide,
   (passenv_parser_names_distinct mem_ok env_example
      ["PATH".toList, "PATH".toList, "HOME".toList]
      { sc_pass_env_vars := some ["HOME".toList, "PATH".toList] } MINUS_EQ
      mem_ok_alloc_sound (by decide)).2 (by decide)⟩

/-! ## Scalar attributes given twice -/

theorem port_parser_twice (parse_base10 : cstr → Option Int) (values : pset_h)
    (scp : service_config) :
    (parsers.port_parser parse_base10 values scp SET_EQ).bind
        (fun r => parsers.port_parser parse_base10 values r.2 SET_EQ) =
      parsers.port_parser parse_base10 values scp SET_EQ := by
  cases h0 : pset_pointer values 0 with
  | none => simp [parsers.port_parser, h0]
  | some token =>
    cases h1 : parse_base10 token with
    | none => simp [parsers.port_parser, h0, h1]
    | some port =>
      by_cases h : port < 0 ∨ port ≥ PORT_MAX
      · simp [parsers.port_parser, h0, h1, h]
      · simp [parsers.port_parser, h0, h1, h]

theorem nice_parser_twice (parse_base10 : cstr → Option Int)
    (parse_error_res : cstr → Int → Int) (values : pset_h) (scp : service_config)
    (hres : ∀ tok v, parse_error_res tok (parse_error_res tok v) = parse_error_res tok v) :
    (parsers.nice_parser parse_base10 parse_error_res values scp SET_EQ).bind
        (fun r => parsers.nice_parser parse_base10 parse_error_res values r.2 SET_EQ) =
      parsers.nice_parser parse_base10 parse_error_res values scp SET_EQ := by
  cases h0 : pset_pointer values 0 with
  | none => simp [parsers.nice_parser, h0]
  | some token =>
    cases h1 : parse_base10 token with
    | none => simp [parsers.nice_parser, h0, h1, hres]
    | some n => simp [parsers.nice_parser, h0, h1]

theorem instances_parser_twice (parse_base10 : cstr → Option Int)
    (parse_error_res : cstr → Int → Int) (UNLIMITED : Int) (values : pset_h)
    (scp : service_config)
    (hres : ∀ tok v, parse_error_res tok (parse_error_res tok v) = parse_error_res tok v) :
    (parsers.instances_parser parse_base10 parse_error_res UNLIMITED values scp SET_EQ).bind
        (fun r => parsers.instances_parser parse_base10 parse_error_res UNLIMITED values r.2
          SET_EQ) =
      parsers.instances_parser parse_base10 parse_error_res UNLIMITED values scp SET_EQ := by
  cases h0 : pset_pointer values 0 with
  | none => simp [parsers.instances_parser, h0]
  | some token =>
    by_cases hu : token = UNLIMITED_str
    · simp [parsers.instances_parser, h0, hu]
    · cases h1 : parse_base10 token with
      | none => simp [parsers.instances_parser, h0, h1, hu, hres]
      | some n =>
        by_cases h : n < 0
        · simp [parsers.instances_parser, h0, h1, hu, h]
        · simp [parsers.instances_parser, h0, h1, hu, h]

theorem per_source_parser_twice (parse_base10 : cstr → Option Int)
    (parse_error_res : cstr → Int → Int) (UNLIMITED : Int) (values : pset_h)
    (scp : service_config)
    (hres : ∀ tok v, parse_error_res tok (parse_error_res tok v) = parse_error_res tok v) :
    (parsers.per_source_parser parse_base10 parse_error_res UNLIMITED values scp SET_EQ).bind
        (fun r => parsers.per_source_parser parse_base10 parse_error_res UNLIMITED values r.2
          SET_EQ) =
      parsers.per_source_parser parse_base10 parse_error_res UNLIMITED values scp SET_EQ := by
  cases h0 : pset_pointer values 0 with
  | none => simp [parsers.per_source_parser, h0]
  | some token =>
    by_cases hu : token = UNLIMITED_str
    · simp [parsers.per_source_parser, h0, hu]
    · cases h1 : parse_base10 token with
      | none => simp [parsers.per_source_parser, h0, h1, hu, hres]
      | some n =>
        by_cases h : n < 0
        · simp [parsers.per_source_parser, h0, h1, hu, h]
        · simp [parsers.per_source_parser, h0, h1, hu, h]

theorem deny_time_parser_twice (parse_base10 : cstr → Option Int)
    (parse_error_res : cstr → Int → Int) (values : pset_h) (scp : service_config)
    (hres : ∀ tok v, parse_error_res tok (parse_error_res tok v) = parse_error_res tok v) :
    (parsers.deny_time_parser parse_base10 parse_error_res values scp SET_EQ).bind
        (fun r => parsers.deny_time_parser parse_base10 parse_error_res values r.2 SET_EQ) =
      parsers.deny_time_parser parse_base10 parse_error_res values scp SET_EQ := by
  cases h0 : pset_pointer values 0 with
  | none => simp [parsers.deny_time_parser, h0]
  | some token =>
    by_cases hf : token = FOREVER_str
    · simp [parsers.deny_time_parser, h0, hf]
    · by_cases hn : token = NEVER_str
      · have hnf : ¬ (NEVER_str = FOREVER_str) := by decide
        simp [parsers.deny_time_parser, h0, hn, hnf]
      · cases h1 : parse_base10 token with
        | none => simp [parsers.deny_time_parser, h0, h1, hf, hn, hres]
        | some n => simp [parsers.deny_time_parser, h0, h1, hf, hn]

theorem umask_parser_twice (parse_int : cstr → Nat → Int → Option Int) (values : pset_h)
    (scp : service_config) :
    (parsers.umask_parser parse_int values scp SET_EQ).bind
        (fun r => parsers.umask_parser parse_int values r.2 SET_EQ) =
      parsers.umask_parser parse_int values scp SET_EQ := by
  cases h0 : pset_pointer values 0 with
  | none => simp [parsers.umask_parser, h0]
  | some token =>
    cases h1 : parse_int token 8 (-1) with
    | none => simp [parsers.umask_parser, h0, h1]
    | some n =>
      by_cases h : n < 0 ∨ n > 511
      · simp [parsers.umask_parser, h0, h1, h]
      · simp [parsers.umask_parser, h0, h1, h]

theorem cps_parser_twice (parse_base10 : cstr → Option Int) (values : pset_h)
    (scp : service_config) :
    parsers.cps_parser parse_base10 values
        (parsers.cps_parser parse_base10 values scp SET_EQ).2 SET_EQ =
      parsers.cps_parser parse_base10 values scp SET_EQ := by
  cases h0 : pset_pointer values 0 with
  | none => simp [parsers.cps_parser, h0]
  | some cps =>
    cases h1 : pset_pointer values 1 with
    | none => simp [parsers.cps_parser, h0, h1]
    | some waittime =>
      cases h2 : parse_base10 cps with
      | none => simp [parsers.cps_parser, h0, h1, h2, cps_reset]
      | some conn_max =>
        cases h3 : parse_base10 waittime with
        | none => simp [parsers.cps_parser, h0, h1, h2, h3, cps_reset]
        | some waittime_int =>
          by_cases h : conn_max < 0 ∨ waittime_int < 0
          · simp [parsers.cps_parser, h0, h1, h2, h3, h, cps_reset]
          · simp [parsers.cps_parser, h0, h1, h2, h3, h, cps_reset]

theorem rlim_cpu_parser_twice (parse_base10 : cstr → Option Int) (RLIM_INFINITY : Nat)
    (values : pset_h) (scp : service_config) :
    (parsers.rlim_cpu_parser parse_base10 RLIM_INFINITY values scp SET_EQ).bind
        (fun r => parsers.rlim_cpu_parser parse_base10 RLIM_INFINITY r.2.1 r.2.2 SET_EQ) =
      parsers.rlim_cpu_parser parse_base10 RLIM_INFINITY values scp SET_EQ := by
  cases h0 : pset_pointer values 0 with
  | none => simp [parsers.rlim_cpu_parser, h0]
  | some token =>
    by_cases hu : token = UNLIMITED_str
    · simp [parsers.rlim_cpu_parser, h0, hu]
    · cases h1 : parse_base10 token with
      | none => simp [parsers.rlim_cpu_parser, h0, h1, hu]
      | some n =>
        by_cases h : n < 0
        · simp [parsers.rlim_cpu_parser, h0, h1, hu, h]
        · simp [parsers.rlim_cpu_parser, h0, h1, hu, h]

theorem rpc_version_parser_twice (parse_base10 : cstr → Option Int) (values : pset_h)
    (scp : service_config) (r : status_e × pset_h × service_config)
    (h : parsers.rpc_version_parser parse_base10 values scp SET_EQ = some r)
    (hv : r.2.1 = values) :
    parsers.rpc_version_parser parse_base10 r.2.1 r.2.2 SET_EQ = some r := by
  rw [hv]
  have key : ∀ q : cstr × Int × Int,
      (if q.2.1 > q.2.2 then some (FAILED, values.set 0 q.1, scp)
        else some (OK, values.set 0 q.1,
          { scp with sc_rd :=
            { scp.sc_rd with rd_min_version := q.2.1, rd_max_version := q.2.2 } })) = some r →
      (if q.2.1 > q.2.2 then some (FAILED, values.set 0 q.1, r.2.2)
        else some (OK, values.set 0 q.1,
          { r.2.2 with sc_rd :=
            { r.2.2.sc_rd with rd_min_version := q.2.1, rd_max_version := q.2.2 } })) =
        some r := by
    intro q hq
    by_cases hgt : q.2.1 > q.2.2
    · rw [if_pos hgt] at hq ⊢
      rw [← Option.some.inj hq]
    · rw [if_neg hgt] at hq ⊢
      rw [← Option.some.inj hq]
  cases h0 : pset_pointer values 0 with
  | none => simp [parsers.rpc_version_parser, h0] at h
  | some version =>
    unfold parsers.rpc_version_parser at h ⊢
    rw [h0] at h ⊢
    exact key _ h

theorem rlim_as_parser_twice (parse_base10 : cstr → Option Int) (RLIM_INFINITY : Nat)
    (values : pset_h) (scp : service_config) (r : status_e × pset_h × service_config)
    (h : parsers.rlim_as_parser parse_base10 RLIM_INFINITY values scp SET_EQ = some r)
    (hv : r.2.1 = values) :
    parsers.rlim_as_parser parse_base10 RLIM_INFINITY r.2.1 r.2.2 SET_EQ = some r := by
  rw [hv]
  cases h0 : pset_pointer values 0 with
  | none => simp [parsers.rlim_as_parser, h0] at h
  | some token =>
    simp only [parsers.rlim_as_parser, h0] at h ⊢
    by_cases hu : token = UNLIMITED_str
    · rw [if_pos hu] at h ⊢
      rw [← Option.some.inj h]
    · rw [if_neg hu] at h ⊢
      by_cases hr : (get_limit parse_base10 token).ret ≠ 0
      · rw [if_pos hr] at h ⊢
        rw [← Option.some.inj h]
      · rw [if_neg hr] at h ⊢
        rw [← Option.some.inj h]

theorem rlim_data_parser_twice (parse_base10 : cstr → Option Int) (RLIM_INFINITY : Nat)
    (values : pset_h) (scp : service_config) (r : status_e × pset_h × service_config)
    (h : parsers.rlim_data_parser parse_base10 RLIM_INFINITY values scp SET_EQ = some r)
    (hv : r.2.1 = values) :
    parsers.rlim_data_parser parse_base10 RLIM_INFINITY r.2.1 r.2.2 SET_EQ = some r := by
  rw [hv]
  cases h0 : pset_pointer values 0 with
  | none => simp [parsers.rlim_data_parser, h0] at h
  | some token =>
    simp only [parsers.rlim_data_parser, h0] at h ⊢
    by_cases hu : token = UNLIMITED_str
    · rw [if_pos hu] at h ⊢
      rw [← Option.some.inj h]
    · rw [if_neg hu] at h ⊢
      by_cases hr : (get_limit parse_base10 token).ret ≠ 0
      · rw [if_pos hr] at h ⊢
        rw [← Option.some.inj h]
      · rw [if_neg hr] at h ⊢
        rw [← Option.some.inj h]

theorem rlim_rss_parser_twice (parse_base10 : cstr → Option Int) (RLIM_INFINITY : Nat)
    (values : pset_h) (scp : service_config) (r : status_e × pset_h × service_config)
    (h : parsers.rlim_rss_parser parse_base10 RLIM_INFINITY values scp SET_EQ = some r)
    (hv : r.2.1 = values) :
    parsers.rlim_rss_parser parse_base10 RLIM_INFINITY r.2.1 r.2.2 SET_EQ = some r := by
  rw [hv]
  cases h0 : pset_pointer values 0 with
  | none => simp [parsers.rlim_rss_parser, h0] at h
  | some token =>
    simp only [parsers.rlim_rss_parser, h0] at h ⊢
    by_cases hu : token = UNLIMITED_str
    · rw [if_pos hu] at h ⊢
      rw [← Option.some.inj h]
    · rw [if_neg hu] at h ⊢
      by_cases hr : (get_limit parse_base10 token).ret ≠ 0
      · rw [if_pos hr] at h ⊢
        rw [← Option.some.inj h]
      · rw [if_neg hr] at h ⊢
        rw [← Option.some.inj h]

theorem rlim_stack_parser_twice (parse_base10 : cstr → Option Int) (RLIM_INFINITY : Nat)
    (values : pset_h) (scp : service_config) (r : status_e × pset_h × service_config)
    (h : parsers.rlim_stack_parser parse_base10 RLIM_INFINITY values scp SET_EQ = some r)
    (hv : r.2.1 = values) :
    parsers.rlim_stack_parser parse_base10 RLIM_INFINITY r.2.1 r.2.2 SET_EQ = some r := by
  rw [hv]
  cases h0 : pset_pointer values 0 with
  | none => simp [parsers.rlim_stack_parser, h0] at h
  | some token =>
    simp only [parsers.rlim_stack_parser, h0] at h ⊢
    by_cases hu : token = UNLIMITED_str
    · rw [if_pos hu] at h ⊢
      rw [← Option.some.inj h]
    · rw [if_neg hu] at h ⊢
      by_cases hr : (get_limit parse_base10 token).ret ≠ 0
      · rw [if_pos hr] at h ⊢
        rw [← Option.some.inj h]
      · rw [if_neg hr] at h ⊢
        rw [← Option.some.inj h]

/-- C24, counterexample: `rpc_version_parser` on `3-5` sets the range 3..5 and
leaves the token cut to `3`, so that a second call on the same token sets the
range 3..3; `rlim_as_parser` on `10k` sets 10240 and leaves the token cut to
`10`, so that a second call sets 10. -/
theorem scalar_twice_counterexample :
    parsers.rpc_version_parser strict_base10 ["3-5".toList] { } SET_EQ =
      some (OK, ["3".toList], { sc_rd := { rd_min_version := 3, rd_max_version := 5 } }) ∧
    (parsers.rpc_version_parser strict_base10 ["3-5".toList] { } SET_EQ).bind
        (fun r => parsers.rpc_version_parser strict_base10 r.2.1 r.2.2 SET_EQ) =
      some (OK, ["3".toList], { sc_rd := { rd_min_version := 3, rd_max_version := 3 } }) ∧
    parsers.rlim_as_parser strict_base10 18446744073709551615 ["10k".toList] { } SET_EQ =
      some (OK, ["10".toList], { sc_rlim_as := 10240 }) ∧
    (parsers.rlim_as_parser strict_base10 18446744073709551615 ["10k".toList] { } SET_EQ).bind
        (fun r => parsers.rlim_as_parser strict_base10 18446744073709551615 r.2.1 r.2.2
          SET_EQ) =
      some (OK, ["10".toList], { sc_rlim_as := 10 }) :=
  ⟨by decide, by decide, by decide, by decide⟩

/-- C24, amended: when what `parse_base10` leaves in its result on an error
does not depend on being left there twice, a second call with `=` on the
same tokens and on the record left by the first call gives the result of the
first call, status and record, for `port`, `nice`, `instances`, `per_source`,
`deny_time`, `umask`, `cps` and `rlim_cpu` on every token list, and for
`rpc_version`, `rlim_as`, `rlim_data`, `rlim_rss` and `rlim_stack` whenever the
first call left the tokens as they were (no `-` cut out of the version, no
suffix cut off the limit). -/
theorem scalar_twice_same_when_tokens_kept (parse_base10 : cstr → Option Int)
    (parse_error_res : cstr → Int → Int) (parse_int : cstr → Nat → Int → Option Int)
    (UNLIMITED : Int) (RLIM_INFINITY : Nat) (values : pset_h) (scp : service_config)
    (hres : ∀ tok v, parse_error_res tok (parse_error_res tok v) = parse_error_res tok v) :
    ((parsers.port_parser parse_base10 values scp SET_EQ).bind
        (fun r => parsers.port_parser parse_base10 values r.2 SET_EQ) =
      parsers.port_parser parse_base10 values scp SET_EQ) ∧
    ((parsers.nice_parser parse_base10 parse_error_res values scp SET_EQ).bind
        (fun r => parsers.nice_parser parse_base10 parse_error_res values r.2 SET_EQ) =
      parsers.nice_parser parse_base10 parse_error_res values scp SET_EQ) ∧
    ((parsers.instances_parser parse_base10 parse_error_res UNLIMITED values scp SET_EQ).bind
        (fun r => parsers.instances_parser parse_base10 parse_error_res UNLIMITED values r.2
          SET_EQ) =
      parsers.instances_parser parse_base10 parse_error_res UNLIMITED values scp SET_EQ) ∧
    ((parsers.per_source_parser parse_base10 parse_error_res UNLIMITED values scp SET_EQ).bind
        (fun r => parsers.per_source_parser parse_base10 parse_error_res UNLIMITED values r.2
          SET_EQ) =
      parsers.per_source_parser parse_base10 parse_error_res UNLIMITED values scp SET_EQ) ∧
    ((parsers.deny_time_parser parse_base10 parse_error_res values scp SET_EQ).bind
        (fun r => parsers.deny_time_parser parse_base10 parse_error_res values r.2 SET_EQ) =
      parsers.deny_time_parser parse_base10 parse_error_res values scp SET_EQ) ∧
    ((parsers.umask_parser parse_int values scp SET_EQ).bind
        (fun r => parsers.umask_parser parse_int values r.2 SET_EQ) =
      parsers.umask_parser parse_int values scp SET_EQ) ∧
    (parsers.cps_parser parse_base10 values
        (parsers.cps_parser parse_base10 values scp SET_EQ).2 SET_EQ =
      parsers.cps_parser parse_base10 values scp SET_EQ) ∧
    ((parsers.rlim_cpu_parser parse_base10 RLIM_INFINITY values scp SET_EQ).bind
        (fun r => parsers.rlim_cpu_parser parse_base10 RLIM_INFINITY r.2.1 r.2.2 SET_EQ) =
      parsers.rlim_cpu_parser parse_base10 RLIM_INFINITY values scp SET_EQ) ∧
    (∀ r, parsers.rpc_version_parser parse_base10 values scp SET_EQ = some r → r.2.1 = values →
      parsers.rpc_version_parser parse_base10 r.2.1 r.2.2 SET_EQ = some r) ∧
    (∀ r, parsers.rlim_as_parser parse_base10 RLIM_INFINITY values scp SET_EQ = some r →
      r.2.1 = values →
      parsers.rlim_as_parser parse_base10 RLIM_INFINITY r.2.1 r.2.2 SET_EQ = some r) ∧
    (∀ r, parsers.rlim_data_parser parse_base10 RLIM_INFINITY values scp SET_EQ = some r →
      r.2.1 = values →
      parsers.rlim_data_parser parse_base10 RLIM_INFINITY r.2.1 r.2.2 SET_EQ = some r) ∧
    (∀ r, parsers.rlim_rss_parser parse_base10 RLIM_INFINITY values scp SET_EQ = some r →
      r.2.1 = values →
      parsers.rlim_rss_parser parse_base10 RLIM_INFINITY r.2.1 r.2.2 SET_EQ = some r) ∧
    (∀ r, parsers.rlim_stack_parser parse_base10 RLIM_INFINITY values scp SET_EQ = some r →
      r.2.1 = values →
      parsers.rlim_stack_parser parse_base10 RLIM_INFINITY r.2.1 r.2.2 SET_EQ = some r) :=
  ⟨port_parser_twice parse_base10 values scp,
   nice_parser_twice parse_base10 parse_error_res values scp hres,
   instances_parser_twice parse_base10 parse_error_res UNLIMITED values scp hres,
   per_source_parser_twice parse_base10 parse_error_res UNLIMITED values scp hres,
   deny_time_parser_twice parse_base10 parse_error_res values scp hres,
   umask_parser_twice parse_int values scp,
   cps_parser_twice parse_base10 values scp,
   rlim_cpu_parser_twice parse_base10 RLIM_INFINITY values scp,
   rpc_version_parser_twice parse_base10 values scp,
   rlim_as_parser_twice parse_base10 RLIM_INFINITY values scp,
   rlim_data_parser_twice parse_base10 RLIM_INFINITY values scp,
   rlim_rss_parser_twice parse_base10 RLIM_INFINITY values scp,
   rlim_stack_parser_twice parse_base10 RLIM_INFINITY values scp⟩

/-- C24, amended, at the token `10`: the port and the limit of the address
space are the same after a second call. -/
theorem scalar_twice_same_when_tokens_kept_witness :
    (∀ (tok : cstr) (v : Int),
      error_res_zero tok (error_res_zero tok v) = error_res_zero tok v) ∧
    ((parsers.port_parser strict_base10 ["10".toList] { } SET_EQ).bind
        (fun r => parsers.port_parser strict_base10 ["10".toList] r.2 SET_EQ) =
      parsers.port_parser strict_base10 ["10".toList] { } SET_EQ) ∧
    parsers.rlim_as_parser strict_base10 18446744073709551615 ["10".toList] { } SET_EQ =
      some (OK, ["10".toList], { sc_rlim_as := 10 }) ∧
    (∀ r, parsers.rlim_as_parser strict_base10 18446744073709551615 ["10".toList] { } SET_EQ =
        some r → r.2.1 = ["10".toList] →
      parsers.rlim_as_parser strict_base10 18446744073709551615 r.2.1 r.2.2 SET_EQ = some r) :=
  ⟨fun _ _ => rfl,
   (scalar_twice_same_when_tokens_kept strict_base10 error_res_zero strict_int (-1)
      18446744073709551615 ["10".toList] { } (fun _ _ => rfl)).1,
   by decide,
   (scalar_twice_same_when_tokens_kept strict_base10 error_res_zero strict_int (-1)
      18446744073709551615 ["10".toList] { } (fun _ _ => rfl)).2.2.2.2.2.2.2.2.2.1⟩

end Xinetd
